import Mathlib

/-!
# vr-climbing: geometric safety subsystem

A shallow embedding of `util/Raycast`, `ClimbSurfaceDetector` and
`ClimbExitCorrector`, with theorems about the embedded functions.

Conventions of the embedding:

* `float` values are exact rationals (`ℚ`); rounding, infinities and NaN are
  outside the model, except in `UpdateRounded`, where the rounding of the
  progress arithmetic of `Update` is explicit.  Division is the total division
  of `ℚ`, so statements about `Update` are made for a duration other than 0.
* `std::sqrt` is supplied by the engine record (`Game.sqrt`); theorems hold for
  every such function unless a hypothesis about it is stated.
* Pointers that may be null are `Option`s.  The engine singletons
  (`PlayerCharacter`, the physics world, `Config::options`, the pose nodes) are
  fields of one record `Game` that every function takes as an argument.
* Member functions of `ClimbExitCorrector` take the object as an explicit
  argument and return the updated object; `SetPosition` returns an updated
  `Game`.
-/

/-! ## Engine types -/

/-- Point type `RE::NiPoint3` with rational coordinates. -/
@[ext]
structure NiPoint3 where
  x : ℚ
  y : ℚ
  z : ℚ
deriving DecidableEq, Repr

namespace NiPoint3

instance : Add NiPoint3 where
  add a b := ⟨a.x + b.x, a.y + b.y, a.z + b.z⟩

instance : Sub NiPoint3 where
  sub a b := ⟨a.x - b.x, a.y - b.y, a.z - b.z⟩

instance : HMul NiPoint3 ℚ NiPoint3 where
  hMul a s := ⟨a.x * s, a.y * s, a.z * s⟩

instance : Inhabited NiPoint3 where
  default := ⟨0, 0, 0⟩

end NiPoint3

/-- Surface categories `RE::COL_LAYER`, in the engine's numbering 0..46. -/
inductive COL_LAYER where
  | kUnidentified | kStatic | kAnimStatic | kTransparent | kClutter | kWeapon
  | kProjectile | kSpell | kBiped | kTrees | kProps | kWater | kTrigger
  | kTerrain | kTrap | kNonCollidable | kCloudTrap | kGround | kPortal
  | kDebrisSmall | kDebrisLarge | kAcousticSpace | kActorZone
  | kProjectileZone | kGasTrap | kShellCasing | kTransparentWall
  | kInvisibleWall | kTransparentSmallAnim | kClutterLarge | kCharController
  | kStairHelper | kDeadBip | kBipedNoCC | kAvoidBox | kCollisionBox
  | kCameraSphere | kDoorDetection | kConeProjectile | kCamera | kItemPicker
  | kLOS | kPathingPick | kUnused0 | kUnused1 | kSpellExplosion | kDroppingPick
deriving DecidableEq, Repr

/-- Numeric value of a category: `static_cast<uint64_t>(layer)`. -/
def COL_LAYER.toNat (l : COL_LAYER) : Nat := l.toCtorIdx

/-- Type `CollisionLayerMask = uint64_t`; every shift below is by at most 46,
so no 64-bit overflow occurs and the mask is a plain natural number. -/
abbrev CollisionLayerMask := Nat

/-- Single-layer mask `1ULL << layer`. -/
def MakeLayerMask (layer : COL_LAYER) : CollisionLayerMask := 1 <<< layer.toNat

namespace LayerMasks

/-- Solid geometry layers: surfaces one can stand on. -/
def kSolid : CollisionLayerMask :=
  MakeLayerMask .kStatic ||| MakeLayerMask .kAnimStatic ||| MakeLayerMask .kTerrain |||
  MakeLayerMask .kGround ||| MakeLayerMask .kTrees ||| MakeLayerMask .kProps

/-- All standard collision layers. -/
def kPhysical : CollisionLayerMask :=
  kSolid ||| MakeLayerMask .kClutter ||| MakeLayerMask .kClutterLarge |||
  MakeLayerMask .kDebrisSmall ||| MakeLayerMask .kDebrisLarge

end LayerMasks

/-- Collidable of a hit: its layer and what `FindCollidableRef` returns for it. -/
structure hkpCollidable where
  collisionLayer : COL_LAYER
  ref : Option Nat
deriving DecidableEq, Repr

/-- Ray output of `PickObject` when `HasHit()` holds. -/
structure RayOutput where
  hitFraction : ℚ
  normal : NiPoint3
  rootCollidable : Option hkpCollidable
deriving DecidableEq, Repr

/-- Physics world: `PickObject from to` is `none` when `HasHit()` is false. -/
structure bhkWorld where
  PickObject : NiPoint3 → NiPoint3 → Option RayOutput

/-- Cell of the player; `GetbhkWorld()` may be null. -/
structure TESObjectCELL where
  bhkWorld : Option bhkWorld

/-- Pose nodes of the VR rig, each the `world.translate` of a node that may be null. -/
structure VR_NODE_DATA where
  LeftWandNode : Option NiPoint3
  RightWandNode : Option NiPoint3
  UprightHmdNode : Option NiPoint3

/-- Player singleton: feet position, cell and VR node data. -/
structure PlayerCharacter where
  position : NiPoint3
  parentCell : Option TESObjectCELL
  vrNodeData : Option VR_NODE_DATA

/-- Read-only configuration `Config::options` (the fields used here). -/
structure Options where
  grabRayLength : ℚ
  beastGrabRayLength : ℚ
  exitCorrectionControlPointScale : ℚ
  exitCorrectionSecondsPerUnit : ℚ

/-- Everything the subsystem reads from the engine. -/
structure Game where
  player : Option PlayerCharacter
  havokWorldScale : ℚ
  sqrt : ℚ → ℚ
  options : Options
  isPlayerInBeastForm : Bool
  isInFlight : Bool

/-- Effect of `player->SetPosition(pos, true)`. -/
def PlayerCharacter.SetPosition (p : PlayerCharacter) (pos : NiPoint3) : PlayerCharacter :=
  { p with position := pos }

namespace VRNodes

/-- Function `VRNodes::GetVRNodeData`. -/
def GetVRNodeData (g : Game) : Option VR_NODE_DATA :=
  match g.player with
  | none => none
  | some player => player.vrNodeData

/-- Function `VRNodes::GetLeftHand`. -/
def GetLeftHand (g : Game) : Option NiPoint3 :=
  match GetVRNodeData g with
  | none => none
  | some vrData => vrData.LeftWandNode

/-- Function `VRNodes::GetRightHand`. -/
def GetRightHand (g : Game) : Option NiPoint3 :=
  match GetVRNodeData g with
  | none => none
  | some vrData => vrData.RightWandNode

/-- Function `VRNodes::GetHMD`. -/
def GetHMD (g : Game) : Option NiPoint3 :=
  match GetVRNodeData g with
  | none => none
  | some vrData => vrData.UprightHmdNode

end VRNodes

/-! ## util/Raycast -/

/-- Result record of a ray query. -/
structure RaycastResult where
  hit : Bool
  distance : ℚ
  hitPoint : NiPoint3
  hitNormal : NiPoint3
  collisionLayer : COL_LAYER
  hitRef : Option Nat
deriving DecidableEq, Repr

namespace Raycast

/-- Physics world reachable from the player: `player->parentCell->GetbhkWorld()`. -/
def physicsWorld (g : Game) : Option bhkWorld :=
  match g.player with
  | none => none
  | some player =>
    match player.parentCell with
    | none => none
    | some cell => cell.bhkWorld

/-- Initial value of `result` in both `CastRay` overloads. -/
def initResult (origin direction : NiPoint3) (maxDistance : ℚ) : RaycastResult :=
  { hit := false
    distance := maxDistance
    hitPoint := origin + direction * maxDistance
    hitNormal := ⟨0, 0, 0⟩
    collisionLayer := .kUnidentified
    hitRef := none }

/-- Unfiltered `Raycast::CastRay(origin, direction, maxDistance)`. -/
def CastRay (g : Game) (origin direction : NiPoint3) (maxDistance : ℚ) : RaycastResult :=
  let result := initResult origin direction maxDistance
  match physicsWorld g with
  | none => result
  | some world =>
    let rayStart := origin
    let rayEnd := origin + direction * maxDistance
    match world.PickObject (rayStart * g.havokWorldScale) (rayEnd * g.havokWorldScale) with
    | none => result
    | some out =>
      let hitFraction := out.hitFraction
      let distance := maxDistance * hitFraction
      { hit := true
        distance := distance
        hitPoint := origin + direction * distance
        hitNormal := out.normal
        collisionLayer :=
          match out.rootCollidable with
          | some c => c.collisionLayer
          | none => .kUnidentified
        hitRef :=
          match out.rootCollidable with
          | some c => c.ref
          | none => none }

/-- Constant `MAX_ITERATIONS` of the filtered cast. -/
def MAX_ITERATIONS : Nat := 8

/-- Constant `EPSILON` of the filtered cast (0.01). -/
def EPSILON : ℚ := 1 / 100

/-- Loop of the filtered cast; the first argument counts the iterations left. -/
def CastRayLoop (world : bhkWorld) (havokWorldScale : ℚ) (direction : NiPoint3)
    (maxDistance : ℚ) (layerMask : CollisionLayerMask) (result : RaycastResult) :
    Nat → ℚ → NiPoint3 → RaycastResult
  | 0, _, _ => result
  | n + 1, accumulatedDistance, currentOrigin =>
    let remainingDistance := maxDistance - accumulatedDistance
    if remainingDistance ≤ 0 then result
    else
      let rayEnd := currentOrigin + direction * remainingDistance
      match world.PickObject (currentOrigin * havokWorldScale) (rayEnd * havokWorldScale) with
      | none => result
      | some out =>
        let hitFraction := out.hitFraction
        let hitDistance := remainingDistance * hitFraction
        let hitPoint := currentOrigin + direction * hitDistance
        let layer : COL_LAYER :=
          match out.rootCollidable with
          | some c => c.collisionLayer
          | none => .kUnidentified
        let hitRef : Option Nat :=
          match out.rootCollidable with
          | some c => c.ref
          | none => none
        let layerBit : CollisionLayerMask := 1 <<< layer.toNat
        if layerMask &&& layerBit ≠ 0 then
          { hit := true
            distance := accumulatedDistance + hitDistance
            hitPoint := hitPoint
            hitNormal := out.normal
            collisionLayer := layer
            hitRef := hitRef }
        else
          CastRayLoop world havokWorldScale direction maxDistance layerMask result n
            (accumulatedDistance + (hitDistance + EPSILON)) (hitPoint + direction * EPSILON)

/-- Filtered `Raycast::CastRay(origin, direction, maxDistance, layerMask)`. -/
def CastRayMask (g : Game) (origin direction : NiPoint3) (maxDistance : ℚ)
    (layerMask : CollisionLayerMask) : RaycastResult :=
  let result := initResult origin direction maxDistance
  match physicsWorld g with
  | none => result
  | some world =>
    CastRayLoop world g.havokWorldScale direction maxDistance layerMask result
      MAX_ITERATIONS 0 origin

end Raycast

/-! ## ClimbSurfaceDetector -/

namespace ClimbSurfaceDetector

/-- Effective ray length: config value, beast-form variant, doubled in flight. -/
def GetEffectiveRayLength (g : Game) : ℚ :=
  let length := if g.isPlayerInBeastForm then g.options.beastGrabRayLength
    else g.options.grabRayLength
  if g.isInFlight then length * 2 else length

/-- Hand position, or the zero vector when the hand node is null. -/
def GetHandPosition (g : Game) (isLeft : Bool) : NiPoint3 :=
  match (if isLeft then VRNodes.GetLeftHand g else VRNodes.GetRightHand g) with
  | some translate => translate
  | none => ⟨0, 0, 0⟩

/-- Switch of `IsClimbableLayer`. -/
def IsClimbableLayer : COL_LAYER → Bool
  | .kStatic => true
  | .kAnimStatic => true
  | .kTerrain => true
  | .kGround => true
  | .kTrees => true
  | .kProps => true
  | _ => false

/-- Public wrapper `IsClimbable`. -/
def IsClimbable (layer : COL_LAYER) : Bool := IsClimbableLayer layer

/-- The six cardinal directions, in the order of the source table. -/
def directions : List NiPoint3 :=
  [⟨1, 0, 0⟩, ⟨-1, 0, 0⟩, ⟨0, 1, 0⟩, ⟨0, -1, 0⟩, ⟨0, 0, 1⟩, ⟨0, 0, -1⟩]

/-- Loop of `CastMultiDirectionalRays`: true at the first direction whose ray
hits a climbable layer. -/
def CastMultiDirectionalRays (g : Game) (origin : NiPoint3) : Bool :=
  let rayLength := GetEffectiveRayLength g
  directions.any fun dir =>
    let result := Raycast.CastRay g origin dir rayLength
    result.hit && IsClimbableLayer result.collisionLayer

/-- Ray from the HMD toward the hand over the HMD-to-hand distance. -/
def CastRayTowardHMD (g : Game) (handPos : NiPoint3) : Bool :=
  match VRNodes.GetHMD g with
  | none => false
  | some hmdPos =>
    let toHand : NiPoint3 := ⟨handPos.x - hmdPos.x, handPos.y - hmdPos.y, handPos.z - hmdPos.z⟩
    let distance := g.sqrt (toHand.x * toHand.x + toHand.y * toHand.y + toHand.z * toHand.z)
    if distance < 1 / 1000 then false
    else
      let direction : NiPoint3 := ⟨toHand.x / distance, toHand.y / distance, toHand.z / distance⟩
      let result := Raycast.CastRay g hmdPos direction distance
      result.hit && IsClimbableLayer result.collisionLayer

/-- Function `CanGrabSurface(isLeft)`. -/
def CanGrabSurface (g : Game) (isLeft : Bool) : Bool :=
  let handPos := GetHandPosition g isLeft
  if handPos.x = 0 ∧ handPos.y = 0 ∧ handPos.z = 0 then false
  else if CastMultiDirectionalRays g handPos then true
  else CastRayTowardHMD g handPos

end ClimbSurfaceDetector

/-! ## ClimbExitCorrector -/

/-- Fields of the `ClimbExitCorrector` object. -/
structure ClimbExitCorrector where
  isCorrecting : Bool
  m_startPos : NiPoint3
  m_controlPoint : NiPoint3
  m_targetPos : NiPoint3
  m_progress : ℚ
  m_duration : ℚ
  m_lastKnownSafePosition : NiPoint3
  m_hasLastKnownSafePosition : Bool
  m_safePositionCheckCounter : Int
  m_loggedHeightThisSession : Bool
deriving DecidableEq, Repr

namespace ClimbExitCorrector

/-- Constant `SAFE_POSITION_CHECK_INTERVAL`. -/
def SAFE_POSITION_CHECK_INTERVAL : Int := 50

/-- Constant `MIN_STANDING_HEIGHT`. -/
def MIN_STANDING_HEIGHT : ℚ := 80

/-- Constant `HEADROOM_MARGIN`. -/
def HEADROOM_MARGIN : ℚ := 10

/-- Freshly constructed controller (default member initialisers). -/
def init : ClimbExitCorrector :=
  { isCorrecting := false
    m_startPos := ⟨0, 0, 0⟩
    m_controlPoint := ⟨0, 0, 0⟩
    m_targetPos := ⟨0, 0, 0⟩
    m_progress := 0
    m_duration := 0
    m_lastKnownSafePosition := ⟨0, 0, 0⟩
    m_hasLastKnownSafePosition := false
    m_safePositionCheckCounter := 0
    m_loggedHeightThisSession := false }

/-- Function `DetectCorrectionNeeded(outTargetPos)`: the returned amount and the
value of `outTargetPos` after the call. -/
def DetectCorrectionNeeded (g : Game) (outTargetPos : NiPoint3) : ℚ × NiPoint3 :=
  match g.player with
  | none => (0, outTargetPos)
  | some player =>
    match VRNodes.GetHMD g with
    | none => (0, outTargetPos)
    | some hmdPos =>
      let playerPos := player.position
      let DETECTION_DEPTH : ℚ := 130
      let detectionTarget : NiPoint3 := ⟨hmdPos.x, hmdPos.y, hmdPos.z - DETECTION_DEPTH⟩
      let toTarget := detectionTarget - hmdPos
      let distance := g.sqrt (toTarget.x * toTarget.x + toTarget.y * toTarget.y
        + toTarget.z * toTarget.z)
      if distance < 1 then (0, outTargetPos)
      else
        let direction : NiPoint3 :=
          ⟨toTarget.x / distance, toTarget.y / distance, toTarget.z / distance⟩
        let result := Raycast.CastRayMask g hmdPos direction distance LayerMasks.kSolid
        if !result.hit then (0, outTargetPos)
        else
          let hitZ := result.hitPoint.z
          let feetZ := playerPos.z
          if feetZ < hitZ then
            let correctionAmount := hitZ - feetZ
            (correctionAmount, { playerPos with z := playerPos.z + correctionAmount })
          else (0, outTargetPos)

/-- Function `CheckHeadroomAt(position, requiredHeight)`. -/
def CheckHeadroomAt (g : Game) (position : NiPoint3) (requiredHeight : ℚ) : ℚ :=
  let upDir : NiPoint3 := ⟨0, 0, 1⟩
  let checkStart : NiPoint3 := { position with z := position.z + 1 }
  let headroomCheck :=
    Raycast.CastRayMask g checkStart upDir (requiredHeight + 10) LayerMasks.kSolid
  if headroomCheck.hit then headroomCheck.distance
  else requiredHeight + 100

/-- Function `StartCorrection(initialVelocity)`: return value, updated object and
the game (which it never changes). -/
def StartCorrection (g : Game) (self : ClimbExitCorrector) (initialVelocity : NiPoint3) :
    Bool × ClimbExitCorrector × Game :=
  if self.isCorrecting then (true, self, g)
  else
    match g.player with
    | none => (false, self, g)
    | some player =>
      let detected := DetectCorrectionNeeded g ⟨0, 0, 0⟩
      let correctionAmount := detected.1
      let targetPos := detected.2
      if correctionAmount < 1 / 10 then (false, self, g)
      else
        let self1 := { self with m_startPos := player.position, m_targetPos := targetPos }
        let requiredHeight :=
          match VRNodes.GetHMD g with
          | some hmd =>
            let currentPlayerHeight := hmd.z - self1.m_startPos.z
            max currentPlayerHeight MIN_STANDING_HEIGHT + HEADROOM_MARGIN
          | none => MIN_STANDING_HEIGHT + HEADROOM_MARGIN
        let availableHeadroom := CheckHeadroomAt g self1.m_targetPos requiredHeight
        let revised : Option (ℚ × ClimbExitCorrector) :=
          if availableHeadroom < requiredHeight then
            if self1.m_hasLastKnownSafePosition then
              let self2 := { self1 with m_targetPos := self1.m_lastKnownSafePosition }
              let dx := self2.m_targetPos.x - self2.m_startPos.x
              let dy := self2.m_targetPos.y - self2.m_startPos.y
              let dz := self2.m_targetPos.z - self2.m_startPos.z
              some (g.sqrt (dx * dx + dy * dy + dz * dz), self2)
            else
              let maxSafeCorrection := availableHeadroom - 5
              if maxSafeCorrection < 1 then none
              else
                some (maxSafeCorrection,
                  { self1 with
                    m_targetPos :=
                      { self1.m_targetPos with z := self1.m_startPos.z + maxSafeCorrection } })
          else some (correctionAmount, self1)
        match revised with
        | none => (false, self1, g)
        | some (correctionAmount, self2) =>
          let velMagnitude := g.sqrt (initialVelocity.x * initialVelocity.x
            + initialVelocity.y * initialVelocity.y + initialVelocity.z * initialVelocity.z)
          let controlPoint : NiPoint3 :=
            if velMagnitude > 1 then
              let velDir : NiPoint3 := ⟨initialVelocity.x / velMagnitude,
                initialVelocity.y / velMagnitude, initialVelocity.z / velMagnitude⟩
              let pullDistance := correctionAmount * g.options.exitCorrectionControlPointScale
              ⟨(self2.m_startPos.x + self2.m_targetPos.x) * (1 / 2) + velDir.x * pullDistance,
               (self2.m_startPos.y + self2.m_targetPos.y) * (1 / 2) + velDir.y * pullDistance,
               (self2.m_startPos.z + self2.m_targetPos.z) * (1 / 2) + velDir.z * pullDistance⟩
            else
              ⟨(self2.m_startPos.x + self2.m_targetPos.x) * (1 / 2),
               (self2.m_startPos.y + self2.m_targetPos.y) * (1 / 2),
               (self2.m_startPos.z + self2.m_targetPos.z) * (1 / 2)⟩
          let dx := self2.m_targetPos.x - self2.m_startPos.x
          let dy := self2.m_targetPos.y - self2.m_startPos.y
          let dz := self2.m_targetPos.z - self2.m_startPos.z
          let linearDistance := g.sqrt (dx * dx + dy * dy + dz * dz)
          (true,
            { self2 with
              m_controlPoint := controlPoint
              m_duration := linearDistance * g.options.exitCorrectionSecondsPerUnit
              m_progress := 0
              isCorrecting := true },
            g)

/-- Quadratic Bezier `B(t) = (1-t)^2 P0 + 2(1-t)t P1 + t^2 P2`. -/
def EvaluateBezier (self : ClimbExitCorrector) (t : ℚ) : NiPoint3 :=
  let oneMinusT := 1 - t
  let oneMinusT2 := oneMinusT * oneMinusT
  let t2 := t * t
  let twoOneMinusTT := 2 * oneMinusT * t
  ⟨oneMinusT2 * self.m_startPos.x + twoOneMinusTT * self.m_controlPoint.x + t2 * self.m_targetPos.x,
   oneMinusT2 * self.m_startPos.y + twoOneMinusTT * self.m_controlPoint.y + t2 * self.m_targetPos.y,
   oneMinusT2 * self.m_startPos.z + twoOneMinusTT * self.m_controlPoint.z + t2 * self.m_targetPos.z⟩

/-- Function `Cancel()`. -/
def Cancel (self : ClimbExitCorrector) : ClimbExitCorrector :=
  let self1 := if self.isCorrecting then { self with isCorrecting := false } else self
  { self1 with m_progress := 0 }

/-- Ease-out remap of `Update`: `easedT = 1 - (1 - m_progress) * (1 - m_progress)`. -/
def easedT (m_progress : ℚ) : ℚ := 1 - (1 - m_progress) * (1 - m_progress)

/-- Function `Update(deltaTime)`: return value, updated object and the game
after the `SetPosition` call, if one was made.  The progress arithmetic is
exact here (`UpdateRounded` has it rounded), and the quotient is the code's
only for `m_duration` other than 0. -/
def Update (g : Game) (self : ClimbExitCorrector) (deltaTime : ℚ) :
    Bool × ClimbExitCorrector × Game :=
  if !self.isCorrecting then (false, self, g)
  else
    match g.player with
    | none => (false, Cancel self, g)
    | some player =>
      let self1 := { self with m_progress := self.m_progress + deltaTime / self.m_duration }
      if self1.m_progress ≥ 1 then
        (false, { self1 with isCorrecting := false },
          { g with player := some (player.SetPosition self1.m_targetPos) })
      else
        let newPos := EvaluateBezier self1 (easedT self1.m_progress)
        (true, self1, { g with player := some (player.SetPosition newPos) })

end ClimbExitCorrector

/-! ## Worlds used in the scenarios -/

namespace Scenario

/-- Horizontal plane `z = height` carrying one collision layer. -/
structure Plane where
  height : ℚ
  layer : COL_LAYER
deriving DecidableEq, Repr

/-- Highest plane of a list. -/
def highest : List Plane → Option Plane
  | [] => none
  | p :: rest =>
    match highest rest with
    | none => some p
    | some q => if q.height < p.height then some p else some q

/-- Lowest plane of a list. -/
def lowest : List Plane → Option Plane
  | [] => none
  | p :: rest =>
    match lowest rest with
    | none => some p
    | some q => if p.height < q.height then some p else some q

/-- Ray output for the segment from `a` to `b` meeting plane `p`. -/
def planeOutput (a b : NiPoint3) (p : Plane) : RayOutput :=
  { hitFraction := (p.height - a.z) / (b.z - a.z)
    normal := ⟨0, 0, if b.z < a.z then 1 else -1⟩
    rootCollidable := some ⟨p.layer, none⟩ }

/-- Physics world made of infinite horizontal planes: a segment that descends
meets the highest plane between its end points, one that ascends the lowest,
and a horizontal segment meets nothing. -/
def flatWorld (planes : List Plane) : bhkWorld where
  PickObject a b :=
    if b.z < a.z then
      (highest (planes.filter fun p => b.z ≤ p.height ∧ p.height ≤ a.z)).map (planeOutput a b)
    else if a.z < b.z then
      (lowest (planes.filter fun p => a.z ≤ p.height ∧ p.height ≤ b.z)).map (planeOutput a b)
    else none

/-- Square root that is exact on squares of rationals. -/
def sqrtQ (x : ℚ) : ℚ := (Nat.sqrt x.num.toNat : ℚ) / (Nat.sqrt x.den : ℚ)

/-- Game in a world of horizontal planes, with unit Havok scale. -/
def game (planes : List Plane) (feet : NiPoint3) (hmd leftHand rightHand : Option NiPoint3) :
    Game where
  player := some
    { position := feet
      parentCell := some ⟨some (flatWorld planes)⟩
      vrNodeData := some ⟨leftHand, rightHand, hmd⟩ }
  havokWorldScale := 1
  sqrt := sqrtQ
  options :=
    { grabRayLength := 20
      beastGrabRayLength := 30
      exitCorrectionControlPointScale := 1 / 2
      exitCorrectionSecondsPerUnit := 1 / 100 }
  isPlayerInBeastForm := false
  isInFlight := false

end Scenario

namespace Raycast

/-- Surface met by a ray: its distance from the ray origin along the ray, its
normal and its collidable. -/
structure Surface where
  distance : ℚ
  normal : NiPoint3
  collidable : hkpCollidable

/-- The world, along the ray from `origin` in `direction`, consists of the two
surfaces `s1` and `s2`: a query that starts on the ray at distance `s` and runs
for length `r` reports the nearer of the two that lies within `[s, s + r]`, at
the fraction of the query length where it lies, and nothing if neither does. -/
def StackedPair (world : bhkWorld) (scale : ℚ) (origin direction : NiPoint3)
    (s1 s2 : Surface) : Prop :=
  ∀ s r : ℚ, 0 ≤ s → 0 < r →
    world.PickObject ((origin + direction * s) * scale)
        ((origin + direction * s + direction * r) * scale) =
      if s ≤ s1.distance ∧ s1.distance ≤ s + r then
        some ⟨(s1.distance - s) / r, s1.normal, some s1.collidable⟩
      else if s ≤ s2.distance ∧ s2.distance ≤ s + r then
        some ⟨(s2.distance - s) / r, s2.normal, some s2.collidable⟩
      else none

end Raycast

namespace Scenario

/-- Solid floor at height 60 above terrain at height 0. -/
def floorPlanes : List Plane := [⟨60, .kStatic⟩, ⟨0, .kTerrain⟩]

/-- Clutter at height 199 with a static surface one unit below it. -/
def stackedPlanes : List Plane := [⟨199, .kClutter⟩, ⟨198, .kStatic⟩]

/-- Player with feet at height 40 and viewpoint at height 200 over the floor. -/
def floorGame : Game := game floorPlanes ⟨0, 0, 40⟩ (some ⟨0, 0, 200⟩) none none

/-- Game over `stackedPlanes`. -/
def stackedGame : Game := game stackedPlanes ⟨0, 0, 40⟩ (some ⟨0, 0, 200⟩) none none

/-- Player record of the scenario games. -/
def floorPlayer : PlayerCharacter :=
  { position := ⟨0, 0, 40⟩
    parentCell := some ⟨some (flatWorld floorPlanes)⟩
    vrNodeData := some ⟨none, none, some ⟨0, 0, 200⟩⟩ }

/-- Controller in the middle of a correction from height 40 to height 60 that
lasts one second. -/
def running : ClimbExitCorrector :=
  { ClimbExitCorrector.init with
    isCorrecting := true
    m_startPos := ⟨0, 0, 40⟩
    m_controlPoint := ⟨0, 0, 50⟩
    m_targetPos := ⟨0, 0, 60⟩
    m_duration := 1 }

end Scenario

/-! ## Safe-position tracking and runs of calls -/

namespace ClimbExitCorrector

/-- Function `UpdateSafePositionCheck()`.  The counter is a C `int`; it is reset
whenever it reaches the interval, so no overflow arises and it is an integer
here. -/
def UpdateSafePositionCheck (g : Game) (self : ClimbExitCorrector) : ClimbExitCorrector :=
  let self1 := { self with m_safePositionCheckCounter := self.m_safePositionCheckCounter + 1 }
  if self1.m_safePositionCheckCounter < SAFE_POSITION_CHECK_INTERVAL then self1
  else
    let self2 := { self1 with m_safePositionCheckCounter := 0 }
    match g.player with
    | none => self2
    | some player =>
      match VRNodes.GetHMD g with
      | none => self2
      | some hmdPos =>
        let playerPos := player.position
        let currentPlayerHeight := hmdPos.z - playerPos.z
        let requiredHeight := max currentPlayerHeight MIN_STANDING_HEIGHT + HEADROOM_MARGIN
        let self3 :=
          if !self2.m_loggedHeightThisSession then
            { self2 with m_loggedHeightThisSession := true }
          else self2
        let downDir : NiPoint3 := ⟨0, 0, -1⟩
        let groundCheck := Raycast.CastRayMask g hmdPos downDir 200 LayerMasks.kSolid
        let groundZ := if groundCheck.hit then groundCheck.hitPoint.z else playerPos.z
        let upDir : NiPoint3 := ⟨0, 0, 1⟩
        let ceilingCheckStart : NiPoint3 := ⟨hmdPos.x, hmdPos.y, groundZ + 1⟩
        let ceilingCheck :=
          Raycast.CastRayMask g ceilingCheckStart upDir (requiredHeight + 20) LayerMasks.kSolid
        let availableHeight :=
          if ceilingCheck.hit then ceilingCheck.distance else requiredHeight + 100
        if availableHeight ≥ requiredHeight then
          { self3 with
            m_lastKnownSafePosition := ⟨hmdPos.x, hmdPos.y, groundZ⟩
            m_hasLastKnownSafePosition := true }
        else self3

/-- Function `ClearSafePosition()`. -/
def ClearSafePosition (self : ClimbExitCorrector) : ClimbExitCorrector :=
  { self with
    m_hasLastKnownSafePosition := false
    m_safePositionCheckCounter := SAFE_POSITION_CHECK_INTERVAL - 1
    m_loggedHeightThisSession := false }

/-- A call of `UpdateSafePositionCheck` made in this state gets past the
throttle `if (m_safePositionCheckCounter < SAFE_POSITION_CHECK_INTERVAL) return;`
and runs the body of the check. -/
def runsBody (self : ClimbExitCorrector) : Prop :=
  ¬ (self.m_safePositionCheckCounter + 1 < SAFE_POSITION_CHECK_INTERVAL)

instance (self : ClimbExitCorrector) : Decidable (runsBody self) := by
  unfold runsBody
  infer_instance

/-- Lines 237-278 of `StartCorrection`: from the stored start and target and
the correction amount in force, set the control point, the duration, the
progress and the flag. -/
def startCurve (g : Game) (self : ClimbExitCorrector) (correctionAmount : ℚ)
    (initialVelocity : NiPoint3) : ClimbExitCorrector :=
  let velMagnitude := g.sqrt (initialVelocity.x * initialVelocity.x
    + initialVelocity.y * initialVelocity.y + initialVelocity.z * initialVelocity.z)
  let controlPoint : NiPoint3 :=
    if velMagnitude > 1 then
      let velDir : NiPoint3 := ⟨initialVelocity.x / velMagnitude,
        initialVelocity.y / velMagnitude, initialVelocity.z / velMagnitude⟩
      let pullDistance := correctionAmount * g.options.exitCorrectionControlPointScale
      ⟨(self.m_startPos.x + self.m_targetPos.x) * (1 / 2) + velDir.x * pullDistance,
       (self.m_startPos.y + self.m_targetPos.y) * (1 / 2) + velDir.y * pullDistance,
       (self.m_startPos.z + self.m_targetPos.z) * (1 / 2) + velDir.z * pullDistance⟩
    else
      ⟨(self.m_startPos.x + self.m_targetPos.x) * (1 / 2),
       (self.m_startPos.y + self.m_targetPos.y) * (1 / 2),
       (self.m_startPos.z + self.m_targetPos.z) * (1 / 2)⟩
  let dx := self.m_targetPos.x - self.m_startPos.x
  let dy := self.m_targetPos.y - self.m_startPos.y
  let dz := self.m_targetPos.z - self.m_startPos.z
  let linearDistance := g.sqrt (dx * dx + dy * dy + dz * dz)
  { self with
    m_controlPoint := controlPoint
    m_duration := linearDistance * g.options.exitCorrectionSecondsPerUnit
    m_progress := 0
    isCorrecting := true }

/-- Environment assumptions under which durations are meaningful: the square
root is never negative and the configured seconds-per-unit is not negative. -/
def SaneGame (g : Game) : Prop :=
  (∀ x : ℚ, 0 ≤ g.sqrt x) ∧ 0 ≤ g.options.exitCorrectionSecondsPerUnit

/-- Controller states reachable from the freshly constructed one by calls of the
public member functions, each made in an arbitrary game that satisfies
`SaneGame`, with non-negative frame times for `Update`: the states reached
under a sound configuration (`ReachableByCalls` puts no condition on the
games). -/
inductive Reachable : ClimbExitCorrector → Prop
  | init : Reachable ClimbExitCorrector.init
  | startCorrection (g : Game) (v : NiPoint3) (s : ClimbExitCorrector) :
      SaneGame g → Reachable s → Reachable (StartCorrection g s v).2.1
  | update (g : Game) (deltaTime : ℚ) (s : ClimbExitCorrector) :
      0 ≤ deltaTime → Reachable s → Reachable (Update g s deltaTime).2.1
  | cancel (s : ClimbExitCorrector) : Reachable s → Reachable (Cancel s)
  | updateSafePositionCheck (g : Game) (s : ClimbExitCorrector) :
      Reachable s → Reachable (UpdateSafePositionCheck g s)
  | clearSafePosition (s : ClimbExitCorrector) : Reachable s → Reachable (ClearSafePosition s)

end ClimbExitCorrector

namespace Scenario

/-- Player record of `game planes feet hmd leftHand rightHand`. -/
def playerOf (planes : List Plane) (feet : NiPoint3) (hmd leftHand rightHand : Option NiPoint3) :
    PlayerCharacter :=
  { position := feet
    parentCell := some ⟨some (flatWorld planes)⟩
    vrNodeData := some ⟨leftHand, rightHand, hmd⟩ }

/-- Static floor at height 60 under a static ceiling at height 111. -/
def lowCeilingPlanes : List Plane := [⟨111, .kStatic⟩, ⟨60, .kStatic⟩]

/-- Player in the low passage: feet 2 units below the floor, viewpoint at
height 100. -/
def lowCeilingGame : Game := game lowCeilingPlanes ⟨0, 0, 58⟩ (some ⟨0, 0, 100⟩) none none

/-- Player over the open floor with the viewpoint 130 units above it: feet at
height 40, viewpoint at height 190. -/
def standGame : Game := game floorPlanes ⟨0, 0, 40⟩ (some ⟨0, 0, 190⟩) none none

/-- Idle controller with the safe position `(30, 0, 60)` on record. -/
def withSafe : ClimbExitCorrector :=
  { ClimbExitCorrector.init with
    m_lastKnownSafePosition := ⟨30, 0, 60⟩
    m_hasLastKnownSafePosition := true }

/-- Controller right after `StartCorrection` with zero velocity was called on a
freshly constructed controller in `standGame` (see `Scenario.standGame_started`). -/
def started : ClimbExitCorrector :=
  { ClimbExitCorrector.init with
    isCorrecting := true
    m_startPos := ⟨0, 0, 40⟩
    m_controlPoint := ⟨0, 0, 50⟩
    m_targetPos := ⟨0, 0, 60⟩
    m_progress := 0
    m_duration := 1 / 5 }

/-- Controller after one `Update` of one second applied to `started` (see
`Scenario.started_updated`). -/
def completed : ClimbExitCorrector :=
  { started with isCorrecting := false, m_progress := 5 }

end Scenario

/-! ## GetAllowedDistance, FindHorizontalEscape and the queries of a cast -/

namespace Raycast

/-- Unfiltered `Raycast::GetAllowedDistance(origin, direction, maxDistance, buffer)`. -/
def GetAllowedDistance (g : Game) (origin direction : NiPoint3) (maxDistance buffer : ℚ) : ℚ :=
  let rayResult := CastRay g origin direction (maxDistance + buffer)
  if rayResult.hit then
    let allowed := rayResult.distance - buffer
    if allowed > 0 then allowed else 0
  else maxDistance

/-- Overload of `Raycast::GetAllowedDistance` taking a layer filter
(`LayerFilter = bool(*)(RE::COL_LAYER)`). -/
def GetAllowedDistanceFilter (g : Game) (origin direction : NiPoint3) (maxDistance buffer : ℚ)
    (layerFilter : COL_LAYER → Bool) : ℚ :=
  let rayResult := CastRay g origin direction (maxDistance + buffer)
  if rayResult.hit && layerFilter rayResult.collisionLayer then
    let allowed := rayResult.distance - buffer
    if allowed > 0 then allowed else 0
  else maxDistance

/-- Contract of the physics engine assumed where a claim needs it: every hit
fraction reported by `PickObject` lies in `[0, 1]`. -/
def FractionsInUnit (world : bhkWorld) : Prop :=
  ∀ (a b : NiPoint3) (out : RayOutput),
    world.PickObject a b = some out → 0 ≤ out.hitFraction ∧ out.hitFraction ≤ 1

/-- Layer that both `CastRay` overloads read off a ray output. -/
def outputLayer (out : RayOutput) : COL_LAYER :=
  match out.rootCollidable with
  | some c => c.collisionLayer
  | none => .kUnidentified

/-- The loop of the filtered cast instrumented to list, in order, what each
`PickObject` call it makes returns.  Same control flow as `CastRayLoop`. -/
def CastRayLoopQueries (world : bhkWorld) (havokWorldScale : ℚ) (direction : NiPoint3)
    (maxDistance : ℚ) (layerMask : CollisionLayerMask) :
    Nat → ℚ → NiPoint3 → List (Option RayOutput)
  | 0, _, _ => []
  | n + 1, accumulatedDistance, currentOrigin =>
    let remainingDistance := maxDistance - accumulatedDistance
    if remainingDistance ≤ 0 then []
    else
      let rayEnd := currentOrigin + direction * remainingDistance
      match world.PickObject (currentOrigin * havokWorldScale) (rayEnd * havokWorldScale) with
      | none => [none]
      | some out =>
        let hitFraction := out.hitFraction
        let hitDistance := remainingDistance * hitFraction
        let hitPoint := currentOrigin + direction * hitDistance
        let layer : COL_LAYER :=
          match out.rootCollidable with
          | some c => c.collisionLayer
          | none => .kUnidentified
        let layerBit : CollisionLayerMask := 1 <<< layer.toNat
        if layerMask &&& layerBit ≠ 0 then [some out]
        else
          some out :: CastRayLoopQueries world havokWorldScale direction maxDistance layerMask n
            (accumulatedDistance + (hitDistance + EPSILON)) (hitPoint + direction * EPSILON)

/-- Results of the primitive queries issued by the filtered `CastRay`. -/
def CastRayMaskQueries (g : Game) (origin direction : NiPoint3) (maxDistance : ℚ)
    (layerMask : CollisionLayerMask) : List (Option RayOutput) :=
  match physicsWorld g with
  | none => []
  | some world =>
    CastRayLoopQueries world g.havokWorldScale direction maxDistance layerMask
      MAX_ITERATIONS 0 origin

end Raycast

namespace ClimbExitCorrector

/-- Direction table of `FindHorizontalEscape`: East, West, North, South, then
NE, NW, SE, SW. -/
def escapeDirections : List (ℚ × ℚ) :=
  [(1, 0), (-1, 0), (0, 1), (0, -1),
   (707 / 1000, 707 / 1000), (-707 / 1000, 707 / 1000),
   (707 / 1000, -707 / 1000), (-707 / 1000, -707 / 1000)]

/-- Constant `HEADROOM_REQUIRED` of `FindHorizontalEscape`. -/
def HEADROOM_REQUIRED : ℚ := 140

/-- Constant `GROUND_SEARCH_DEPTH` of `FindHorizontalEscape`. -/
def GROUND_SEARCH_DEPTH : ℚ := 200

/-- Loop of `FindHorizontalEscape` over the directions still to try; `continue`
is the recursive call. -/
def FindHorizontalEscapeLoop (g : Game) (playerPos hmdPos : NiPoint3) (searchDistance : ℚ)
    (outTargetPos : NiPoint3) : List (ℚ × ℚ) → Bool × NiPoint3
  | [] => (false, outTargetPos)
  | (dirX, dirY) :: rest =>
    let testPos : NiPoint3 :=
      ⟨playerPos.x + dirX * searchDistance, playerPos.y + dirY * searchDistance, playerPos.z⟩
    let horDir : NiPoint3 := ⟨dirX, dirY, 0⟩
    let pathCheck := Raycast.CastRayMask g playerPos horDir searchDistance LayerMasks.kSolid
    if pathCheck.hit = true ∧ pathCheck.distance < searchDistance - 5 then
      FindHorizontalEscapeLoop g playerPos hmdPos searchDistance outTargetPos rest
    else
      let groundCheckStart : NiPoint3 := ⟨testPos.x, testPos.y, hmdPos.z⟩
      let downDir : NiPoint3 := ⟨0, 0, -1⟩
      let groundCheck :=
        Raycast.CastRayMask g groundCheckStart downDir GROUND_SEARCH_DEPTH LayerMasks.kSolid
      if groundCheck.hit = false then
        FindHorizontalEscapeLoop g playerPos hmdPos searchDistance outTargetPos rest
      else
        let testPos2 : NiPoint3 := { testPos with z := groundCheck.hitPoint.z }
        let availableHeadroom := CheckHeadroomAt g testPos2 HEADROOM_REQUIRED
        if availableHeadroom < HEADROOM_REQUIRED then
          FindHorizontalEscapeLoop g playerPos hmdPos searchDistance outTargetPos rest
        else (true, testPos2)

/-- Function `FindHorizontalEscape(searchDistance, outTargetPos)`: the return
value and the value of `outTargetPos` after the call. -/
def FindHorizontalEscape (g : Game) (searchDistance : ℚ) (outTargetPos : NiPoint3) :
    Bool × NiPoint3 :=
  match g.player with
  | none => (false, outTargetPos)
  | some player =>
    match VRNodes.GetHMD g with
    | none => (false, outTargetPos)
    | some hmdPos =>
      FindHorizontalEscapeLoop g player.position hmdPos searchDistance outTargetPos
        escapeDirections

/-- Escape candidate of a direction, in the words of the specification: the
point `searchDistance` away from the feet in that direction, at the height of
the Solid ground found below viewpoint height. -/
def escapeCandidate (g : Game) (playerPos hmdPos : NiPoint3) (searchDistance : ℚ)
    (dir : ℚ × ℚ) : NiPoint3 :=
  ⟨playerPos.x + dir.1 * searchDistance, playerPos.y + dir.2 * searchDistance,
    (Raycast.CastRayMask g
      ⟨playerPos.x + dir.1 * searchDistance, playerPos.y + dir.2 * searchDistance, hmdPos.z⟩
      ⟨0, 0, -1⟩ 200 LayerMasks.kSolid).hitPoint.z⟩

/-- The three checks of a direction, in the words of the specification: no
Solid hit on the horizontal path closer than `searchDistance - 5`; Solid ground
found within 200 units below viewpoint height at the candidate XY; headroom of
at least 140 at that ground point. -/
def EscapePasses (g : Game) (playerPos hmdPos : NiPoint3) (searchDistance : ℚ)
    (dir : ℚ × ℚ) : Prop :=
  ¬ ((Raycast.CastRayMask g playerPos ⟨dir.1, dir.2, 0⟩ searchDistance LayerMasks.kSolid).hit
        = true ∧
      (Raycast.CastRayMask g playerPos ⟨dir.1, dir.2, 0⟩ searchDistance
        LayerMasks.kSolid).distance < searchDistance - 5) ∧
  (Raycast.CastRayMask g
      ⟨playerPos.x + dir.1 * searchDistance, playerPos.y + dir.2 * searchDistance, hmdPos.z⟩
      ⟨0, 0, -1⟩ 200 LayerMasks.kSolid).hit = true ∧
  140 ≤ CheckHeadroomAt g (escapeCandidate g playerPos hmdPos searchDistance dir) 140

instance (g : Game) (playerPos hmdPos : NiPoint3) (searchDistance : ℚ) (dir : ℚ × ℚ) :
    Decidable (EscapePasses g playerPos hmdPos searchDistance dir) := by
  unfold EscapePasses
  infer_instance

end ClimbExitCorrector

/-! ## Scenario and vocabulary of the last claims -/

namespace Scenario

/-- Eight sheets of clutter one unit apart below height 200, over a static
floor at height 60. -/
def curtainPlanes : List Plane :=
  [⟨199, .kClutter⟩, ⟨198, .kClutter⟩, ⟨197, .kClutter⟩, ⟨196, .kClutter⟩,
   ⟨195, .kClutter⟩, ⟨194, .kClutter⟩, ⟨193, .kClutter⟩, ⟨192, .kClutter⟩, ⟨60, .kStatic⟩]

/-- Game over `curtainPlanes`. -/
def curtainGame : Game := game curtainPlanes ⟨0, 0, 40⟩ (some ⟨0, 0, 200⟩) none none

/-- Outputs of the eight queries that the Solid-filtered ray cast 200 units
down from height 200 issues over `curtainPlanes`: one per sheet of clutter. -/
def curtainOutputs : List (Option RayOutput) :=
  [some ⟨1 / 200, ⟨0, 0, 1⟩, some ⟨.kClutter, none⟩⟩,
   some ⟨1 / 201, ⟨0, 0, 1⟩, some ⟨.kClutter, none⟩⟩,
   some ⟨99 / 19799, ⟨0, 0, 1⟩, some ⟨.kClutter, none⟩⟩,
   some ⟨99 / 19699, ⟨0, 0, 1⟩, some ⟨.kClutter, none⟩⟩,
   some ⟨33 / 6533, ⟨0, 0, 1⟩, some ⟨.kClutter, none⟩⟩,
   some ⟨99 / 19499, ⟨0, 0, 1⟩, some ⟨.kClutter, none⟩⟩,
   some ⟨99 / 19399, ⟨0, 0, 1⟩, some ⟨.kClutter, none⟩⟩,
   some ⟨33 / 6433, ⟨0, 0, 1⟩, some ⟨.kClutter, none⟩⟩]

end Scenario

/-- Nearest integer to `x`, ties going to the even one. -/
def roundHalfEven (x : ℚ) : ℤ :=
  if 2 * Int.fract x < 1 then ⌊x⌋
  else if 1 < 2 * Int.fract x then ⌊x⌋ + 1
  else if ⌊x⌋ % 2 = 0 then ⌊x⌋
  else ⌊x⌋ + 1

/-- Rounding of a positive rational to 24 significant bits, to nearest with
ties to even. -/
def roundSignificand (x : ℚ) : ℚ :=
  (roundHalfEven (x * 2 ^ (23 - Int.log 2 x)) : ℚ) * 2 ^ (Int.log 2 x - 23)

/-- Rounding of IEEE-754 binary32 (`float`) arithmetic in its default mode,
round to nearest with ties to even: the value a `float` operation stores when
its exact result is `x`.  Exponent range (overflow, subnormals) is not
modelled. -/
def roundBinary32 (x : ℚ) : ℚ :=
  if x = 0 then 0
  else if 0 < x then roundSignificand x
  else -roundSignificand (-x)

namespace ClimbExitCorrector

/-- Function `Update(deltaTime)` with the rounding of the two `float` operations
of `m_progress += deltaTime / m_duration` made explicit: `rnd` maps the exact
result of an operation to the value stored.  The test `m_progress >= 1.0f`
then reads the rounded progress.  The curve point of the branch that
continues is left as in `Update`. -/
def UpdateRounded (rnd : ℚ → ℚ) (g : Game) (self : ClimbExitCorrector) (deltaTime : ℚ) :
    Bool × ClimbExitCorrector × Game :=
  if !self.isCorrecting then (false, self, g)
  else
    match g.player with
    | none => (false, Cancel self, g)
    | some player =>
      let self1 :=
        { self with m_progress := rnd (self.m_progress + rnd (deltaTime / self.m_duration)) }
      if self1.m_progress ≥ 1 then
        (false, { self1 with isCorrecting := false },
          { g with player := some (player.SetPosition self1.m_targetPos) })
      else
        let newPos := EvaluateBezier self1 (easedT self1.m_progress)
        (true, self1, { g with player := some (player.SetPosition newPos) })

/-- Object and game after a run of `UpdateRounded` calls with the given frame
times. -/
def afterUpdatesRounded (rnd : ℚ → ℚ) (g : Game) (self : ClimbExitCorrector) :
    List ℚ → ClimbExitCorrector × Game
  | [] => (self, g)
  | d :: ds =>
    afterUpdatesRounded rnd (UpdateRounded rnd g self d).2.2 (UpdateRounded rnd g self d).2.1 ds

/-- Progress accumulated by `m_progress += deltaTime / m_duration` over the
frame times of a list, from the progress `p`, for a correction of duration
`D`. -/
def accumulatedProgress (rnd : ℚ → ℚ) (D : ℚ) : ℚ → List ℚ → ℚ
  | p, [] => p
  | p, d :: ds => accumulatedProgress rnd D (rnd (p + rnd (d / D))) ds

end ClimbExitCorrector

namespace Scenario

/-- Correction from height 40 to height 60 that lasts twelve seconds, just
started. -/
def slow : ClimbExitCorrector :=
  { running with m_duration := 12 }

/-- Thirteen frames of one second each. -/
def secondFrames : List ℚ := [1, 1, 1, 1, 1, 1, 1, 1, 1, 1, 1, 1, 1]

end Scenario

namespace ClimbExitCorrector

/-- States reachable from the freshly constructed controller by any sequence
of `StartCorrection`, `Update` (with `deltaTime >= 0`), `Cancel`,
`UpdateSafePositionCheck` and `ClearSafePosition` calls, in any games. -/
inductive ReachableByCalls : ClimbExitCorrector → Prop
  | init : ReachableByCalls ClimbExitCorrector.init
  | startCorrection (g : Game) (v : NiPoint3) (s : ClimbExitCorrector) :
      ReachableByCalls s → ReachableByCalls (StartCorrection g s v).2.1
  | update (g : Game) (deltaTime : ℚ) (s : ClimbExitCorrector) :
      0 ≤ deltaTime → ReachableByCalls s → ReachableByCalls (Update g s deltaTime).2.1
  | cancel (s : ClimbExitCorrector) : ReachableByCalls s → ReachableByCalls (Cancel s)
  | updateSafePositionCheck (g : Game) (s : ClimbExitCorrector) :
      ReachableByCalls s → ReachableByCalls (UpdateSafePositionCheck g s)
  | clearSafePosition (s : ClimbExitCorrector) :
      ReachableByCalls s → ReachableByCalls (ClearSafePosition s)

/-- States reachable by the same calls, in any games, when every `Update` made
while correcting finds a stored duration above 0; the progress arithmetic of
`Update` is rounded by `rnd`. -/
inductive ReachableWithDuration (rnd : ℚ → ℚ) : ClimbExitCorrector → Prop
  | init : ReachableWithDuration rnd ClimbExitCorrector.init
  | startCorrection (g : Game) (v : NiPoint3) (s : ClimbExitCorrector) :
      ReachableWithDuration rnd s → ReachableWithDuration rnd (StartCorrection g s v).2.1
  | update (g : Game) (deltaTime : ℚ) (s : ClimbExitCorrector) :
      0 ≤ deltaTime → (s.isCorrecting = true → 0 < s.m_duration) →
      ReachableWithDuration rnd s →
      ReachableWithDuration rnd (UpdateRounded rnd g s deltaTime).2.1
  | cancel (s : ClimbExitCorrector) :
      ReachableWithDuration rnd s → ReachableWithDuration rnd (Cancel s)
  | updateSafePositionCheck (g : Game) (s : ClimbExitCorrector) :
      ReachableWithDuration rnd s → ReachableWithDuration rnd (UpdateSafePositionCheck g s)
  | clearSafePosition (s : ClimbExitCorrector) :
      ReachableWithDuration rnd s → ReachableWithDuration rnd (ClearSafePosition s)

end ClimbExitCorrector

namespace Scenario

/-- The standing scenario with the seconds-per-unit setting at `-1/64`. -/
def reverseGame : Game :=
  { standGame with
    options :=
      { grabRayLength := 20
        beastGrabRayLength := 30
        exitCorrectionControlPointScale := 1 / 2
        exitCorrectionSecondsPerUnit := -1 / 64 } }

/-- Controller right after `StartCorrection` in `reverseGame` (see
`Scenario.reverseGame_started`): the 20 units from height 40 to height 60 give
the duration `20 * (-1/64) = -5/16`. -/
def startedReverse : ClimbExitCorrector :=
  { started with m_duration := -5 / 16 }

/-- Controller after one `Update` of `5/32` seconds applied to `startedReverse`
(see `Scenario.startedReverse_updated`). -/
def reversed : ClimbExitCorrector :=
  { startedReverse with m_progress := -1 / 2 }

/-- Controller after one `Update` of `1/16` seconds applied to `started`, whose
duration is `1/5` (see `Scenario.started_advanced`). -/
def advanced : ClimbExitCorrector :=
  { started with m_progress := 5 / 16 }

end Scenario

/-! ## Theorems -/

open Raycast ClimbExitCorrector ClimbSurfaceDetector

/-! ### Points -/

@[simp]
theorem NiPoint3.add_x (a b : NiPoint3) : (a + b).x = a.x + b.x := rfl

@[simp]
theorem NiPoint3.add_y (a b : NiPoint3) : (a + b).y = a.y + b.y := rfl

@[simp]
theorem NiPoint3.add_z (a b : NiPoint3) : (a + b).z = a.z + b.z := rfl

@[simp]
theorem NiPoint3.sub_x (a b : NiPoint3) : (a - b).x = a.x - b.x := rfl

@[simp]
theorem NiPoint3.sub_y (a b : NiPoint3) : (a - b).y = a.y - b.y := rfl

@[simp]
theorem NiPoint3.sub_z (a b : NiPoint3) : (a - b).z = a.z - b.z := rfl

@[simp]
theorem NiPoint3.mul_x (a : NiPoint3) (s : ℚ) : (a * s).x = a.x * s := rfl

@[simp]
theorem NiPoint3.mul_y (a : NiPoint3) (s : ℚ) : (a * s).y = a.y * s := rfl

@[simp]
theorem NiPoint3.mul_z (a : NiPoint3) (s : ℚ) : (a * s).z = a.z * s := rfl

theorem NiPoint3.add_mul_zero (a d : NiPoint3) : a + d * (0 : ℚ) = a := by
  ext <;> simp

/-- The mask test of the filtered cast, `(layerMask & (1ULL << n)) != 0`, is the
membership test `(mask >> n) & 1 = 1`. -/
theorem layerBit_ne_zero_iff (mask n : Nat) :
    mask &&& (1 <<< n) ≠ 0 ↔ (mask >>> n) &&& 1 = 1 := by
  rw [Nat.one_shiftLeft, Nat.and_two_pow, Nat.and_one_is_mod, Nat.shiftRight_eq_div_pow]
  cases h : mask.testBit n <;> simp [Nat.testBit_to_div_mod] at h ⊢ <;> omega

/-- Every single-layer mask fits in 64 bits. -/
theorem MakeLayerMask_lt (layer : COL_LAYER) : MakeLayerMask layer < 2 ^ 64 := by
  cases layer <;> decide

/-! ### One iteration of the filtered cast -/

theorem CastRayLoop_hit (world : bhkWorld) (scale : ℚ) (direction : NiPoint3) (maxDistance : ℚ)
    (mask : CollisionLayerMask) (result : RaycastResult) (n : Nat) (acc : ℚ) (cur : NiPoint3)
    (f : ℚ) (nrm : NiPoint3) (c : hkpCollidable) (hrem : 0 < maxDistance - acc)
    (hpick : world.PickObject (cur * scale) ((cur + direction * (maxDistance - acc)) * scale)
      = some ⟨f, nrm, some c⟩)
    (hin : (mask >>> c.collisionLayer.toNat) &&& 1 = 1) :
    CastRayLoop world scale direction maxDistance mask result (n + 1) acc cur =
      { hit := true
        distance := acc + (maxDistance - acc) * f
        hitPoint := cur + direction * ((maxDistance - acc) * f)
        hitNormal := nrm
        collisionLayer := c.collisionLayer
        hitRef := c.ref } := by
  have hm : mask &&& (1 <<< c.collisionLayer.toNat) ≠ 0 := by
    rw [layerBit_ne_zero_iff]; exact hin
  simp only [CastRayLoop, not_le.mpr hrem, if_false, hpick, if_pos hm]

theorem CastRayLoop_none (world : bhkWorld) (scale : ℚ) (direction : NiPoint3) (maxDistance : ℚ)
    (mask : CollisionLayerMask) (result : RaycastResult) (n : Nat) (acc : ℚ) (cur : NiPoint3)
    (hpick : world.PickObject (cur * scale) ((cur + direction * (maxDistance - acc)) * scale)
      = none) :
    CastRayLoop world scale direction maxDistance mask result (n + 1) acc cur = result := by
  simp only [CastRayLoop, hpick]
  split_ifs <;> rfl

theorem CastRayLoop_hit_inMask (world : bhkWorld) (scale : ℚ) (direction : NiPoint3)
    (maxDistance : ℚ) (layerMask : CollisionLayerMask) (result : RaycastResult)
    (hres : result.hit = false) (n : Nat) :
    ∀ (acc : ℚ) (cur : NiPoint3),
      (CastRayLoop world scale direction maxDistance layerMask result n acc cur).hit = true →
      (layerMask >>>
        (CastRayLoop world scale direction maxDistance layerMask result n acc
          cur).collisionLayer.toNat) &&& 1 = 1 := by
  induction n with
  | zero => intro acc cur h; simp [CastRayLoop, hres] at h
  | succ n ih =>
    intro acc cur
    simp only [CastRayLoop]
    split_ifs with h1
    · intro h; simp [hres] at h
    · split
      · intro h; simp [hres] at h
      · split_ifs with h2
        · intro _
          exact (layerBit_ne_zero_iff _ _).1 h2
        · exact ih _ _

/-! ### The plane worlds of the scenarios -/

theorem Scenario.planeOutput_down (z0 s r h : ℚ) (l : COL_LAYER) (hr : 0 < r) :
    Scenario.planeOutput ⟨0, 0, z0 - s⟩ ⟨0, 0, z0 - s - r⟩ ⟨h, l⟩ =
      ⟨(z0 - h - s) / r, ⟨0, 0, 1⟩, some ⟨l, none⟩⟩ := by
  have hba : z0 - s - r < z0 - s := by linarith
  have hf : (h - (z0 - s)) / (z0 - s - r - (z0 - s)) = (z0 - h - s) / r := by
    have : z0 - s - r - (z0 - s) = -r := by ring
    rw [this, div_neg, ← neg_div]
    congr 1
    ring
  simp only [Scenario.planeOutput, if_pos hba, hf]

/-- Seen from above along a vertical ray, a world of two planes is a stacked
pair of surfaces. -/
theorem Scenario.flatWorld_stackedPair (z0 h1 h2 : ℚ) (l1 l2 : COL_LAYER) (h21 : h2 < h1) :
    StackedPair (Scenario.flatWorld [⟨h1, l1⟩, ⟨h2, l2⟩]) 1 ⟨0, 0, z0⟩ ⟨0, 0, -1⟩
      ⟨z0 - h1, ⟨0, 0, 1⟩, ⟨l1, none⟩⟩ ⟨z0 - h2, ⟨0, 0, 1⟩, ⟨l2, none⟩⟩ := by
  intro s r hs hr
  have e1 : ((⟨0, 0, z0⟩ : NiPoint3) + (⟨0, 0, -1⟩ : NiPoint3) * s) * (1 : ℚ)
      = ⟨0, 0, z0 - s⟩ := by
    ext <;> simp
    ring
  have e2 : ((⟨0, 0, z0⟩ : NiPoint3) + (⟨0, 0, -1⟩ : NiPoint3) * s + (⟨0, 0, -1⟩ : NiPoint3) * r)
      * (1 : ℚ) = ⟨0, 0, z0 - s - r⟩ := by
    ext <;> simp
    ring
  rw [e1, e2]
  have hba : z0 - s - r < z0 - s := by linarith
  simp only [Scenario.flatWorld, if_pos hba]
  by_cases c1 : s ≤ z0 - h1 ∧ z0 - h1 ≤ s + r
  · have f1 : z0 - s - r ≤ h1 ∧ h1 ≤ z0 - s := ⟨by linarith [c1.2], by linarith [c1.1]⟩
    rw [if_pos c1]
    by_cases f2 : z0 - s - r ≤ h2 ∧ h2 ≤ z0 - s
    · simp only [List.filter_cons, List.filter_nil, f1, f2, and_self, decide_True, if_true,
        Scenario.highest, h21, Option.map_some', Scenario.planeOutput_down _ _ _ _ _ hr]
    · simp only [List.filter_cons, List.filter_nil, f1, f2, and_self, decide_True, decide_False,
        if_true, Bool.false_eq_true, if_false, Scenario.highest, Option.map_some',
        Scenario.planeOutput_down _ _ _ _ _ hr]
  · have f1 : ¬ (z0 - s - r ≤ h1 ∧ h1 ≤ z0 - s) := by
      intro h; exact c1 ⟨by linarith [h.2], by linarith [h.1]⟩
    rw [if_neg c1]
    by_cases c2 : s ≤ z0 - h2 ∧ z0 - h2 ≤ s + r
    · have f2 : z0 - s - r ≤ h2 ∧ h2 ≤ z0 - s := ⟨by linarith [c2.2], by linarith [c2.1]⟩
      rw [if_pos c2]
      simp only [List.filter_cons, List.filter_nil, f1, f2, and_self, decide_True, decide_False,
        if_true, Bool.false_eq_true, if_false, Scenario.highest, Option.map_some',
        Scenario.planeOutput_down _ _ _ _ _ hr]
    · have f2 : ¬ (z0 - s - r ≤ h2 ∧ h2 ≤ z0 - s) := by
        intro h; exact c2 ⟨by linarith [h.2], by linarith [h.1]⟩
      rw [if_neg c2]
      simp only [List.filter_cons, List.filter_nil, f1, f2, decide_False,
        Bool.false_eq_true, if_false, Scenario.highest, Option.map_none']

theorem Scenario.stackedGame_pair :
    StackedPair (Scenario.flatWorld Scenario.stackedPlanes) Scenario.stackedGame.havokWorldScale
      ⟨0, 0, 200⟩ ⟨0, 0, -1⟩ ⟨1, ⟨0, 0, 1⟩, ⟨.kClutter, none⟩⟩
      ⟨2, ⟨0, 0, 1⟩, ⟨.kStatic, none⟩⟩ := by
  have h := Scenario.flatWorld_stackedPair 200 199 198 .kClutter .kStatic (by norm_num)
  norm_num at h
  exact h

theorem Scenario.floorGame_pair :
    StackedPair (Scenario.flatWorld Scenario.floorPlanes) Scenario.floorGame.havokWorldScale
      ⟨0, 0, 200⟩ ⟨0, 0, -1⟩ ⟨140, ⟨0, 0, 1⟩, ⟨.kStatic, none⟩⟩
      ⟨200, ⟨0, 0, 1⟩, ⟨.kTerrain, none⟩⟩ := by
  have h := Scenario.flatWorld_stackedPair 200 60 0 .kStatic .kTerrain (by norm_num)
  norm_num at h
  exact h

/-- Over the floor scenario the Solid-filtered ray cast 200 units down from the
viewpoint hits the static floor at distance 140. -/
theorem Scenario.floorGame_cast :
    CastRayMask Scenario.floorGame ⟨0, 0, 200⟩ ⟨0, 0, -1⟩ 200 LayerMasks.kSolid =
      { hit := true
        distance := 140
        hitPoint := ⟨0, 0, 60⟩
        hitNormal := ⟨0, 0, 1⟩
        collisionLayer := .kStatic
        hitRef := none } := by
  have q := Scenario.floorGame_pair 0 (200 - 0) le_rfl (by norm_num)
  rw [NiPoint3.add_mul_zero, if_pos (by norm_num)] at q
  have hw : Raycast.physicsWorld Scenario.floorGame
      = some (Scenario.flatWorld Scenario.floorPlanes) := rfl
  unfold CastRayMask
  simp only [hw, MAX_ITERATIONS]
  rw [CastRayLoop_hit _ _ _ _ _ _ 7 0 _ _ _ _ (by norm_num) q (by decide)]
  congr 1
  · norm_num
  · ext <;> norm_num

/-! ### StartCorrection from idle -/

theorem DetectCorrectionNeeded_unavailable (g : Game) (out : NiPoint3)
    (h : g.player = none ∨ VRNodes.GetHMD g = none ∨ Raycast.physicsWorld g = none) :
    (DetectCorrectionNeeded g out).1 = 0 := by
  unfold DetectCorrectionNeeded
  cases hp : g.player with
  | none => rfl
  | some player =>
    cases hh : VRNodes.GetHMD g with
    | none => rfl
    | some hmd =>
      rcases h with h | h | h
      · rw [hp] at h; cases h
      · rw [hh] at h; cases h
      · simp only [CastRayMask, h, initResult]
        split_ifs <;> simp_all

/-- C1: `StartCorrection` called while idle returns false exactly when the
amount `a` of `DetectCorrectionNeeded` is below 0.1, or the headroom `H` at the
naive target is below `R = max(viewpointZ - feetZ, 80) + 10` while no safe
position is recorded and `H - 5 < 1`; otherwise it returns true with
`isCorrecting = true` and `progress = 0`.  The game (hence the player position)
is never changed, a false return leaves `isCorrecting = false`, and a missing
player, viewpoint or physics world gives `a < 0.1`. -/
theorem StartCorrection_idle_outcome (g : Game) (self : ClimbExitCorrector) (v : NiPoint3)
    (hidle : self.isCorrecting = false) :
    let a := (DetectCorrectionNeeded g ⟨0, 0, 0⟩).1
    let target := (DetectCorrectionNeeded g ⟨0, 0, 0⟩).2
    let declines : Prop :=
      a < 1 / 10 ∨
      ∃ player hmd, g.player = some player ∧ VRNodes.GetHMD g = some hmd ∧
        CheckHeadroomAt g target (max (hmd.z - player.position.z) 80 + 10)
          < max (hmd.z - player.position.z) 80 + 10 ∧
        self.m_hasLastKnownSafePosition = false ∧
        CheckHeadroomAt g target (max (hmd.z - player.position.z) 80 + 10) - 5 < 1
    let r := StartCorrection g self v
    (r.1 = false ↔ declines) ∧
    (¬ declines → r.1 = true ∧ r.2.1.isCorrecting = true ∧ r.2.1.m_progress = 0) ∧
    r.2.2 = g ∧
    (r.1 = false → r.2.1.isCorrecting = false) ∧
    ((g.player = none ∨ VRNodes.GetHMD g = none ∨ Raycast.physicsWorld g = none) →
      a < 1 / 10) := by
  intro a target declines r
  have hlast : (g.player = none ∨ VRNodes.GetHMD g = none ∨ Raycast.physicsWorld g = none) →
      a < 1 / 10 := by
    intro h
    show (DetectCorrectionNeeded g ⟨0, 0, 0⟩).1 < 1 / 10
    rw [DetectCorrectionNeeded_unavailable g _ h]
    norm_num
  by_cases ha : a < 1 / 10
  · have hr : r = (false, self, g) := by
      show StartCorrection g self v = _
      unfold StartCorrection
      simp only [hidle]
      cases hp : g.player with
      | none => simp only [Bool.false_eq_true, if_false]
      | some player =>
        have ha' : (DetectCorrectionNeeded g ⟨0, 0, 0⟩).1 < 1 / 10 := ha
        simp only [Bool.false_eq_true, if_false, ha', if_true]
    have hd : declines := Or.inl ha
    rw [hr]
    exact ⟨⟨fun _ => hd, fun _ => rfl⟩, fun h => absurd hd h, rfl, fun _ => hidle, hlast⟩
  · obtain ⟨player, hp⟩ : ∃ player, g.player = some player := by
      rcases hp : g.player with _ | player
      · exact absurd (hlast (Or.inl hp)) ha
      · exact ⟨player, rfl⟩
    obtain ⟨hmd, hh⟩ : ∃ hmd, VRNodes.GetHMD g = some hmd := by
      rcases hh : VRNodes.GetHMD g with _ | hmd
      · exact absurd (hlast (Or.inr (Or.inl hh))) ha
      · exact ⟨hmd, rfl⟩
    have ha' : ¬ (DetectCorrectionNeeded g ⟨0, 0, 0⟩).1 < 1 / 10 := ha
    have hdecl : declines ↔
        (CheckHeadroomAt g target (max (hmd.z - player.position.z) 80 + 10)
          < max (hmd.z - player.position.z) 80 + 10 ∧
        self.m_hasLastKnownSafePosition = false ∧
        CheckHeadroomAt g target (max (hmd.z - player.position.z) 80 + 10) - 5 < 1) := by
      constructor
      · rintro (h | ⟨p2, h2, hp2, hh2, hrest⟩)
        · exact absurd h ha
        · rw [hp] at hp2; rw [hh] at hh2
          cases hp2; cases hh2
          exact hrest
      · intro h
        exact Or.inr ⟨player, hmd, hp, hh, h⟩
    rw [hdecl]
    have key : ((StartCorrection g self v).1 = false ↔
        (CheckHeadroomAt g (DetectCorrectionNeeded g ⟨0, 0, 0⟩).2
            (max (hmd.z - player.position.z) 80 + 10)
          < max (hmd.z - player.position.z) 80 + 10 ∧
        self.m_hasLastKnownSafePosition = false ∧
        CheckHeadroomAt g (DetectCorrectionNeeded g ⟨0, 0, 0⟩).2
          (max (hmd.z - player.position.z) 80 + 10) - 5 < 1)) ∧
        ((StartCorrection g self v).1 = true → (StartCorrection g self v).2.1.isCorrecting = true ∧
          (StartCorrection g self v).2.1.m_progress = 0) ∧
        (StartCorrection g self v).2.2 = g ∧
        ((StartCorrection g self v).1 = false →
          (StartCorrection g self v).2.1.isCorrecting = false) := by
      unfold StartCorrection
      simp only [hidle, hp, hh, ha', MIN_STANDING_HEIGHT, HEADROOM_MARGIN, Bool.false_eq_true,
        if_false]
      by_cases h1 : CheckHeadroomAt g (DetectCorrectionNeeded g ⟨0, 0, 0⟩).2
            (max (hmd.z - player.position.z) 80 + 10) < max (hmd.z - player.position.z) 80 + 10
      · cases hs : self.m_hasLastKnownSafePosition
        · by_cases h2 : CheckHeadroomAt g (DetectCorrectionNeeded g ⟨0, 0, 0⟩).2
              (max (hmd.z - player.position.z) 80 + 10) - 5 < 1
          · simp only [h1, h2, if_true, Bool.false_eq_true, if_false]
            simp
          · simp only [h1, h2, if_true, Bool.false_eq_true, if_false]
            simp
        · simp only [h1, if_true]
          simp
      · simp only [h1, if_false]
        simp
    obtain ⟨k1, k2, k3, k4⟩ := key
    refine ⟨k1, fun hnd => ?_, k3, k4, hlast⟩
    have : (StartCorrection g self v).1 = true := by
      cases hb : (StartCorrection g self v).1
      · exact absurd (k1.1 hb) hnd
      · rfl
    exact ⟨this, k2 this⟩

/-- Instance of C1: a freshly constructed controller over the floor scenario
is idle, and `StartCorrection` leaves the game as it was. -/
theorem StartCorrection_idle_outcome_witness :
    ClimbExitCorrector.init.isCorrecting = false ∧
    (StartCorrection Scenario.floorGame ClimbExitCorrector.init ⟨0, 0, 0⟩).2.2
      = Scenario.floorGame :=
  ⟨rfl, (StartCorrection_idle_outcome Scenario.floorGame ClimbExitCorrector.init ⟨0, 0, 0⟩
    rfl).2.2.1⟩

/-! ### Stacked surfaces -/

/-- C3: whenever the filtered `CastRay` returns `hit = true`, the returned
collision layer `c` is a member of the mask: `(mask >> c) & 1 = 1`. -/
theorem CastRayMask_hit_in_mask (g : Game) (origin direction : NiPoint3) (maxDistance : ℚ)
    (mask : CollisionLayerMask)
    (hhit : (CastRayMask g origin direction maxDistance mask).hit = true) :
    (mask >>> (CastRayMask g origin direction maxDistance mask).collisionLayer.toNat) &&& 1
      = 1 := by
  unfold CastRayMask at hhit ⊢
  cases hw : Raycast.physicsWorld g with
  | none => simp [hw, initResult] at hhit
  | some world =>
    simp only [hw] at hhit ⊢
    exact CastRayLoop_hit_inMask world _ direction maxDistance mask _ rfl _ _ _ hhit

/-- Instance of C3: the floor hit of the floor scenario is on a Solid layer. -/
theorem CastRayMask_hit_in_mask_witness :
    (CastRayMask Scenario.floorGame ⟨0, 0, 200⟩ ⟨0, 0, -1⟩ 200 LayerMasks.kSolid).hit = true ∧
    (LayerMasks.kSolid >>> (CastRayMask Scenario.floorGame ⟨0, 0, 200⟩ ⟨0, 0, -1⟩ 200
      LayerMasks.kSolid).collisionLayer.toNat) &&& 1 = 1 :=
  ⟨by rw [Scenario.floorGame_cast],
    CastRayMask_hit_in_mask Scenario.floorGame ⟨0, 0, 200⟩ ⟨0, 0, -1⟩ 200 LayerMasks.kSolid
      (by rw [Scenario.floorGame_cast])⟩

/-! ### Grabbing a surface -/

theorem CastMultiDirectionalRays_iff (g : Game) (origin : NiPoint3) :
    CastMultiDirectionalRays g origin = true ↔
      ∃ dir ∈ directions,
        (CastRay g origin dir (GetEffectiveRayLength g)).hit = true ∧
        IsClimbable (CastRay g origin dir (GetEffectiveRayLength g)).collisionLayer = true := by
  simp only [CastMultiDirectionalRays, List.any_eq_true, Bool.and_eq_true, IsClimbable]

theorem CastRayTowardHMD_iff (g : Game) (handPos : NiPoint3) :
    CastRayTowardHMD g handPos = true ↔
      ∃ hmdPos, VRNodes.GetHMD g = some hmdPos ∧
        let d := g.sqrt ((handPos.x - hmdPos.x) * (handPos.x - hmdPos.x)
          + (handPos.y - hmdPos.y) * (handPos.y - hmdPos.y)
          + (handPos.z - hmdPos.z) * (handPos.z - hmdPos.z))
        let ray := CastRay g hmdPos
          ⟨(handPos.x - hmdPos.x) / d, (handPos.y - hmdPos.y) / d, (handPos.z - hmdPos.z) / d⟩ d
        1 / 1000 ≤ d ∧ ray.hit = true ∧ IsClimbable ray.collisionLayer = true := by
  unfold CastRayTowardHMD
  cases hh : VRNodes.GetHMD g with
  | none => simp
  | some hmdPos =>
    simp only [Option.some.injEq, exists_eq_left', IsClimbable]
    split_ifs with hd
    · simp only [Bool.false_eq_true, false_iff, not_and]
      intro h
      exact absurd hd (not_lt.mpr h)
    · simp only [Bool.and_eq_true]
      exact ⟨fun h => ⟨not_lt.mp hd, h⟩, fun h => h.2⟩

/-- C4: `CanGrabSurface(isLeft)` is true if and only if the hand position is not
the zero vector and either (a) for one of the six axis directions, listed in the
order +X, -X, +Y, -Y, +Z, -Z, the unfiltered ray of the effective length from the
hand hits a climbable layer, or (b) the viewpoint is available, at distance
`d >= 0.001` from the hand, and the unfiltered ray of length `d` from the
viewpoint toward the hand hits a climbable layer.  A zero hand pose, or a world
in which no ray hits, gives false. -/
theorem CanGrabSurface_iff (g : Game) (isLeft : Bool) :
    let handPos := GetHandPosition g isLeft
    (CanGrabSurface g isLeft = true ↔
      handPos ≠ ⟨0, 0, 0⟩ ∧
      ((∃ dir ∈ directions,
          (CastRay g handPos dir (GetEffectiveRayLength g)).hit = true ∧
          IsClimbable (CastRay g handPos dir (GetEffectiveRayLength g)).collisionLayer = true) ∨
       (∃ hmdPos, VRNodes.GetHMD g = some hmdPos ∧
          let d := g.sqrt ((handPos.x - hmdPos.x) * (handPos.x - hmdPos.x)
            + (handPos.y - hmdPos.y) * (handPos.y - hmdPos.y)
            + (handPos.z - hmdPos.z) * (handPos.z - hmdPos.z))
          let ray := CastRay g hmdPos
            ⟨(handPos.x - hmdPos.x) / d, (handPos.y - hmdPos.y) / d, (handPos.z - hmdPos.z) / d⟩ d
          1 / 1000 ≤ d ∧ ray.hit = true ∧ IsClimbable ray.collisionLayer = true))) ∧
    directions = [⟨1, 0, 0⟩, ⟨-1, 0, 0⟩, ⟨0, 1, 0⟩, ⟨0, -1, 0⟩, ⟨0, 0, 1⟩, ⟨0, 0, -1⟩] ∧
    (handPos = ⟨0, 0, 0⟩ → CanGrabSurface g isLeft = false) ∧
    ((∀ origin direction maxDistance, (CastRay g origin direction maxDistance).hit = false) →
      CanGrabSurface g isLeft = false) := by
  intro handPos
  have hzero : (handPos.x = 0 ∧ handPos.y = 0 ∧ handPos.z = 0) ↔ handPos = ⟨0, 0, 0⟩ := by
    constructor
    · rintro ⟨hx, hy, hz⟩
      ext <;> assumption
    · intro h
      rw [h]
      exact ⟨rfl, rfl, rfl⟩
  have hiff : CanGrabSurface g isLeft = true ↔
      handPos ≠ ⟨0, 0, 0⟩ ∧
        (CastMultiDirectionalRays g handPos = true ∨ CastRayTowardHMD g handPos = true) := by
    show (if handPos.x = 0 ∧ handPos.y = 0 ∧ handPos.z = 0 then false
      else if CastMultiDirectionalRays g handPos then true
      else CastRayTowardHMD g handPos) = true ↔ _
    by_cases hz : handPos.x = 0 ∧ handPos.y = 0 ∧ handPos.z = 0
    · rw [if_pos hz]
      simp [hzero.1 hz]
    · rw [if_neg hz]
      have hne : handPos ≠ ⟨0, 0, 0⟩ := fun h => hz (hzero.2 h)
      by_cases hm : CastMultiDirectionalRays g handPos = true
      · simp [hm, hne]
      · simp [hm, hne]
  rw [CastMultiDirectionalRays_iff, CastRayTowardHMD_iff] at hiff
  refine ⟨hiff, rfl, fun h => ?_, fun hno => ?_⟩
  · cases hc : CanGrabSurface g isLeft
    · rfl
    · exact absurd h (hiff.1 hc).1
  · cases hc : CanGrabSurface g isLeft
    · rfl
    · rcases (hiff.1 hc).2 with ⟨dir, _, hhit, _⟩ | ⟨hmdPos, _, _, hhit, _⟩
      · rw [hno] at hhit
        cases hhit
      · rw [hno] at hhit
        cases hhit

/-! ### The classifier and the Solid mask -/

/-- C5: for every surface category `c`, `IsClimbable(c)` is true if and only if
bit `c` of `LayerMasks::kSolid` is set; both name exactly the six categories
static, animated static, terrain, ground, trees and props. -/
theorem IsClimbable_iff_kSolid (c : COL_LAYER) :
    (IsClimbable c = true ↔ (LayerMasks.kSolid >>> c.toNat) &&& 1 = 1) ∧
    (IsClimbable c = true ↔
      c = .kStatic ∨ c = .kAnimStatic ∨ c = .kTerrain ∨ c = .kGround ∨ c = .kTrees
        ∨ c = .kProps) := by
  cases c <;> decide

/-! ### Update -/

/-- One `Update` while correcting with the player present. -/
theorem Update_step (g : Game) (self : ClimbExitCorrector) (d : ℚ) (pl : PlayerCharacter)
    (hc : self.isCorrecting = true) (hpl : g.player = some pl) :
    Update g self d =
      if 1 ≤ self.m_progress + d / self.m_duration then
        (false, { self with m_progress := self.m_progress + d / self.m_duration,
                            isCorrecting := false },
          { g with player := some (pl.SetPosition self.m_targetPos) })
      else
        (true, { self with m_progress := self.m_progress + d / self.m_duration },
          { g with player := some (pl.SetPosition
            (EvaluateBezier { self with m_progress := self.m_progress + d / self.m_duration }
              (easedT (self.m_progress + d / self.m_duration)))) }) := by
  simp [Update, hc, hpl]

/-- C7: when `Update(deltaTime)` is called while correcting with the player
present, a non-zero duration and the advanced progress `p = progress + deltaTime / duration` is below
1, the player is put exactly at `B(t) = (1-t)^2 start + 2(1-t)t control
+ t^2 target` with `t = 1 - (1-p)^2`, the stored progress becomes `p`, every
other field is unchanged, and `Update` returns true. -/
theorem Update_advances_on_curve (g : Game) (self : ClimbExitCorrector) (deltaTime : ℚ)
    (player : PlayerCharacter) (hc : self.isCorrecting = true) (hp : g.player = some player)
    (_hdur : self.m_duration ≠ 0)
    (hlt : self.m_progress + deltaTime / self.m_duration < 1) :
    Update g self deltaTime =
      (true, { self with m_progress := self.m_progress + deltaTime / self.m_duration },
       { g with player := some { player with position :=
          let p := self.m_progress + deltaTime / self.m_duration
          let t := 1 - (1 - p) ^ 2
          ⟨(1 - t) ^ 2 * self.m_startPos.x + 2 * (1 - t) * t * self.m_controlPoint.x
              + t ^ 2 * self.m_targetPos.x,
           (1 - t) ^ 2 * self.m_startPos.y + 2 * (1 - t) * t * self.m_controlPoint.y
              + t ^ 2 * self.m_targetPos.y,
           (1 - t) ^ 2 * self.m_startPos.z + 2 * (1 - t) * t * self.m_controlPoint.z
              + t ^ 2 * self.m_targetPos.z⟩ } }) := by
  simp only [Update, hc, hp]
  simp [not_le.mpr hlt, EvaluateBezier, easedT, PlayerCharacter.SetPosition]
  refine ⟨?_, ?_, ?_⟩ <;> ring

/-- Instance of C7: a quarter-second frame of a one-second correction. -/
theorem Update_advances_on_curve_witness :
    Scenario.running.isCorrecting = true ∧
    Scenario.running.m_duration ≠ 0 ∧
    Scenario.running.m_progress + 1 / 4 / Scenario.running.m_duration < 1 ∧
    (Update Scenario.floorGame Scenario.running (1 / 4)).1 = true :=
  ⟨rfl, by norm_num [Scenario.running], by norm_num [Scenario.running, ClimbExitCorrector.init],
    congrArg Prod.fst (Update_advances_on_curve Scenario.floorGame Scenario.running (1 / 4)
      Scenario.floorPlayer rfl rfl (by norm_num [Scenario.running])
      (by norm_num [Scenario.running, ClimbExitCorrector.init]))⟩

/-! ### StartCorrection while correcting -/

/-- C8: if `isCorrecting` is true, `StartCorrection(v)` returns true for every
velocity and every game and leaves every field of the controller (and the game)
unchanged; hence a second call right after it, with any velocity, again returns
true and changes nothing. -/
theorem StartCorrection_while_correcting (g : Game) (self : ClimbExitCorrector) (v : NiPoint3)
    (h : self.isCorrecting = true) :
    StartCorrection g self v = (true, self, g) ∧
    ∀ w : NiPoint3,
      StartCorrection (StartCorrection g self v).2.2 (StartCorrection g self v).2.1 w
        = (true, self, g) := by
  have h1 : ∀ u : NiPoint3, StartCorrection g self u = (true, self, g) := by
    intro u
    simp [StartCorrection, h]
  refine ⟨h1 v, fun w => ?_⟩
  rw [h1 v]
  exact h1 w

/-- Instance of C8: the running correction of the scenario. -/
theorem StartCorrection_while_correcting_witness :
    Scenario.running.isCorrecting = true ∧
    StartCorrection Scenario.floorGame Scenario.running ⟨3, 0, 0⟩
      = (true, Scenario.running, Scenario.floorGame) :=
  ⟨rfl, (StartCorrection_while_correcting Scenario.floorGame Scenario.running ⟨3, 0, 0⟩ rfl).1⟩

/-! ### The curve -/

/-- C9: for every start, control and target point, `EvaluateBezier(0)` is the
start point and `EvaluateBezier(1)` is the target point, whatever the control
point. -/
theorem EvaluateBezier_endpoints (self : ClimbExitCorrector) :
    EvaluateBezier self 0 = self.m_startPos ∧ EvaluateBezier self 1 = self.m_targetPos := by
  constructor <;> ext <;> simp [EvaluateBezier]

/-- C10: the ease-out remap of `Update`, `e(p) = 1 - (1-p)^2`, is monotone on
`[0, 1]`: for `0 <= a < b <= 1`, `e(a) <= e(b)`. -/
theorem easedT_monotone (a b : ℚ) (_ha : 0 ≤ a) (hab : a < b) (hb : b ≤ 1) :
    easedT a ≤ easedT b := by
  unfold easedT
  nlinarith

/-- Instance of C10 at `a = 1/4`, `b = 1/2`. -/
theorem easedT_monotone_witness :
    (0 : ℚ) ≤ 1 / 4 ∧ (1 / 4 : ℚ) < 1 / 2 ∧ (1 / 2 : ℚ) ≤ 1 ∧
    easedT (1 / 4) ≤ easedT (1 / 2) :=
  ⟨by norm_num, by norm_num, by norm_num,
    easedT_monotone (1 / 4) (1 / 2) (by norm_num) (by norm_num) (by norm_num)⟩

/-! ### DetectCorrectionNeeded -/

theorem DetectCorrectionNeeded_eq (g : Game) (out : NiPoint3) (player : PlayerCharacter)
    (hmdPos : NiPoint3) (hp : g.player = some player) (hh : VRNodes.GetHMD g = some hmdPos)
    (hsqrt : g.sqrt 16900 = 130) :
    DetectCorrectionNeeded g out =
      if (CastRayMask g hmdPos ⟨0, 0, -1⟩ 130 LayerMasks.kSolid).hit = true ∧
          player.position.z
            < (CastRayMask g hmdPos ⟨0, 0, -1⟩ 130 LayerMasks.kSolid).hitPoint.z then
        ((CastRayMask g hmdPos ⟨0, 0, -1⟩ 130 LayerMasks.kSolid).hitPoint.z - player.position.z,
          ⟨player.position.x, player.position.y,
            (CastRayMask g hmdPos ⟨0, 0, -1⟩ 130 LayerMasks.kSolid).hitPoint.z⟩)
      else (0, out) := by
  have hto : ((⟨hmdPos.x, hmdPos.y, hmdPos.z - 130⟩ : NiPoint3) - hmdPos) = ⟨0, 0, -130⟩ := by
    ext <;> simp
  have harg : (0 : ℚ) * 0 + 0 * 0 + (-130) * (-130) = 16900 := by norm_num
  have hdir : (⟨0 / 130, 0 / 130, -130 / 130⟩ : NiPoint3) = ⟨0, 0, -1⟩ := by
    ext <;> norm_num
  have h1 : ¬ ((130 : ℚ) < 1) := by norm_num
  simp only [DetectCorrectionNeeded, hp, hh, hto, harg, hsqrt, hdir, if_neg h1]
  by_cases hhit : (CastRayMask g hmdPos ⟨0, 0, -1⟩ 130 LayerMasks.kSolid).hit = true
  · by_cases hz : player.position.z
        < (CastRayMask g hmdPos ⟨0, 0, -1⟩ 130 LayerMasks.kSolid).hitPoint.z
    · simp only [hhit, hz, Bool.not_true, Bool.false_eq_true, if_false, if_true, and_self]
      congr 1
      ext <;> simp
    · simp only [hhit, hz, Bool.not_true, Bool.false_eq_true, if_false, and_false]
  · simp only [Bool.not_eq_true] at hhit
    simp only [hhit, Bool.not_false, if_true, Bool.false_eq_true, false_and, if_false]

theorem DetectCorrectionNeeded_nonneg (g : Game) (out : NiPoint3) :
    0 ≤ (DetectCorrectionNeeded g out).1 := by
  unfold DetectCorrectionNeeded
  split
  · exact le_refl _
  · split
    · exact le_refl _
    · simp only
      split_ifs with h1 h2 h3
      · exact le_refl _
      · exact le_refl _
      · simp only
        linarith
      · exact le_refl _

/-- Closed form of `StartCorrection` from idle once a correction of at least
0.1 is detected: `a` and `target` are what `DetectCorrectionNeeded` returns, `R`
is the required height and `H` the headroom at `target`. -/
theorem StartCorrection_idle_eq (g : Game) (self : ClimbExitCorrector) (v : NiPoint3)
    (player : PlayerCharacter) (hmd target : NiPoint3) (a R H : ℚ)
    (hidle : self.isCorrecting = false) (hp : g.player = some player)
    (hh : VRNodes.GetHMD g = some hmd)
    (hdet : DetectCorrectionNeeded g ⟨0, 0, 0⟩ = (a, target)) (ha : ¬ a < 1 / 10)
    (hR : max (hmd.z - player.position.z) 80 + 10 = R)
    (hH : CheckHeadroomAt g target R = H) :
    StartCorrection g self v =
      if H < R then
        if self.m_hasLastKnownSafePosition = true then
          (true,
            startCurve g
              { self with m_startPos := player.position,
                          m_targetPos := self.m_lastKnownSafePosition }
              (g.sqrt ((self.m_lastKnownSafePosition.x - player.position.x)
                  * (self.m_lastKnownSafePosition.x - player.position.x)
                + (self.m_lastKnownSafePosition.y - player.position.y)
                  * (self.m_lastKnownSafePosition.y - player.position.y)
                + (self.m_lastKnownSafePosition.z - player.position.z)
                  * (self.m_lastKnownSafePosition.z - player.position.z))) v,
            g)
        else if H - 5 < 1 then
          (false, { self with m_startPos := player.position, m_targetPos := target }, g)
        else
          (true,
            startCurve g
              { self with m_startPos := player.position,
                          m_targetPos := { target with z := player.position.z + (H - 5) } }
              (H - 5) v,
            g)
      else
        (true,
          startCurve g { self with m_startPos := player.position, m_targetPos := target } a v,
          g) := by
  subst hR hH
  have hd1 : (DetectCorrectionNeeded g ⟨0, 0, 0⟩).1 = a := by rw [hdet]
  have hd2 : (DetectCorrectionNeeded g ⟨0, 0, 0⟩).2 = target := by rw [hdet]
  unfold StartCorrection startCurve
  simp only [hidle, hp, hh, hd1, hd2, ha, MIN_STANDING_HEIGHT, HEADROOM_MARGIN,
    Bool.false_eq_true, if_false]
  by_cases h1 : CheckHeadroomAt g target (max (hmd.z - player.position.z) 80 + 10)
      < max (hmd.z - player.position.z) 80 + 10
  · by_cases hs : self.m_hasLastKnownSafePosition = true
    · simp only [h1, hs, if_true]
    · by_cases h2 : CheckHeadroomAt g target (max (hmd.z - player.position.z) 80 + 10) - 5 < 1
      · simp only [h1, hs, h2, if_true, if_false, Bool.false_eq_true]
      · simp only [h1, hs, h2, if_true, if_false, Bool.false_eq_true]
  · simp only [h1, if_false]

/-! ### First iteration of the filtered cast -/

theorem CastRayMask_first_hit (g : Game) (world : bhkWorld) (origin direction : NiPoint3)
    (maxDistance : ℚ) (mask : CollisionLayerMask) (f : ℚ) (nrm : NiPoint3) (c : hkpCollidable)
    (hw : Raycast.physicsWorld g = some world) (hmax : 0 < maxDistance)
    (hpick : world.PickObject (origin * g.havokWorldScale)
      ((origin + direction * maxDistance) * g.havokWorldScale) = some ⟨f, nrm, some c⟩)
    (hin : (mask >>> c.collisionLayer.toNat) &&& 1 = 1) :
    CastRayMask g origin direction maxDistance mask =
      { hit := true
        distance := maxDistance * f
        hitPoint := origin + direction * (maxDistance * f)
        hitNormal := nrm
        collisionLayer := c.collisionLayer
        hitRef := c.ref } := by
  unfold CastRayMask
  simp only [hw, MAX_ITERATIONS]
  have hpick' : world.PickObject (origin * g.havokWorldScale)
      ((origin + direction * (maxDistance - 0)) * g.havokWorldScale) = some ⟨f, nrm, some c⟩ := by
    rw [sub_zero]; exact hpick
  rw [CastRayLoop_hit world _ direction maxDistance mask _ 7 0 origin f nrm c (by linarith)
    hpick' hin]
  simp only [sub_zero, zero_add]

theorem CastRayMask_first_none (g : Game) (world : bhkWorld) (origin direction : NiPoint3)
    (maxDistance : ℚ) (mask : CollisionLayerMask)
    (hw : Raycast.physicsWorld g = some world)
    (hpick : world.PickObject (origin * g.havokWorldScale)
      ((origin + direction * maxDistance) * g.havokWorldScale) = none) :
    CastRayMask g origin direction maxDistance mask = initResult origin direction maxDistance := by
  unfold CastRayMask
  simp only [hw, MAX_ITERATIONS]
  have hpick' : world.PickObject (origin * g.havokWorldScale)
      ((origin + direction * (maxDistance - 0)) * g.havokWorldScale) = none := by
    rw [sub_zero]; exact hpick
  rw [CastRayLoop_none world _ direction maxDistance mask _ 7 0 origin hpick']

/-! ### Vertical queries in a world of two planes -/

theorem Scenario.flatWorld_pick_down (h1 h2 : ℚ) (l1 l2 : COL_LAYER) (h21 : h2 < h1)
    (a b : NiPoint3) (hba : b.z < a.z) :
    (Scenario.flatWorld [⟨h1, l1⟩, ⟨h2, l2⟩]).PickObject a b =
      if b.z ≤ h1 ∧ h1 ≤ a.z then
        some ⟨(h1 - a.z) / (b.z - a.z), ⟨0, 0, 1⟩, some ⟨l1, none⟩⟩
      else if b.z ≤ h2 ∧ h2 ≤ a.z then
        some ⟨(h2 - a.z) / (b.z - a.z), ⟨0, 0, 1⟩, some ⟨l2, none⟩⟩
      else none := by
  simp only [Scenario.flatWorld, if_pos hba, Scenario.planeOutput]
  by_cases f1 : b.z ≤ h1 ∧ h1 ≤ a.z
  · by_cases f2 : b.z ≤ h2 ∧ h2 ≤ a.z
    · simp only [List.filter_cons, List.filter_nil, f1, f2, and_self, decide_True, if_true,
        Scenario.highest, h21, Option.map_some', Scenario.planeOutput, if_pos hba]
    · simp only [List.filter_cons, List.filter_nil, f1, f2, and_self, decide_True, decide_False,
        if_true, Bool.false_eq_true, if_false, Scenario.highest, Option.map_some',
        Scenario.planeOutput, if_pos hba]
  · by_cases f2 : b.z ≤ h2 ∧ h2 ≤ a.z
    · simp only [List.filter_cons, List.filter_nil, f1, f2, and_self, decide_True, decide_False,
        if_true, Bool.false_eq_true, if_false, Scenario.highest, Option.map_some',
        Scenario.planeOutput, if_pos hba]
    · simp only [List.filter_cons, List.filter_nil, f1, f2, decide_False,
        Bool.false_eq_true, if_false, Scenario.highest, Option.map_none']

theorem Scenario.flatWorld_pick_up (h1 h2 : ℚ) (l1 l2 : COL_LAYER) (h21 : h2 < h1)
    (a b : NiPoint3) (hab : a.z < b.z) :
    (Scenario.flatWorld [⟨h1, l1⟩, ⟨h2, l2⟩]).PickObject a b =
      if a.z ≤ h2 ∧ h2 ≤ b.z then
        some ⟨(h2 - a.z) / (b.z - a.z), ⟨0, 0, -1⟩, some ⟨l2, none⟩⟩
      else if a.z ≤ h1 ∧ h1 ≤ b.z then
        some ⟨(h1 - a.z) / (b.z - a.z), ⟨0, 0, -1⟩, some ⟨l1, none⟩⟩
      else none := by
  have hba : ¬ b.z < a.z := not_lt.mpr hab.le
  have hn21 : ¬ h1 < h2 := not_lt.mpr h21.le
  simp only [Scenario.flatWorld, if_neg hba, if_pos hab, Scenario.planeOutput]
  by_cases f1 : a.z ≤ h1 ∧ h1 ≤ b.z
  · by_cases f2 : a.z ≤ h2 ∧ h2 ≤ b.z
    · simp only [List.filter_cons, List.filter_nil, f1, f2, and_self, decide_True, if_true,
        Scenario.lowest, hn21, if_false, Option.map_some', Scenario.planeOutput, if_neg hba]
    · simp only [List.filter_cons, List.filter_nil, f1, f2, and_self, decide_True, decide_False,
        if_true, Bool.false_eq_true, if_false, Scenario.lowest, Option.map_some',
        Scenario.planeOutput, if_neg hba]
  · by_cases f2 : a.z ≤ h2 ∧ h2 ≤ b.z
    · simp only [List.filter_cons, List.filter_nil, f1, f2, and_self, decide_True, decide_False,
        if_true, Bool.false_eq_true, if_false, Scenario.lowest, Option.map_some',
        Scenario.planeOutput, if_neg hba]
    · simp only [List.filter_cons, List.filter_nil, f1, f2, decide_False,
        Bool.false_eq_true, if_false, Scenario.lowest, Option.map_none']

theorem Scenario.sqrtQ_16900 : Scenario.sqrtQ 16900 = 130 := by
  have h : Int.toNat 16900 = 16900 := rfl
  norm_num [Scenario.sqrtQ, h]

theorem Scenario.sqrtQ_400 : Scenario.sqrtQ 400 = 20 := by
  have h : Int.toNat 400 = 400 := rfl
  norm_num [Scenario.sqrtQ, h]

theorem Scenario.sqrtQ_zero : Scenario.sqrtQ 0 = 0 := by
  norm_num [Scenario.sqrtQ]

/-! ### The scenarios evaluated -/

/-- Over the floor planes the Solid-filtered 130-unit ray cast straight down
from a viewpoint at height `h`, at most 130 above the floor, hits the floor. -/
theorem Scenario.floor_cast_down (feet : NiPoint3) (h : ℚ) (h1 : 60 ≤ h) (h2 : h ≤ 190) :
    CastRayMask (Scenario.game Scenario.floorPlanes feet (some ⟨0, 0, h⟩) none none)
        ⟨0, 0, h⟩ ⟨0, 0, -1⟩ 130 LayerMasks.kSolid =
      { hit := true
        distance := h - 60
        hitPoint := ⟨0, 0, 60⟩
        hitNormal := ⟨0, 0, 1⟩
        collisionLayer := .kStatic
        hitRef := none } := by
  have ea : (⟨0, 0, h⟩ : NiPoint3) * (1 : ℚ) = ⟨0, 0, h⟩ := by ext <;> simp
  have eb : ((⟨0, 0, h⟩ : NiPoint3) + (⟨0, 0, -1⟩ : NiPoint3) * (130 : ℚ)) * (1 : ℚ)
      = ⟨0, 0, h - 130⟩ := by
    ext <;> simp
    ring
  have hpick : (Scenario.flatWorld Scenario.floorPlanes).PickObject
      ((⟨0, 0, h⟩ : NiPoint3) * (1 : ℚ))
      (((⟨0, 0, h⟩ : NiPoint3) + (⟨0, 0, -1⟩ : NiPoint3) * (130 : ℚ)) * (1 : ℚ))
      = some ⟨(60 - h) / (h - 130 - h), ⟨0, 0, 1⟩, some ⟨.kStatic, none⟩⟩ := by
    rw [ea, eb]
    have := Scenario.flatWorld_pick_down 60 0 .kStatic .kTerrain (by norm_num)
      ⟨0, 0, h⟩ ⟨0, 0, h - 130⟩ (by show h - 130 < h; linarith)
    rw [if_pos ⟨by show h - 130 ≤ 60; linarith, h1⟩] at this
    exact this
  have hf : (130 : ℚ) * ((60 - h) / (h - 130 - h)) = h - 60 := by
    have : h - 130 - h = -130 := by ring
    rw [this]
    field_simp
    ring
  rw [CastRayMask_first_hit (Scenario.game Scenario.floorPlanes feet (some ⟨0, 0, h⟩) none none)
    (Scenario.flatWorld Scenario.floorPlanes) ⟨0, 0, h⟩ ⟨0, 0, -1⟩ 130 LayerMasks.kSolid _ _ _ rfl
    (by norm_num) hpick (by decide), hf]
  congr 1
  ext <;> simp

theorem Scenario.floor_detect (h : ℚ) (h1 : 60 ≤ h) (h2 : h ≤ 190) (out : NiPoint3) :
    DetectCorrectionNeeded
        (Scenario.game Scenario.floorPlanes ⟨0, 0, 40⟩ (some ⟨0, 0, h⟩) none none) out
      = (20, ⟨0, 0, 60⟩) := by
  rw [DetectCorrectionNeeded_eq
    (Scenario.game Scenario.floorPlanes ⟨0, 0, 40⟩ (some ⟨0, 0, h⟩) none none) out
    (Scenario.playerOf Scenario.floorPlanes ⟨0, 0, 40⟩ (some ⟨0, 0, h⟩) none none)
    ⟨0, 0, h⟩ rfl rfl Scenario.sqrtQ_16900]
  rw [Scenario.floor_cast_down ⟨0, 0, 40⟩ h h1 h2]
  norm_num [Scenario.playerOf]

theorem Scenario.standGame_detect (out : NiPoint3) :
    DetectCorrectionNeeded Scenario.standGame out = (20, ⟨0, 0, 60⟩) :=
  Scenario.floor_detect 190 (by norm_num) (by norm_num) out

theorem Scenario.standGame_headroom :
    CheckHeadroomAt Scenario.standGame ⟨0, 0, 60⟩ 160 = 260 := by
  have ea : (⟨0, 0, 60 + 1⟩ : NiPoint3) * (1 : ℚ) = ⟨0, 0, 61⟩ := by ext <;> norm_num
  have eb : ((⟨0, 0, 60 + 1⟩ : NiPoint3) + (⟨0, 0, 1⟩ : NiPoint3) * (160 + 10 : ℚ)) * (1 : ℚ)
      = ⟨0, 0, 231⟩ := by
    ext <;> norm_num
  have hpick : (Scenario.flatWorld Scenario.floorPlanes).PickObject
      ((⟨0, 0, 60 + 1⟩ : NiPoint3) * (1 : ℚ))
      (((⟨0, 0, 60 + 1⟩ : NiPoint3) + (⟨0, 0, 1⟩ : NiPoint3) * (160 + 10 : ℚ)) * (1 : ℚ))
      = none := by
    rw [ea, eb]
    have := Scenario.flatWorld_pick_up 60 0 .kStatic .kTerrain (by norm_num)
      ⟨0, 0, 61⟩ ⟨0, 0, 231⟩ (by norm_num)
    rw [if_neg (by norm_num), if_neg (by norm_num)] at this
    exact this
  unfold CheckHeadroomAt
  simp only
  rw [CastRayMask_first_none Scenario.standGame (Scenario.flatWorld Scenario.floorPlanes)
    ⟨0, 0, 60 + 1⟩ ⟨0, 0, 1⟩ (160 + 10) LayerMasks.kSolid rfl hpick]
  norm_num [initResult]

theorem Scenario.standGame_start (v : NiPoint3) :
    StartCorrection Scenario.standGame ClimbExitCorrector.init v =
      (true,
        startCurve Scenario.standGame
          { ClimbExitCorrector.init with m_startPos := ⟨0, 0, 40⟩, m_targetPos := ⟨0, 0, 60⟩ }
          20 v,
        Scenario.standGame) := by
  rw [StartCorrection_idle_eq Scenario.standGame ClimbExitCorrector.init v
    (Scenario.playerOf Scenario.floorPlanes ⟨0, 0, 40⟩ (some ⟨0, 0, 190⟩) none none)
    ⟨0, 0, 190⟩ ⟨0, 0, 60⟩ 20 160 260 rfl rfl rfl (Scenario.standGame_detect _) (by norm_num)
    (by norm_num [Scenario.playerOf]) Scenario.standGame_headroom]
  rw [if_neg (by norm_num)]
  rfl

theorem Scenario.lowCeiling_detect (out : NiPoint3) :
    DetectCorrectionNeeded Scenario.lowCeilingGame out = (2, ⟨0, 0, 60⟩) := by
  have ea : (⟨0, 0, 100⟩ : NiPoint3) * (1 : ℚ) = ⟨0, 0, 100⟩ := by ext <;> simp
  have eb : ((⟨0, 0, 100⟩ : NiPoint3) + (⟨0, 0, -1⟩ : NiPoint3) * (130 : ℚ)) * (1 : ℚ)
      = ⟨0, 0, -30⟩ := by
    ext <;> norm_num
  have hpick : (Scenario.flatWorld Scenario.lowCeilingPlanes).PickObject
      ((⟨0, 0, 100⟩ : NiPoint3) * (1 : ℚ))
      (((⟨0, 0, 100⟩ : NiPoint3) + (⟨0, 0, -1⟩ : NiPoint3) * (130 : ℚ)) * (1 : ℚ))
      = some ⟨4 / 13, ⟨0, 0, 1⟩, some ⟨.kStatic, none⟩⟩ := by
    rw [ea, eb]
    have := Scenario.flatWorld_pick_down 111 60 .kStatic .kStatic (by norm_num)
      ⟨0, 0, 100⟩ ⟨0, 0, -30⟩ (by norm_num)
    rw [if_neg (by norm_num), if_pos (by norm_num)] at this
    exact this.trans (by norm_num)
  rw [DetectCorrectionNeeded_eq Scenario.lowCeilingGame out
    (Scenario.playerOf Scenario.lowCeilingPlanes ⟨0, 0, 58⟩ (some ⟨0, 0, 100⟩) none none)
    ⟨0, 0, 100⟩ rfl rfl Scenario.sqrtQ_16900]
  rw [CastRayMask_first_hit Scenario.lowCeilingGame (Scenario.flatWorld Scenario.lowCeilingPlanes)
    ⟨0, 0, 100⟩ ⟨0, 0, -1⟩ 130 LayerMasks.kSolid _ _ _ rfl (by norm_num) hpick (by decide)]
  norm_num [Scenario.playerOf]

theorem Scenario.lowCeiling_headroom :
    CheckHeadroomAt Scenario.lowCeilingGame ⟨0, 0, 60⟩ 90 = 50 := by
  have ea : (⟨0, 0, 60 + 1⟩ : NiPoint3) * (1 : ℚ) = ⟨0, 0, 61⟩ := by ext <;> norm_num
  have eb : ((⟨0, 0, 60 + 1⟩ : NiPoint3) + (⟨0, 0, 1⟩ : NiPoint3) * (90 + 10 : ℚ)) * (1 : ℚ)
      = ⟨0, 0, 161⟩ := by
    ext <;> norm_num
  have hpick : (Scenario.flatWorld Scenario.lowCeilingPlanes).PickObject
      ((⟨0, 0, 60 + 1⟩ : NiPoint3) * (1 : ℚ))
      (((⟨0, 0, 60 + 1⟩ : NiPoint3) + (⟨0, 0, 1⟩ : NiPoint3) * (90 + 10 : ℚ)) * (1 : ℚ))
      = some ⟨1 / 2, ⟨0, 0, -1⟩, some ⟨.kStatic, none⟩⟩ := by
    rw [ea, eb]
    have := Scenario.flatWorld_pick_up 111 60 .kStatic .kStatic (by norm_num)
      ⟨0, 0, 61⟩ ⟨0, 0, 161⟩ (by norm_num)
    rw [if_neg (by norm_num), if_pos (by norm_num)] at this
    exact this.trans (by norm_num)
  unfold CheckHeadroomAt
  simp only
  rw [CastRayMask_first_hit Scenario.lowCeilingGame (Scenario.flatWorld Scenario.lowCeilingPlanes)
    ⟨0, 0, 60 + 1⟩ ⟨0, 0, 1⟩ (90 + 10) LayerMasks.kSolid _ _ _ rfl (by norm_num) hpick
    (by decide)]
  norm_num

theorem Scenario.lowCeiling_start (v : NiPoint3) :
    StartCorrection Scenario.lowCeilingGame ClimbExitCorrector.init v =
      (true,
        startCurve Scenario.lowCeilingGame
          { ClimbExitCorrector.init with m_startPos := ⟨0, 0, 58⟩, m_targetPos := ⟨0, 0, 103⟩ }
          45 v,
        Scenario.lowCeilingGame) := by
  rw [StartCorrection_idle_eq Scenario.lowCeilingGame ClimbExitCorrector.init v
    (Scenario.playerOf Scenario.lowCeilingPlanes ⟨0, 0, 58⟩ (some ⟨0, 0, 100⟩) none none)
    ⟨0, 0, 100⟩ ⟨0, 0, 60⟩ 2 90 50 rfl rfl rfl (Scenario.lowCeiling_detect _) (by norm_num)
    (by norm_num [Scenario.playerOf]) Scenario.lowCeiling_headroom]
  rw [if_pos (by norm_num), if_neg (by simp [ClimbExitCorrector.init]), if_neg (by norm_num)]
  norm_num [Scenario.playerOf]

/-! ### The detection scenario -/

/-- C12: with the player and the viewpoint present (and the square root exact
at 16900 = 130^2), `DetectCorrectionNeeded` casts the Solid-filtered ray straight
down from the viewpoint for 130 units; it returns 0 and leaves the target alone
if the ray misses or the feet are at or above the hit height, and otherwise
returns `hitZ - feetZ > 0` and sets the target to the feet position with Z
replaced by `hitZ`.  The returned amount is never negative, in any game. -/
theorem DetectCorrectionNeeded_spec (g : Game) (out : NiPoint3) (player : PlayerCharacter)
    (hmdPos : NiPoint3) (hp : g.player = some player) (hh : VRNodes.GetHMD g = some hmdPos)
    (hsqrt : g.sqrt 16900 = 130) :
    ((CastRayMask g hmdPos ⟨0, 0, -1⟩ 130 LayerMasks.kSolid).hit = false ∨
        (CastRayMask g hmdPos ⟨0, 0, -1⟩ 130 LayerMasks.kSolid).hitPoint.z ≤ player.position.z →
      DetectCorrectionNeeded g out = (0, out)) ∧
    ((CastRayMask g hmdPos ⟨0, 0, -1⟩ 130 LayerMasks.kSolid).hit = true ∧
        player.position.z < (CastRayMask g hmdPos ⟨0, 0, -1⟩ 130 LayerMasks.kSolid).hitPoint.z →
      DetectCorrectionNeeded g out =
        ((CastRayMask g hmdPos ⟨0, 0, -1⟩ 130 LayerMasks.kSolid).hitPoint.z - player.position.z,
          ⟨player.position.x, player.position.y,
            (CastRayMask g hmdPos ⟨0, 0, -1⟩ 130 LayerMasks.kSolid).hitPoint.z⟩) ∧
      0 < (CastRayMask g hmdPos ⟨0, 0, -1⟩ 130 LayerMasks.kSolid).hitPoint.z
        - player.position.z) ∧
    ∀ (g' : Game) (out' : NiPoint3), 0 ≤ (DetectCorrectionNeeded g' out').1 := by
  have heq := DetectCorrectionNeeded_eq g out player hmdPos hp hh hsqrt
  refine ⟨fun hmiss => ?_, fun hhit => ?_, DetectCorrectionNeeded_nonneg⟩
  · rw [heq, if_neg]
    rintro ⟨h1, h2⟩
    rcases hmiss with h | h
    · rw [h] at h1
      cases h1
    · exact absurd h2 (not_lt.mpr h)
  · rw [heq, if_pos hhit]
    exact ⟨rfl, by linarith [hhit.2]⟩

/-- Instance of C12 in the scenario with the viewpoint at height 190. -/
theorem DetectCorrectionNeeded_spec_witness :
    Scenario.standGame.sqrt 16900 = 130 ∧
    ∀ (g' : Game) (out' : NiPoint3), 0 ≤ (DetectCorrectionNeeded g' out').1 :=
  ⟨Scenario.sqrtQ_16900,
    (DetectCorrectionNeeded_spec Scenario.standGame ⟨0, 0, 0⟩
      (Scenario.playerOf Scenario.floorPlanes ⟨0, 0, 40⟩ (some ⟨0, 0, 190⟩) none none)
      ⟨0, 0, 190⟩ rfl rfl Scenario.sqrtQ_16900).2.2⟩

/-! ### The fallback branches of StartCorrection -/

/-- C13, evaluated in the low passage: the detected amount is `a = 2`, the
required height is 90 and the headroom at the naive target (0,0,60) is `H = 50`,
with no safe position on record, so the last-resort branch runs with
`H - 5 = 45 >= 1`.  The code sets the target to `startPos.z + (H - 5)`, height
103, which is 43 units above the detected surface level `startPos.z + a = 60`;
the raise is 45, not `min(a, H - 5) = 2`. -/
theorem StartCorrection_last_resort_overshoots :
    (DetectCorrectionNeeded Scenario.lowCeilingGame ⟨0, 0, 0⟩).1 = 2 ∧
    CheckHeadroomAt Scenario.lowCeilingGame
      (DetectCorrectionNeeded Scenario.lowCeilingGame ⟨0, 0, 0⟩).2 90 = 50 ∧
    ClimbExitCorrector.init.m_hasLastKnownSafePosition = false ∧
    (StartCorrection Scenario.lowCeilingGame ClimbExitCorrector.init ⟨0, 0, 0⟩).1 = true ∧
    (StartCorrection Scenario.lowCeilingGame ClimbExitCorrector.init ⟨0, 0, 0⟩).2.1.m_startPos
      = ⟨0, 0, 58⟩ ∧
    (StartCorrection Scenario.lowCeilingGame ClimbExitCorrector.init ⟨0, 0, 0⟩).2.1.m_targetPos
      = ⟨0, 0, 103⟩ ∧
    (StartCorrection Scenario.lowCeilingGame ClimbExitCorrector.init
        ⟨0, 0, 0⟩).2.1.m_targetPos.z
      - (StartCorrection Scenario.lowCeilingGame ClimbExitCorrector.init
        ⟨0, 0, 0⟩).2.1.m_startPos.z ≠ min 2 (50 - 5) := by
  rw [Scenario.lowCeiling_start, Scenario.lowCeiling_detect]
  refine ⟨rfl, Scenario.lowCeiling_headroom, rfl, rfl, rfl, rfl, ?_⟩
  show (103 : ℚ) - 58 ≠ min 2 (50 - 5)
  norm_num

/-- C14: when `StartCorrection` is called while idle with a detected amount
`a >= 0.1`, headroom `H` at the naive target below the required height `R`, and
a safe position on record, it returns true with `targetPos` equal to the
recorded safe position, `startPos` equal to the feet position, and the control
point pulled by the straight-line distance from `startPos` to the safe position
(times the configured scale) when the velocity magnitude exceeds 1. -/
theorem StartCorrection_safe_fallback (g : Game) (self : ClimbExitCorrector) (v : NiPoint3)
    (player : PlayerCharacter) (hmd target : NiPoint3) (a R H : ℚ)
    (hidle : self.isCorrecting = false) (hp : g.player = some player)
    (hh : VRNodes.GetHMD g = some hmd)
    (hdet : DetectCorrectionNeeded g ⟨0, 0, 0⟩ = (a, target)) (ha : 1 / 10 ≤ a)
    (hR : max (hmd.z - player.position.z) 80 + 10 = R)
    (hH : CheckHeadroomAt g target R = H) (hlow : H < R)
    (hsafe : self.m_hasLastKnownSafePosition = true) :
    (StartCorrection g self v).1 = true ∧
    (StartCorrection g self v).2.1.m_targetPos = self.m_lastKnownSafePosition ∧
    (StartCorrection g self v).2.1.m_startPos = player.position ∧
    (StartCorrection g self v).2.1.m_controlPoint =
      (let safe := self.m_lastKnownSafePosition
       let feet := player.position
       let distance := g.sqrt ((safe.x - feet.x) * (safe.x - feet.x)
         + (safe.y - feet.y) * (safe.y - feet.y) + (safe.z - feet.z) * (safe.z - feet.z))
       let speed := g.sqrt (v.x * v.x + v.y * v.y + v.z * v.z)
       let pull := distance * g.options.exitCorrectionControlPointScale
       if speed > 1 then
         ⟨(feet.x + safe.x) * (1 / 2) + v.x / speed * pull,
          (feet.y + safe.y) * (1 / 2) + v.y / speed * pull,
          (feet.z + safe.z) * (1 / 2) + v.z / speed * pull⟩
       else
         ⟨(feet.x + safe.x) * (1 / 2), (feet.y + safe.y) * (1 / 2),
          (feet.z + safe.z) * (1 / 2)⟩) := by
  rw [StartCorrection_idle_eq g self v player hmd target a R H hidle hp hh hdet
    (not_lt.mpr ha) hR hH, if_pos hlow, if_pos hsafe]
  exact ⟨rfl, rfl, rfl, rfl⟩

/-- Instance of C14: the low passage with the safe position (30,0,60) on
record. -/
theorem StartCorrection_safe_fallback_witness :
    Scenario.withSafe.isCorrecting = false ∧
    Scenario.withSafe.m_hasLastKnownSafePosition = true ∧
    DetectCorrectionNeeded Scenario.lowCeilingGame ⟨0, 0, 0⟩ = (2, ⟨0, 0, 60⟩) ∧
    CheckHeadroomAt Scenario.lowCeilingGame ⟨0, 0, 60⟩ 90 = 50 ∧
    (StartCorrection Scenario.lowCeilingGame Scenario.withSafe ⟨0, 0, 0⟩).1 = true ∧
    (StartCorrection Scenario.lowCeilingGame Scenario.withSafe ⟨0, 0, 0⟩).2.1.m_targetPos
      = ⟨30, 0, 60⟩ :=
  ⟨rfl, rfl, Scenario.lowCeiling_detect _, Scenario.lowCeiling_headroom,
    (StartCorrection_safe_fallback Scenario.lowCeilingGame Scenario.withSafe ⟨0, 0, 0⟩
      (Scenario.playerOf Scenario.lowCeilingPlanes ⟨0, 0, 58⟩ (some ⟨0, 0, 100⟩) none none)
      ⟨0, 0, 100⟩ ⟨0, 0, 60⟩ 2 90 50 rfl rfl rfl (Scenario.lowCeiling_detect _) (by norm_num)
      (by norm_num [Scenario.playerOf]) Scenario.lowCeiling_headroom (by norm_num) rfl).1,
    (StartCorrection_safe_fallback Scenario.lowCeilingGame Scenario.withSafe ⟨0, 0, 0⟩
      (Scenario.playerOf Scenario.lowCeilingPlanes ⟨0, 0, 58⟩ (some ⟨0, 0, 100⟩) none none)
      ⟨0, 0, 100⟩ ⟨0, 0, 60⟩ 2 90 50 rfl rfl rfl (Scenario.lowCeiling_detect _) (by norm_num)
      (by norm_num [Scenario.playerOf]) Scenario.lowCeiling_headroom (by norm_num) rfl).2.1⟩

/-! ### Control point and duration -/

theorem StartCorrection_idle_small (g : Game) (self : ClimbExitCorrector) (v : NiPoint3)
    (hidle : self.isCorrecting = false)
    (ha : (DetectCorrectionNeeded g ⟨0, 0, 0⟩).1 < 1 / 10) :
    StartCorrection g self v = (false, self, g) := by
  unfold StartCorrection
  simp only [hidle]
  cases hp : g.player with
  | none => simp only [Bool.false_eq_true, if_false]
  | some player => simp only [Bool.false_eq_true, if_false, ha, if_true]

theorem startCurve_controlPoint (g : Game) (s : ClimbExitCorrector) (amount : ℚ) (v : NiPoint3) :
    (startCurve g s amount v).m_startPos = s.m_startPos ∧
    (startCurve g s amount v).m_targetPos = s.m_targetPos ∧
    (g.sqrt (v.x * v.x + v.y * v.y + v.z * v.z) ≤ 1 →
      (startCurve g s amount v).m_controlPoint =
        ⟨(s.m_startPos.x + s.m_targetPos.x) / 2, (s.m_startPos.y + s.m_targetPos.y) / 2,
         (s.m_startPos.z + s.m_targetPos.z) / 2⟩) ∧
    (1 < g.sqrt (v.x * v.x + v.y * v.y + v.z * v.z) →
      (startCurve g s amount v).m_controlPoint =
        ⟨(s.m_startPos.x + s.m_targetPos.x) / 2
            + v.x / g.sqrt (v.x * v.x + v.y * v.y + v.z * v.z) * amount
              * g.options.exitCorrectionControlPointScale,
         (s.m_startPos.y + s.m_targetPos.y) / 2
            + v.y / g.sqrt (v.x * v.x + v.y * v.y + v.z * v.z) * amount
              * g.options.exitCorrectionControlPointScale,
         (s.m_startPos.z + s.m_targetPos.z) / 2
            + v.z / g.sqrt (v.x * v.x + v.y * v.y + v.z * v.z) * amount
              * g.options.exitCorrectionControlPointScale⟩) := by
  refine ⟨rfl, rfl, fun hle => ?_, fun hgt => ?_⟩
  · simp only [startCurve, gt_iff_lt, if_neg (not_lt.mpr hle)]
    ext <;> simp <;> ring
  · simp only [startCurve, gt_iff_lt, if_pos hgt]
    ext <;> simp <;> ring

/-- C15: after a successful `StartCorrection(v)` from idle, the control point is
the component-wise midpoint `(start + target) / 2` whenever the velocity
magnitude is at most 1, in particular for zero velocity (given `sqrt 0 <= 1`);
and when the magnitude exceeds 1 it is that midpoint plus
`(v / |v|) * correctionAmount * exitCorrectionControlPointScale`, where
`correctionAmount` is the detected amount `a`, or the distance to the safe
position, or `H - 5`, according to the branch taken. -/
theorem StartCorrection_control_point (g : Game) (self : ClimbExitCorrector) (v : NiPoint3)
    (player : PlayerCharacter) (hmd target : NiPoint3) (a R H : ℚ)
    (hidle : self.isCorrecting = false) (hp : g.player = some player)
    (hh : VRNodes.GetHMD g = some hmd)
    (hdet : DetectCorrectionNeeded g ⟨0, 0, 0⟩ = (a, target))
    (hR : max (hmd.z - player.position.z) 80 + 10 = R)
    (hH : CheckHeadroomAt g target R = H)
    (hsucc : (StartCorrection g self v).1 = true) :
    let r := (StartCorrection g self v).2.1
    let safe := self.m_lastKnownSafePosition
    let feet := player.position
    let correctionAmount :=
      if H < R then
        if self.m_hasLastKnownSafePosition = true then
          g.sqrt ((safe.x - feet.x) * (safe.x - feet.x) + (safe.y - feet.y) * (safe.y - feet.y)
            + (safe.z - feet.z) * (safe.z - feet.z))
        else H - 5
      else a
    let speed := g.sqrt (v.x * v.x + v.y * v.y + v.z * v.z)
    let scale := g.options.exitCorrectionControlPointScale
    (speed ≤ 1 →
      r.m_controlPoint =
        ⟨(r.m_startPos.x + r.m_targetPos.x) / 2, (r.m_startPos.y + r.m_targetPos.y) / 2,
         (r.m_startPos.z + r.m_targetPos.z) / 2⟩) ∧
    (1 < speed →
      r.m_controlPoint =
        ⟨(r.m_startPos.x + r.m_targetPos.x) / 2 + v.x / speed * correctionAmount * scale,
         (r.m_startPos.y + r.m_targetPos.y) / 2 + v.y / speed * correctionAmount * scale,
         (r.m_startPos.z + r.m_targetPos.z) / 2 + v.z / speed * correctionAmount * scale⟩) ∧
    (g.sqrt 0 ≤ 1 → v = ⟨0, 0, 0⟩ →
      r.m_controlPoint =
        ⟨(r.m_startPos.x + r.m_targetPos.x) / 2, (r.m_startPos.y + r.m_targetPos.y) / 2,
         (r.m_startPos.z + r.m_targetPos.z) / 2⟩) := by
  intro r safe feet correctionAmount speed scale
  have ha : ¬ a < 1 / 10 := by
    intro hlt
    have hlt' : (DetectCorrectionNeeded g ⟨0, 0, 0⟩).1 < 1 / 10 := by rw [hdet]; exact hlt
    rw [StartCorrection_idle_small g self v hidle hlt'] at hsucc
    cases hsucc
  have heq := StartCorrection_idle_eq g self v player hmd target a R H hidle hp hh hdet ha hR hH
  have key : ∃ s : ClimbExitCorrector, r = startCurve g s correctionAmount v := by
    show ∃ s : ClimbExitCorrector, (StartCorrection g self v).2.1 = startCurve g s correctionAmount v
    rw [heq] at hsucc ⊢
    by_cases h1 : H < R
    · by_cases hs : self.m_hasLastKnownSafePosition = true
      · simp only [correctionAmount, if_pos h1, if_pos hs]
        exact ⟨_, rfl⟩
      · by_cases h2 : H - 5 < 1
        · rw [if_pos h1, if_neg hs, if_pos h2] at hsucc
          cases hsucc
        · simp only [correctionAmount, if_pos h1, if_neg hs, if_neg h2]
          exact ⟨_, rfl⟩
    · simp only [correctionAmount, if_neg h1]
      exact ⟨_, rfl⟩
  obtain ⟨s, hs⟩ := key
  obtain ⟨c1, c2, c3, c4⟩ := startCurve_controlPoint g s correctionAmount v
  rw [hs, c1, c2]
  refine ⟨c3, c4, fun h0 hv => ?_⟩
  apply c3
  rw [hv]
  simpa using h0

/-- Instance of C15: zero velocity in the scenario with the viewpoint at height
190 gives the midpoint of start and target. -/
theorem StartCorrection_control_point_witness :
    ClimbExitCorrector.init.isCorrecting = false ∧
    (StartCorrection Scenario.standGame ClimbExitCorrector.init ⟨0, 0, 0⟩).1 = true ∧
    (StartCorrection Scenario.standGame ClimbExitCorrector.init ⟨0, 0, 0⟩).2.1.m_controlPoint =
      ⟨((StartCorrection Scenario.standGame ClimbExitCorrector.init ⟨0, 0, 0⟩).2.1.m_startPos.x
          + (StartCorrection Scenario.standGame ClimbExitCorrector.init
              ⟨0, 0, 0⟩).2.1.m_targetPos.x) / 2,
       ((StartCorrection Scenario.standGame ClimbExitCorrector.init ⟨0, 0, 0⟩).2.1.m_startPos.y
          + (StartCorrection Scenario.standGame ClimbExitCorrector.init
              ⟨0, 0, 0⟩).2.1.m_targetPos.y) / 2,
       ((StartCorrection Scenario.standGame ClimbExitCorrector.init ⟨0, 0, 0⟩).2.1.m_startPos.z
          + (StartCorrection Scenario.standGame ClimbExitCorrector.init
              ⟨0, 0, 0⟩).2.1.m_targetPos.z) / 2⟩ :=
  ⟨rfl, by rw [Scenario.standGame_start],
    (StartCorrection_control_point Scenario.standGame ClimbExitCorrector.init ⟨0, 0, 0⟩
      (Scenario.playerOf Scenario.floorPlanes ⟨0, 0, 40⟩ (some ⟨0, 0, 190⟩) none none)
      ⟨0, 0, 190⟩ ⟨0, 0, 60⟩ 20 160 260 rfl rfl rfl (Scenario.standGame_detect _)
      (by norm_num [Scenario.playerOf]) Scenario.standGame_headroom
      (by rw [Scenario.standGame_start])).2.2
      (by show Scenario.sqrtQ 0 ≤ 1; rw [Scenario.sqrtQ_zero]; norm_num) rfl⟩

/-- C16: for any two velocities and the same controller state and game, the two
`StartCorrection` calls return the same boolean, the same game and the same
`startPos`, `targetPos`, `progress`, `duration` and `isCorrecting`; and when a
correction is started from idle its duration is the straight-line distance from
`startPos` to `targetPos` times `exitCorrectionSecondsPerUnit`. -/
theorem StartCorrection_velocity_independent (g : Game) (self : ClimbExitCorrector)
    (v1 v2 : NiPoint3) :
    (StartCorrection g self v1).1 = (StartCorrection g self v2).1 ∧
    (StartCorrection g self v1).2.1.m_startPos = (StartCorrection g self v2).2.1.m_startPos ∧
    (StartCorrection g self v1).2.1.m_targetPos = (StartCorrection g self v2).2.1.m_targetPos ∧
    (StartCorrection g self v1).2.1.m_progress = (StartCorrection g self v2).2.1.m_progress ∧
    (StartCorrection g self v1).2.1.m_duration = (StartCorrection g self v2).2.1.m_duration ∧
    (StartCorrection g self v1).2.1.isCorrecting = (StartCorrection g self v2).2.1.isCorrecting ∧
    (StartCorrection g self v1).2.2 = (StartCorrection g self v2).2.2 ∧
    (self.isCorrecting = false → (StartCorrection g self v1).1 = true →
      (StartCorrection g self v1).2.1.m_duration =
        g.sqrt (((StartCorrection g self v1).2.1.m_targetPos.x
              - (StartCorrection g self v1).2.1.m_startPos.x)
            * ((StartCorrection g self v1).2.1.m_targetPos.x
              - (StartCorrection g self v1).2.1.m_startPos.x)
          + ((StartCorrection g self v1).2.1.m_targetPos.y
              - (StartCorrection g self v1).2.1.m_startPos.y)
            * ((StartCorrection g self v1).2.1.m_targetPos.y
              - (StartCorrection g self v1).2.1.m_startPos.y)
          + ((StartCorrection g self v1).2.1.m_targetPos.z
              - (StartCorrection g self v1).2.1.m_startPos.z)
            * ((StartCorrection g self v1).2.1.m_targetPos.z
              - (StartCorrection g self v1).2.1.m_startPos.z))
          * g.options.exitCorrectionSecondsPerUnit) := by
  cases hc : self.isCorrecting
  · by_cases ha : (DetectCorrectionNeeded g ⟨0, 0, 0⟩).1 < 1 / 10
    · rw [StartCorrection_idle_small g self v1 hc ha, StartCorrection_idle_small g self v2 hc ha]
      exact ⟨rfl, rfl, rfl, rfl, rfl, rfl, rfl, fun _ h => by cases h⟩
    · obtain ⟨player, hp⟩ : ∃ player, g.player = some player := by
        rcases hp : g.player with _ | player
        · rw [DetectCorrectionNeeded_unavailable g _ (Or.inl hp)] at ha
          norm_num at ha
        · exact ⟨player, rfl⟩
      obtain ⟨hmd, hh⟩ : ∃ hmd, VRNodes.GetHMD g = some hmd := by
        rcases hh : VRNodes.GetHMD g with _ | hmd
        · rw [DetectCorrectionNeeded_unavailable g _ (Or.inr (Or.inl hh))] at ha
          norm_num at ha
        · exact ⟨hmd, rfl⟩
      have e1 := StartCorrection_idle_eq g self v1 player hmd _ _ _ _ hc hp hh rfl ha rfl rfl
      have e2 := StartCorrection_idle_eq g self v2 player hmd _ _ _ _ hc hp hh rfl ha rfl rfl
      rw [e1, e2]
      split_ifs
      · exact ⟨rfl, rfl, rfl, rfl, rfl, rfl, rfl, fun _ _ => rfl⟩
      · exact ⟨rfl, rfl, rfl, rfl, rfl, rfl, rfl, fun _ h => by cases h⟩
      · exact ⟨rfl, rfl, rfl, rfl, rfl, rfl, rfl, fun _ _ => rfl⟩
      · exact ⟨rfl, rfl, rfl, rfl, rfl, rfl, rfl, fun _ _ => rfl⟩
  · have h1 : ∀ u : NiPoint3, StartCorrection g self u = (true, self, g) := by
      intro u
      simp [StartCorrection, hc]
    rw [h1 v1, h1 v2]
    exact ⟨rfl, rfl, rfl, rfl, rfl, rfl, rfl, fun h => by cases h⟩

/-! ### Cancel and the reachable states -/

theorem Scenario.standGame_sane : SaneGame Scenario.standGame := by
  refine ⟨fun x => ?_, ?_⟩
  · show 0 ≤ Scenario.sqrtQ x
    unfold Scenario.sqrtQ
    positivity
  · show (0 : ℚ) ≤ 1 / 100
    norm_num

theorem Scenario.standGame_sqrt : Scenario.standGame.sqrt = Scenario.sqrtQ := rfl

theorem Scenario.standGame_secondsPerUnit :
    Scenario.standGame.options.exitCorrectionSecondsPerUnit = 1 / 100 := rfl

theorem Scenario.standGame_started :
    StartCorrection Scenario.standGame ClimbExitCorrector.init ⟨0, 0, 0⟩
      = (true, Scenario.started, Scenario.standGame) := by
  have hv : Scenario.sqrtQ ((0 : ℚ) * 0 + 0 * 0 + 0 * 0) = 0 := by
    have h : (0 : ℚ) * 0 + 0 * 0 + 0 * 0 = 0 := by norm_num
    rw [h, Scenario.sqrtQ_zero]
  have hd : Scenario.sqrtQ (((0 : ℚ) - 0) * (0 - 0) + (0 - 0) * (0 - 0)
      + (60 - 40) * (60 - 40)) = 20 := by
    have h : ((0 : ℚ) - 0) * (0 - 0) + (0 - 0) * (0 - 0) + (60 - 40) * (60 - 40) = 400 := by
      norm_num
    rw [h, Scenario.sqrtQ_400]
  have hn : ¬ ((0 : ℚ) > 1) := by norm_num
  have h1 : ((0 : ℚ) + 0) * (1 / 2) = 0 := by norm_num
  have h2 : ((40 : ℚ) + 60) * (1 / 2) = 50 := by norm_num
  have h3 : (20 : ℚ) * (1 / 100) = 1 / 5 := by norm_num
  rw [Scenario.standGame_start]
  simp only [startCurve, Scenario.standGame_sqrt, Scenario.standGame_secondsPerUnit, hv, hd,
    if_neg hn, h1, h2, h3, Scenario.started]

theorem Scenario.started_updated :
    (Update Scenario.standGame Scenario.started 1).2.1 = Scenario.completed := by
  have hp : Scenario.standGame.player
      = some (Scenario.playerOf Scenario.floorPlanes ⟨0, 0, 40⟩ (some ⟨0, 0, 190⟩) none none) := rfl
  have hc : Scenario.started.isCorrecting = true := rfl
  have hq : Scenario.started.m_progress + 1 / Scenario.started.m_duration = 5 := by
    show (0 : ℚ) + 1 / (1 / 5) = 5
    norm_num
  rw [Update_step Scenario.standGame Scenario.started 1 _ hc hp, hq, if_pos (by norm_num)]
  rfl

theorem Scenario.started_reachable : Reachable Scenario.started := by
  have h := Reachable.startCorrection Scenario.standGame ⟨0, 0, 0⟩ ClimbExitCorrector.init
    Scenario.standGame_sane Reachable.init
  rw [Scenario.standGame_started] at h
  exact h

theorem Scenario.completed_reachable : Reachable Scenario.completed := by
  have h := Reachable.update Scenario.standGame 1 Scenario.started (by norm_num)
    Scenario.started_reachable
  rw [Scenario.started_updated] at h
  exact h

/-! ### Cancel -/

/-- C17, as stated, fails: the state left by a normally completed correction
(start in the scenario with the viewpoint at height 190, then one `Update` of
one second) is reachable and idle with `progress = 5`, and `Cancel` changes it:
it resets `progress` to 0. -/
theorem Cancel_after_completion_resets_progress :
    Reachable Scenario.completed ∧
    (Update Scenario.standGame
      (StartCorrection Scenario.standGame ClimbExitCorrector.init ⟨0, 0, 0⟩).2.1 1).2.1
      = Scenario.completed ∧
    Scenario.completed.isCorrecting = false ∧
    Scenario.completed.m_progress = 5 ∧
    (Cancel Scenario.completed).m_progress = 0 ∧
    Cancel Scenario.completed ≠ Scenario.completed := by
  refine ⟨Scenario.completed_reachable, ?_, rfl, rfl, rfl, ?_⟩
  · rw [Scenario.standGame_started]
    exact Scenario.started_updated
  · intro h
    have h2 : (Cancel Scenario.completed).m_progress = Scenario.completed.m_progress :=
      congrArg ClimbExitCorrector.m_progress h
    have h3 : (0 : ℚ) = 5 := h2
    norm_num at h3

theorem Cancel_eq (self : ClimbExitCorrector) :
    Cancel self = { self with isCorrecting := false, m_progress := 0 } := by
  unfold Cancel
  cases hc : self.isCorrecting
  · simp [hc]
  · simp

/-- C17 (amended): in every state `Cancel` sets `isCorrecting = false` and
`progress = 0` and leaves every other field (`startPos`, `controlPoint`,
`targetPos`, `duration`, the safe-position memory) unchanged; it has no access
to the game, so the player is not moved.  It changes nothing exactly when the
controller is idle with `progress` already 0. -/
theorem Cancel_effect (self : ClimbExitCorrector) :
    Cancel self = { self with isCorrecting := false, m_progress := 0 } ∧
    (Cancel self = self ↔ self.isCorrecting = false ∧ self.m_progress = 0) := by
  refine ⟨Cancel_eq self, ?_⟩
  rw [Cancel_eq self]
  constructor
  · intro h
    have ha := congrArg ClimbExitCorrector.isCorrecting h
    have hb := congrArg ClimbExitCorrector.m_progress h
    exact ⟨ha.symm, hb.symm⟩
  · rintro ⟨ha, hb⟩
    cases self
    simp only at ha hb
    subst ha hb
    rfl

/-! ### Progress while correcting -/

theorem UpdateSafePositionCheck_frame (g : Game) (self : ClimbExitCorrector) :
    (UpdateSafePositionCheck g self).isCorrecting = self.isCorrecting ∧
    (UpdateSafePositionCheck g self).m_startPos = self.m_startPos ∧
    (UpdateSafePositionCheck g self).m_controlPoint = self.m_controlPoint ∧
    (UpdateSafePositionCheck g self).m_targetPos = self.m_targetPos ∧
    (UpdateSafePositionCheck g self).m_progress = self.m_progress ∧
    (UpdateSafePositionCheck g self).m_duration = self.m_duration ∧
    (self.m_hasLastKnownSafePosition = true →
      (UpdateSafePositionCheck g self).m_hasLastKnownSafePosition = true) := by
  unfold UpdateSafePositionCheck
  simp only
  by_cases h1 : self.m_safePositionCheckCounter + 1 < SAFE_POSITION_CHECK_INTERVAL
  · rw [if_pos h1]
    exact ⟨rfl, rfl, rfl, rfl, rfl, rfl, fun h => h⟩
  · rw [if_neg h1]
    cases g.player with
    | none => exact ⟨rfl, rfl, rfl, rfl, rfl, rfl, fun h => h⟩
    | some player =>
      cases VRNodes.GetHMD g with
      | none => exact ⟨rfl, rfl, rfl, rfl, rfl, rfl, fun h => h⟩
      | some hmdPos =>
        simp only
        split_ifs <;>
          exact ⟨rfl, rfl, rfl, rfl, rfl, rfl, fun h => by first | rfl | exact h⟩

/-! ### Safe-position tracking -/

/-- C19: when the body of `UpdateSafePositionCheck` runs with player and
viewpoint available, with `required = max(viewpointZ - feetZ, 80) + 10`,
`groundZ` the height of the Solid hit found casting 200 units down from the
viewpoint (or `feetZ` if none) and `clearance` the distance of the Solid hit
found casting `required + 20` units upward from
`(viewpointX, viewpointY, groundZ + 1)` (or `required + 100` if none): if
`clearance >= required` the safe position becomes
`(viewpointX, viewpointY, groundZ)` with `hasValue = true`, otherwise the stored
position and `hasValue` are unchanged (the counter is reset and the height is
marked as logged in both cases).  In every state and game the call never turns
`hasValue` from true to false and never changes the correction state. -/
theorem UpdateSafePositionCheck_body (g : Game) (self : ClimbExitCorrector)
    (player : PlayerCharacter) (hmdPos : NiPoint3) (hrun : runsBody self)
    (hp : g.player = some player) (hh : VRNodes.GetHMD g = some hmdPos) :
    (let required := max (hmdPos.z - player.position.z) 80 + 10
     let ground := CastRayMask g hmdPos ⟨0, 0, -1⟩ 200 LayerMasks.kSolid
     let groundZ := if ground.hit = true then ground.hitPoint.z else player.position.z
     let ceiling :=
       CastRayMask g ⟨hmdPos.x, hmdPos.y, groundZ + 1⟩ ⟨0, 0, 1⟩ (required + 20) LayerMasks.kSolid
     let clearance := if ceiling.hit = true then ceiling.distance else required + 100
     (required ≤ clearance →
        UpdateSafePositionCheck g self =
          { self with
            m_safePositionCheckCounter := 0
            m_loggedHeightThisSession := true
            m_lastKnownSafePosition := ⟨hmdPos.x, hmdPos.y, groundZ⟩
            m_hasLastKnownSafePosition := true }) ∧
     (clearance < required →
        UpdateSafePositionCheck g self =
          { self with
            m_safePositionCheckCounter := 0
            m_loggedHeightThisSession := true })) ∧
    ∀ (g' : Game) (s : ClimbExitCorrector),
      (s.m_hasLastKnownSafePosition = true →
        (UpdateSafePositionCheck g' s).m_hasLastKnownSafePosition = true) ∧
      (UpdateSafePositionCheck g' s).isCorrecting = s.isCorrecting ∧
      (UpdateSafePositionCheck g' s).m_startPos = s.m_startPos ∧
      (UpdateSafePositionCheck g' s).m_controlPoint = s.m_controlPoint ∧
      (UpdateSafePositionCheck g' s).m_targetPos = s.m_targetPos ∧
      (UpdateSafePositionCheck g' s).m_progress = s.m_progress ∧
      (UpdateSafePositionCheck g' s).m_duration = s.m_duration := by
  refine ⟨?_, fun g' s => ?_⟩
  · have hrun' : ¬ (self.m_safePositionCheckCounter + 1 < SAFE_POSITION_CHECK_INTERVAL) := hrun
    simp only
    constructor
    · intro hge
      unfold UpdateSafePositionCheck
      simp only [hrun', if_false, hp, hh, MIN_STANDING_HEIGHT, HEADROOM_MARGIN]
      rw [if_pos hge]
      cases hl : self.m_loggedHeightThisSession <;> simp
    · intro hlt
      unfold UpdateSafePositionCheck
      simp only [hrun', if_false, hp, hh, MIN_STANDING_HEIGHT, HEADROOM_MARGIN]
      rw [if_neg (not_le.mpr hlt)]
      cases hl : self.m_loggedHeightThisSession <;> simp [hl]
  · obtain ⟨f1, f2, f3, f4, f5, f6, f7⟩ := UpdateSafePositionCheck_frame g' s
    exact ⟨f7, f1, f2, f3, f4, f5, f6⟩

theorem runsBody_after_clear (s : ClimbExitCorrector) : runsBody (ClearSafePosition s) := by
  unfold runsBody ClearSafePosition SAFE_POSITION_CHECK_INTERVAL
  norm_num

/-- Instance of C19: right after `ClearSafePosition` the body runs; in the
scenario with the viewpoint at height 190 the call leaves the correction flag
alone. -/
theorem UpdateSafePositionCheck_body_witness :
    runsBody (ClearSafePosition ClimbExitCorrector.init) ∧
    (UpdateSafePositionCheck Scenario.standGame
        (ClearSafePosition ClimbExitCorrector.init)).isCorrecting
      = (ClearSafePosition ClimbExitCorrector.init).isCorrecting :=
  ⟨runsBody_after_clear _,
    ((UpdateSafePositionCheck_body Scenario.standGame (ClearSafePosition ClimbExitCorrector.init)
      (Scenario.playerOf Scenario.floorPlanes ⟨0, 0, 40⟩ (some ⟨0, 0, 190⟩) none none)
      ⟨0, 0, 190⟩ (runsBody_after_clear _) rfl rfl).2 Scenario.standGame
      (ClearSafePosition ClimbExitCorrector.init)).2.1⟩

theorem CastRay_miss (g : Game) (origin direction : NiPoint3) (maxDistance : ℚ)
    (h : (CastRay g origin direction maxDistance).hit = false) :
    CastRay g origin direction maxDistance = initResult origin direction maxDistance := by
  unfold CastRay at h ⊢
  cases hw : physicsWorld g with
  | none => rfl
  | some world =>
    simp only [hw] at h ⊢
    cases hp : world.PickObject (origin * g.havokWorldScale)
        ((origin + direction * maxDistance) * g.havokWorldScale) with
    | none => rfl
    | some out =>
      rw [hp] at h
      simp at h

theorem CastRay_noWorld (g : Game) (origin direction : NiPoint3) (maxDistance : ℚ)
    (hw : physicsWorld g = none) :
    CastRay g origin direction maxDistance = initResult origin direction maxDistance := by
  unfold CastRay
  simp only [hw]

theorem CastRayMask_noWorld (g : Game) (origin direction : NiPoint3) (maxDistance : ℚ)
    (mask : CollisionLayerMask) (hw : physicsWorld g = none) :
    CastRayMask g origin direction maxDistance mask = initResult origin direction maxDistance := by
  unfold CastRayMask
  simp only [hw]

theorem CastRay_pick_none (g : Game) (world : bhkWorld) (origin direction : NiPoint3)
    (maxDistance : ℚ) (hw : physicsWorld g = some world)
    (hpick : world.PickObject (origin * g.havokWorldScale)
      ((origin + direction * maxDistance) * g.havokWorldScale) = none) :
    CastRay g origin direction maxDistance = initResult origin direction maxDistance := by
  unfold CastRay
  simp only [hw, hpick]

theorem CastRay_pick_some (g : Game) (world : bhkWorld) (origin direction : NiPoint3)
    (maxDistance : ℚ) (out : RayOutput) (hw : physicsWorld g = some world)
    (hpick : world.PickObject (origin * g.havokWorldScale)
      ((origin + direction * maxDistance) * g.havokWorldScale) = some out) :
    CastRay g origin direction maxDistance =
      { hit := true
        distance := maxDistance * out.hitFraction
        hitPoint := origin + direction * (maxDistance * out.hitFraction)
        hitNormal := out.normal
        collisionLayer := outputLayer out
        hitRef :=
          match out.rootCollidable with
          | some c => c.ref
          | none => none } := by
  unfold CastRay
  simp only [hw, hpick]
  rcases out with ⟨f, nrm, _ | c⟩ <;> rfl

/-- A pass of the loop either leaves `result` untouched or reports a hit. -/
theorem CastRayLoop_miss (world : bhkWorld) (scale : ℚ) (direction : NiPoint3)
    (maxDistance : ℚ) (layerMask : CollisionLayerMask) (result : RaycastResult) (n : Nat) :
    ∀ (acc : ℚ) (cur : NiPoint3),
      (CastRayLoop world scale direction maxDistance layerMask result n acc cur).hit = false →
      CastRayLoop world scale direction maxDistance layerMask result n acc cur = result := by
  induction n with
  | zero => intro acc cur _; rfl
  | succ n ih =>
    intro acc cur
    simp only [CastRayLoop]
    split_ifs with h1
    · intro _; rfl
    · split
      · intro _; rfl
      · split_ifs with h2
        · intro h; simp at h
        · exact ih _ _

theorem CastRayMask_miss (g : Game) (origin direction : NiPoint3) (maxDistance : ℚ)
    (mask : CollisionLayerMask)
    (h : (CastRayMask g origin direction maxDistance mask).hit = false) :
    CastRayMask g origin direction maxDistance mask = initResult origin direction maxDistance := by
  unfold CastRayMask at h ⊢
  cases hw : physicsWorld g with
  | none => rfl
  | some world =>
    simp only [hw] at h ⊢
    exact CastRayLoop_miss _ _ _ _ _ _ _ _ _ h

/-- Invariant of the loop of the filtered cast: the current origin is the point
of the ray at the accumulated distance, so a hit is reported at its distance
from the original origin, which lies within the length of the ray. -/
theorem CastRayLoop_hit_distance (world : bhkWorld) (scale : ℚ) (origin direction : NiPoint3)
    (maxDistance : ℚ) (layerMask : CollisionLayerMask) (result : RaycastResult)
    (hfrac : FractionsInUnit world) (hres : result.hit = false) (n : Nat) :
    ∀ (acc : ℚ) (cur : NiPoint3), 0 ≤ acc → cur = origin + direction * acc →
      (CastRayLoop world scale direction maxDistance layerMask result n acc cur).hit = true →
      0 ≤ (CastRayLoop world scale direction maxDistance layerMask result n acc cur).distance ∧
      (CastRayLoop world scale direction maxDistance layerMask result n acc cur).distance
        ≤ maxDistance ∧
      (CastRayLoop world scale direction maxDistance layerMask result n acc cur).hitPoint =
        origin + direction *
          (CastRayLoop world scale direction maxDistance layerMask result n acc cur).distance := by
  induction n with
  | zero => intro acc cur _ _ h; simp [CastRayLoop, hres] at h
  | succ n ih =>
    intro acc cur hacc hcur
    simp only [CastRayLoop]
    split_ifs with h1
    · intro h; simp [hres] at h
    · split
      · intro h; simp [hres] at h
      · rename_i out hp
        have hf := hfrac _ _ out hp
        have hrem : 0 < maxDistance - acc := not_le.mp h1
        have hd0 : 0 ≤ (maxDistance - acc) * out.hitFraction := mul_nonneg hrem.le hf.1
        have hd1 : (maxDistance - acc) * out.hitFraction ≤ maxDistance - acc := by
          have := mul_le_mul_of_nonneg_left hf.2 hrem.le
          rwa [mul_one] at this
        split_ifs with h2
        · intro _
          refine ⟨by simp only; linarith, by simp only; linarith, ?_⟩
          simp only [hcur]
          ext <;> simp <;> ring
        · refine ih _ _ (by unfold EPSILON; linarith) ?_
          rw [hcur]
          ext <;> simp <;> ring

theorem CastRayMask_hit_distance_aux (g : Game) (origin direction : NiPoint3) (maxDistance : ℚ)
    (layerMask : CollisionLayerMask)
    (hfrac : ∀ world, physicsWorld g = some world → FractionsInUnit world)
    (hhit : (CastRayMask g origin direction maxDistance layerMask).hit = true) :
    0 ≤ (CastRayMask g origin direction maxDistance layerMask).distance ∧
    (CastRayMask g origin direction maxDistance layerMask).distance ≤ maxDistance ∧
    (CastRayMask g origin direction maxDistance layerMask).hitPoint =
      origin + direction * (CastRayMask g origin direction maxDistance layerMask).distance := by
  unfold CastRayMask at hhit ⊢
  cases hw : physicsWorld g with
  | none => simp [hw, initResult] at hhit
  | some world =>
    simp only [hw] at hhit ⊢
    exact CastRayLoop_hit_distance world _ origin direction maxDistance layerMask _
      (hfrac world hw) rfl _ 0 origin le_rfl (by ext <;> simp) hhit

/-! ### Hit fractions of the plane worlds -/

theorem Scenario.highest_mem (l : List Scenario.Plane) :
    ∀ p, Scenario.highest l = some p → p ∈ l := by
  induction l with
  | nil => intro p h; simp [Scenario.highest] at h
  | cons a rest ih =>
    intro p h
    simp only [Scenario.highest] at h
    cases hr : Scenario.highest rest with
    | none =>
      rw [hr] at h
      simp only [Option.some.injEq] at h
      rw [← h]; exact List.mem_cons_self _ _
    | some q =>
      rw [hr] at h
      simp only at h
      split_ifs at h
      · simp only [Option.some.injEq] at h
        rw [← h]; exact List.mem_cons_self _ _
      · simp only [Option.some.injEq] at h
        rw [← h]; exact List.mem_cons_of_mem _ (ih q hr)

theorem Scenario.lowest_mem (l : List Scenario.Plane) :
    ∀ p, Scenario.lowest l = some p → p ∈ l := by
  induction l with
  | nil => intro p h; simp [Scenario.lowest] at h
  | cons a rest ih =>
    intro p h
    simp only [Scenario.lowest] at h
    cases hr : Scenario.lowest rest with
    | none =>
      rw [hr] at h
      simp only [Option.some.injEq] at h
      rw [← h]; exact List.mem_cons_self _ _
    | some q =>
      rw [hr] at h
      simp only at h
      split_ifs at h
      · simp only [Option.some.injEq] at h
        rw [← h]; exact List.mem_cons_self _ _
      · simp only [Option.some.injEq] at h
        rw [← h]; exact List.mem_cons_of_mem _ (ih q hr)

/-- Every plane world reports hit fractions in `[0, 1]`. -/
theorem Scenario.flatWorld_fractions (planes : List Scenario.Plane) :
    FractionsInUnit (Scenario.flatWorld planes) := by
  intro a b out h
  simp only [Scenario.flatWorld] at h
  split_ifs at h with h1 h2
  · cases hh : Scenario.highest
        (planes.filter fun p => decide (b.z ≤ p.height ∧ p.height ≤ a.z)) with
    | none => rw [hh] at h; simp at h
    | some p =>
      rw [hh] at h
      simp only [Option.map_some', Option.some.injEq] at h
      have hm := Scenario.highest_mem _ p hh
      rw [List.mem_filter] at hm
      have hr := of_decide_eq_true hm.2
      rw [← h]
      simp only [Scenario.planeOutput]
      have hneg : b.z - a.z < 0 := by linarith
      constructor
      · exact div_nonneg_of_nonpos (by linarith [hr.2]) hneg.le
      · rw [div_le_one_of_neg hneg]; linarith [hr.1]
  · cases hh : Scenario.lowest
        (planes.filter fun p => decide (a.z ≤ p.height ∧ p.height ≤ b.z)) with
    | none => rw [hh] at h; simp at h
    | some p =>
      rw [hh] at h
      simp only [Option.map_some', Option.some.injEq] at h
      have hm := Scenario.lowest_mem _ p hh
      rw [List.mem_filter] at hm
      have hr := of_decide_eq_true hm.2
      rw [← h]
      simp only [Scenario.planeOutput]
      have hpos : 0 < b.z - a.z := by linarith
      constructor
      · exact div_nonneg (by linarith [hr.1]) hpos.le
      · rw [div_le_one hpos]; linarith [hr.2]

theorem Scenario.game_fractions (planes : List Scenario.Plane) (feet : NiPoint3)
    (hmd l r : Option NiPoint3) (world : bhkWorld)
    (hw : physicsWorld (Scenario.game planes feet hmd l r) = some world) :
    FractionsInUnit world := by
  have : world = Scenario.flatWorld planes := by
    simp only [physicsWorld, Scenario.game, Option.some.injEq] at hw
    exact hw.symm
  rw [this]
  exact Scenario.flatWorld_fractions planes

/-! ### The queries issued by the filtered cast -/

theorem CastRayLoopQueries_length (world : bhkWorld) (scale : ℚ) (direction : NiPoint3)
    (maxDistance : ℚ) (layerMask : CollisionLayerMask) (n : Nat) :
    ∀ (acc : ℚ) (cur : NiPoint3),
      (CastRayLoopQueries world scale direction maxDistance layerMask n acc cur).length ≤ n := by
  induction n with
  | zero => intro acc cur; simp [CastRayLoopQueries]
  | succ n ih =>
    intro acc cur
    simp only [CastRayLoopQueries]
    split_ifs with h1
    · simp
    · split
      · simp
      · split_ifs with h2
        · simp
        · simp only [List.length_cons]
          exact Nat.succ_le_succ (ih _ _)

/-- When every query the loop issues reports a hit outside the mask, the loop
leaves `result` untouched. -/
theorem CastRayLoop_all_skipped (world : bhkWorld) (scale : ℚ) (direction : NiPoint3)
    (maxDistance : ℚ) (layerMask : CollisionLayerMask) (result : RaycastResult) (n : Nat) :
    ∀ (acc : ℚ) (cur : NiPoint3),
      (∀ q ∈ CastRayLoopQueries world scale direction maxDistance layerMask n acc cur,
        ∃ out, q = some out ∧ (layerMask >>> (outputLayer out).toNat) &&& 1 ≠ 1) →
      CastRayLoop world scale direction maxDistance layerMask result n acc cur = result := by
  induction n with
  | zero => intro acc cur _; rfl
  | succ n ih =>
    intro acc cur
    simp only [CastRayLoop, CastRayLoopQueries]
    split_ifs with h1
    · intro _; rfl
    · split
      · intro _; rfl
      · rename_i out hp
        split_ifs with h2
        · intro h
          obtain ⟨o, ho, hm⟩ := h (some out) (List.mem_singleton.2 rfl)
          cases ho
          exfalso
          apply hm
          rw [← layerBit_ne_zero_iff]
          rcases out with ⟨f, nrm, _ | c⟩ <;> exact h2
        · intro h
          exact ih _ _ (fun q hq => h q (List.mem_cons_of_mem _ hq))

theorem CastRayLoopQueries_skip (world : bhkWorld) (scale : ℚ) (direction : NiPoint3)
    (maxDistance : ℚ) (mask : CollisionLayerMask) (n : Nat) (acc : ℚ) (cur : NiPoint3)
    (f : ℚ) (nrm : NiPoint3) (c : hkpCollidable) (hrem : 0 < maxDistance - acc)
    (hpick : world.PickObject (cur * scale) ((cur + direction * (maxDistance - acc)) * scale)
      = some ⟨f, nrm, some c⟩)
    (hout : (mask >>> c.collisionLayer.toNat) &&& 1 ≠ 1) :
    CastRayLoopQueries world scale direction maxDistance mask (n + 1) acc cur =
      some ⟨f, nrm, some c⟩ ::
        CastRayLoopQueries world scale direction maxDistance mask n
          (acc + ((maxDistance - acc) * f + EPSILON))
          (cur + direction * ((maxDistance - acc) * f) + direction * EPSILON) := by
  have hm : ¬ (mask &&& (1 <<< c.collisionLayer.toNat) ≠ 0) := by
    rw [layerBit_ne_zero_iff]; exact hout
  simp only [CastRayLoopQueries, not_le.mpr hrem, if_false, hpick, if_neg hm]

theorem CastRayLoop_hit_out (world : bhkWorld) (scale : ℚ) (direction : NiPoint3)
    (maxDistance : ℚ) (mask : CollisionLayerMask) (result : RaycastResult) (n : Nat) (acc : ℚ)
    (cur : NiPoint3) (out : RayOutput) (hrem : 0 < maxDistance - acc)
    (hpick : world.PickObject (cur * scale) ((cur + direction * (maxDistance - acc)) * scale)
      = some out)
    (hin : (mask >>> (outputLayer out).toNat) &&& 1 = 1) :
    CastRayLoop world scale direction maxDistance mask result (n + 1) acc cur =
      { hit := true
        distance := acc + (maxDistance - acc) * out.hitFraction
        hitPoint := cur + direction * ((maxDistance - acc) * out.hitFraction)
        hitNormal := out.normal
        collisionLayer := outputLayer out
        hitRef :=
          match out.rootCollidable with
          | some c => c.ref
          | none => none } := by
  rcases out with ⟨f, nrm, _ | c⟩
  · have hm : mask &&& (1 <<< COL_LAYER.kUnidentified.toNat) ≠ 0 := by
      rw [layerBit_ne_zero_iff]; exact hin
    simp only [CastRayLoop, not_le.mpr hrem, if_false, hpick, if_pos hm, outputLayer]
  · have hm : mask &&& (1 <<< c.collisionLayer.toNat) ≠ 0 := by
      rw [layerBit_ne_zero_iff]; exact hin
    simp only [CastRayLoop, not_le.mpr hrem, if_false, hpick, if_pos hm, outputLayer]

/-- A mask with all 64 bits set contains every layer. -/
theorem fullMask_mem (layer : COL_LAYER) : ((2 ^ 64 - 1) >>> layer.toNat) &&& 1 = 1 := by
  cases layer <;> decide

/-- C21: for both `CastRay` overloads every result with `hit = false` is the
initial record, whose distance is `maxDistance`, whose point is
`origin + direction * maxDistance` and whose normal is `(0,0,0)`; the result has
`hit = false` when the player, the cell or the physics world is unavailable,
when the world reports no hit, and, for the filtered overload, when every query
issued reported a hit outside the mask (until the iteration or distance budget
ran out). -/
theorem CastRay_miss_fields (g : Game) (origin direction : NiPoint3) (maxDistance : ℚ)
    (layerMask : CollisionLayerMask) :
    ((CastRay g origin direction maxDistance).hit = false →
      (CastRay g origin direction maxDistance).distance = maxDistance ∧
      (CastRay g origin direction maxDistance).hitPoint = origin + direction * maxDistance ∧
      (CastRay g origin direction maxDistance).hitNormal = ⟨0, 0, 0⟩) ∧
    ((CastRayMask g origin direction maxDistance layerMask).hit = false →
      (CastRayMask g origin direction maxDistance layerMask).distance = maxDistance ∧
      (CastRayMask g origin direction maxDistance layerMask).hitPoint
        = origin + direction * maxDistance ∧
      (CastRayMask g origin direction maxDistance layerMask).hitNormal = ⟨0, 0, 0⟩) ∧
    (physicsWorld g = none →
      (CastRay g origin direction maxDistance).hit = false ∧
      (CastRayMask g origin direction maxDistance layerMask).hit = false) ∧
    (∀ world, physicsWorld g = some world →
      world.PickObject (origin * g.havokWorldScale)
        ((origin + direction * maxDistance) * g.havokWorldScale) = none →
      (CastRay g origin direction maxDistance).hit = false ∧
      (CastRayMask g origin direction maxDistance layerMask).hit = false) ∧
    ((∀ q ∈ CastRayMaskQueries g origin direction maxDistance layerMask,
        ∃ out, q = some out ∧ (layerMask >>> (outputLayer out).toNat) &&& 1 ≠ 1) →
      (CastRayMask g origin direction maxDistance layerMask).hit = false) := by
  refine ⟨?_, ?_, ?_, ?_, ?_⟩
  · intro h
    rw [CastRay_miss g origin direction maxDistance h]
    exact ⟨rfl, rfl, rfl⟩
  · intro h
    rw [CastRayMask_miss g origin direction maxDistance layerMask h]
    exact ⟨rfl, rfl, rfl⟩
  · intro hw
    rw [CastRay_noWorld g origin direction maxDistance hw,
      CastRayMask_noWorld g origin direction maxDistance layerMask hw]
    exact ⟨rfl, rfl⟩
  · intro world hw hpick
    rw [CastRay_pick_none g world origin direction maxDistance hw hpick,
      CastRayMask_first_none g world origin direction maxDistance layerMask hw hpick]
    exact ⟨rfl, rfl⟩
  · intro h
    unfold CastRayMask
    unfold CastRayMaskQueries at h
    cases hw : physicsWorld g with
    | none => rfl
    | some world =>
      simp only [hw] at h ⊢
      rw [CastRayLoop_all_skipped _ _ _ _ _ _ _ _ _ h]
      rfl

/-- C28: the filtered cast refines the unfiltered one.  For `maxDistance > 0`,
if the first primitive query reports no hit or a hit whose layer is in the mask,
the filtered `CastRay` returns the very record the unfiltered `CastRay` returns;
this is so for every world when the mask has all 64 bits set. -/
theorem CastRayMask_refines_CastRay (g : Game) (origin direction : NiPoint3) (maxDistance : ℚ)
    (mask : CollisionLayerMask) (hmax : 0 < maxDistance)
    (hfirst : ∀ world out, physicsWorld g = some world →
      world.PickObject (origin * g.havokWorldScale)
        ((origin + direction * maxDistance) * g.havokWorldScale) = some out →
      (mask >>> (outputLayer out).toNat) &&& 1 = 1) :
    CastRayMask g origin direction maxDistance mask = CastRay g origin direction maxDistance ∧
    CastRayMask g origin direction maxDistance (2 ^ 64 - 1)
      = CastRay g origin direction maxDistance := by
  have key : ∀ m : CollisionLayerMask,
      (∀ world out, physicsWorld g = some world →
        world.PickObject (origin * g.havokWorldScale)
          ((origin + direction * maxDistance) * g.havokWorldScale) = some out →
        (m >>> (outputLayer out).toNat) &&& 1 = 1) →
      CastRayMask g origin direction maxDistance m = CastRay g origin direction maxDistance := by
    intro m hm
    cases hw : physicsWorld g with
    | none =>
      rw [CastRay_noWorld g origin direction maxDistance hw,
        CastRayMask_noWorld g origin direction maxDistance m hw]
    | some world =>
      cases hp : world.PickObject (origin * g.havokWorldScale)
          ((origin + direction * maxDistance) * g.havokWorldScale) with
      | none =>
        rw [CastRay_pick_none g world origin direction maxDistance hw hp,
          CastRayMask_first_none g world origin direction maxDistance m hw hp]
      | some out =>
        have hin := hm world out hw hp
        rw [CastRay_pick_some g world origin direction maxDistance out hw hp]
        unfold CastRayMask
        simp only [hw, MAX_ITERATIONS]
        have hp' : world.PickObject (origin * g.havokWorldScale)
            ((origin + direction * (maxDistance - 0)) * g.havokWorldScale) = some out := by
          rw [sub_zero]; exact hp
        rw [CastRayLoop_hit_out world _ direction maxDistance m _ 7 0 origin out
          (by rw [sub_zero]; exact hmax) hp' hin]
        simp only [sub_zero, zero_add]
  exact ⟨key mask hfirst, key _ (fun _ out _ _ => fullMask_mem (outputLayer out))⟩

/-- Witness of C28: over the floor scenario the Solid-filtered ray and the
unfiltered ray of 200 units from the viewpoint return the same record. -/
theorem CastRayMask_refines_CastRay_witness :
    CastRayMask Scenario.floorGame ⟨0, 0, 200⟩ ⟨0, 0, -1⟩ 200 LayerMasks.kSolid
      = CastRay Scenario.floorGame ⟨0, 0, 200⟩ ⟨0, 0, -1⟩ 200 ∧
    CastRayMask Scenario.floorGame ⟨0, 0, 200⟩ ⟨0, 0, -1⟩ 200 (2 ^ 64 - 1)
      = CastRay Scenario.floorGame ⟨0, 0, 200⟩ ⟨0, 0, -1⟩ 200 :=
  CastRayMask_refines_CastRay Scenario.floorGame ⟨0, 0, 200⟩ ⟨0, 0, -1⟩ 200 LayerMasks.kSolid
    (by norm_num)
    (by
      intro world out hw hp
      have hworld : world = Scenario.flatWorld Scenario.floorPlanes := by
        have : physicsWorld Scenario.floorGame
            = some (Scenario.flatWorld Scenario.floorPlanes) := rfl
        rw [this] at hw
        exact (Option.some.inj hw).symm
      subst hworld
      have hq := Scenario.floorGame_pair 0 200 le_rfl (by norm_num)
      have e1 : ((⟨0, 0, 200⟩ : NiPoint3) + (⟨0, 0, -1⟩ : NiPoint3) * (0 : ℚ))
          = ⟨0, 0, 200⟩ := by ext <;> simp
      rw [e1, if_pos (by norm_num)] at hq
      rw [hq] at hp
      cases hp
      decide)

/-! ### Eight sheets of clutter in front of a floor -/

theorem Scenario.curtain_queries_8 :
    CastRayLoopQueries (Scenario.flatWorld Scenario.curtainPlanes) 1 ⟨0, 0, -1⟩ 200
        LayerMasks.kSolid 1 (701 / 100) ⟨0, 0, 19299 / 100⟩ =
      [some ⟨33 / 6433, ⟨0, 0, 1⟩, some ⟨.kClutter, none⟩⟩] := by
  have ea : (⟨0, 0, 19299 / 100⟩ : NiPoint3) * (1 : ℚ) = ⟨0, 0, 19299 / 100⟩ := by
    ext <;> norm_num
  have eb : ((⟨0, 0, 19299 / 100⟩ : NiPoint3) + (⟨0, 0, -1⟩ : NiPoint3) * (200 - 701 / 100 : ℚ))
      * (1 : ℚ) = ⟨0, 0, 0⟩ := by
    ext <;> norm_num
  have hpick : (Scenario.flatWorld Scenario.curtainPlanes).PickObject
      ((⟨0, 0, 19299 / 100⟩ : NiPoint3) * (1 : ℚ))
      (((⟨0, 0, 19299 / 100⟩ : NiPoint3) + (⟨0, 0, -1⟩ : NiPoint3) * (200 - 701 / 100 : ℚ))
        * (1 : ℚ)) = some ⟨33 / 6433, ⟨0, 0, 1⟩, some ⟨.kClutter, none⟩⟩ := by
    rw [ea, eb]
    norm_num [Scenario.flatWorld, Scenario.curtainPlanes, Scenario.highest,
      Scenario.planeOutput, List.filter]
  have e1 : (701 / 100 : ℚ) + ((200 - 701 / 100) * (33 / 6433) + EPSILON) = 801 / 100 := by
    norm_num [EPSILON]
  have e2 : (⟨0, 0, 19299 / 100⟩ : NiPoint3) + (⟨0, 0, -1⟩ : NiPoint3)
      * ((200 - 701 / 100) * (33 / 6433) : ℚ) + (⟨0, 0, -1⟩ : NiPoint3) * EPSILON
      = ⟨0, 0, 19199 / 100⟩ := by
    ext <;> norm_num [EPSILON]
  rw [CastRayLoopQueries_skip (Scenario.flatWorld Scenario.curtainPlanes) 1 ⟨0, 0, -1⟩ 200
    LayerMasks.kSolid 0 (701 / 100) ⟨0, 0, 19299 / 100⟩ (33 / 6433) ⟨0, 0, 1⟩ ⟨.kClutter, none⟩
    (by norm_num) hpick (by decide), e1, e2]
  rfl

theorem Scenario.curtain_queries_7 :
    CastRayLoopQueries (Scenario.flatWorld Scenario.curtainPlanes) 1 ⟨0, 0, -1⟩ 200
        LayerMasks.kSolid 2 (601 / 100) ⟨0, 0, 19399 / 100⟩ =
      [some ⟨99 / 19399, ⟨0, 0, 1⟩, some ⟨.kClutter, none⟩⟩,
        some ⟨33 / 6433, ⟨0, 0, 1⟩, some ⟨.kClutter, none⟩⟩] := by
  have ea : (⟨0, 0, 19399 / 100⟩ : NiPoint3) * (1 : ℚ) = ⟨0, 0, 19399 / 100⟩ := by
    ext <;> norm_num
  have eb : ((⟨0, 0, 19399 / 100⟩ : NiPoint3) + (⟨0, 0, -1⟩ : NiPoint3) * (200 - 601 / 100 : ℚ))
      * (1 : ℚ) = ⟨0, 0, 0⟩ := by
    ext <;> norm_num
  have hpick : (Scenario.flatWorld Scenario.curtainPlanes).PickObject
      ((⟨0, 0, 19399 / 100⟩ : NiPoint3) * (1 : ℚ))
      (((⟨0, 0, 19399 / 100⟩ : NiPoint3) + (⟨0, 0, -1⟩ : NiPoint3) * (200 - 601 / 100 : ℚ))
        * (1 : ℚ)) = some ⟨99 / 19399, ⟨0, 0, 1⟩, some ⟨.kClutter, none⟩⟩ := by
    rw [ea, eb]
    norm_num [Scenario.flatWorld, Scenario.curtainPlanes, Scenario.highest,
      Scenario.planeOutput, List.filter]
  have e1 : (601 / 100 : ℚ) + ((200 - 601 / 100) * (99 / 19399) + EPSILON) = 701 / 100 := by
    norm_num [EPSILON]
  have e2 : (⟨0, 0, 19399 / 100⟩ : NiPoint3) + (⟨0, 0, -1⟩ : NiPoint3)
      * ((200 - 601 / 100) * (99 / 19399) : ℚ) + (⟨0, 0, -1⟩ : NiPoint3) * EPSILON
      = ⟨0, 0, 19299 / 100⟩ := by
    ext <;> norm_num [EPSILON]
  rw [CastRayLoopQueries_skip (Scenario.flatWorld Scenario.curtainPlanes) 1 ⟨0, 0, -1⟩ 200
    LayerMasks.kSolid 1 (601 / 100) ⟨0, 0, 19399 / 100⟩ (99 / 19399) ⟨0, 0, 1⟩ ⟨.kClutter, none⟩
    (by norm_num) hpick (by decide), e1, e2]
  congr 1
  exact Scenario.curtain_queries_8

theorem Scenario.curtain_queries_6 :
    CastRayLoopQueries (Scenario.flatWorld Scenario.curtainPlanes) 1 ⟨0, 0, -1⟩ 200
        LayerMasks.kSolid 3 (501 / 100) ⟨0, 0, 19499 / 100⟩ =
      [some ⟨99 / 19499, ⟨0, 0, 1⟩, some ⟨.kClutter, none⟩⟩,
        some ⟨99 / 19399, ⟨0, 0, 1⟩, some ⟨.kClutter, none⟩⟩,
        some ⟨33 / 6433, ⟨0, 0, 1⟩, some ⟨.kClutter, none⟩⟩] := by
  have ea : (⟨0, 0, 19499 / 100⟩ : NiPoint3) * (1 : ℚ) = ⟨0, 0, 19499 / 100⟩ := by
    ext <;> norm_num
  have eb : ((⟨0, 0, 19499 / 100⟩ : NiPoint3) + (⟨0, 0, -1⟩ : NiPoint3) * (200 - 501 / 100 : ℚ))
      * (1 : ℚ) = ⟨0, 0, 0⟩ := by
    ext <;> norm_num
  have hpick : (Scenario.flatWorld Scenario.curtainPlanes).PickObject
      ((⟨0, 0, 19499 / 100⟩ : NiPoint3) * (1 : ℚ))
      (((⟨0, 0, 19499 / 100⟩ : NiPoint3) + (⟨0, 0, -1⟩ : NiPoint3) * (200 - 501 / 100 : ℚ))
        * (1 : ℚ)) = some ⟨99 / 19499, ⟨0, 0, 1⟩, some ⟨.kClutter, none⟩⟩ := by
    rw [ea, eb]
    norm_num [Scenario.flatWorld, Scenario.curtainPlanes, Scenario.highest,
      Scenario.planeOutput, List.filter]
  have e1 : (501 / 100 : ℚ) + ((200 - 501 / 100) * (99 / 19499) + EPSILON) = 601 / 100 := by
    norm_num [EPSILON]
  have e2 : (⟨0, 0, 19499 / 100⟩ : NiPoint3) + (⟨0, 0, -1⟩ : NiPoint3)
      * ((200 - 501 / 100) * (99 / 19499) : ℚ) + (⟨0, 0, -1⟩ : NiPoint3) * EPSILON
      = ⟨0, 0, 19399 / 100⟩ := by
    ext <;> norm_num [EPSILON]
  rw [CastRayLoopQueries_skip (Scenario.flatWorld Scenario.curtainPlanes) 1 ⟨0, 0, -1⟩ 200
    LayerMasks.kSolid 2 (501 / 100) ⟨0, 0, 19499 / 100⟩ (99 / 19499) ⟨0, 0, 1⟩ ⟨.kClutter, none⟩
    (by norm_num) hpick (by decide), e1, e2]
  congr 1
  exact Scenario.curtain_queries_7

theorem Scenario.curtain_queries_5 :
    CastRayLoopQueries (Scenario.flatWorld Scenario.curtainPlanes) 1 ⟨0, 0, -1⟩ 200
        LayerMasks.kSolid 4 (401 / 100) ⟨0, 0, 19599 / 100⟩ =
      [some ⟨33 / 6533, ⟨0, 0, 1⟩, some ⟨.kClutter, none⟩⟩,
        some ⟨99 / 19499, ⟨0, 0, 1⟩, some ⟨.kClutter, none⟩⟩,
        some ⟨99 / 19399, ⟨0, 0, 1⟩, some ⟨.kClutter, none⟩⟩,
        some ⟨33 / 6433, ⟨0, 0, 1⟩, some ⟨.kClutter, none⟩⟩] := by
  have ea : (⟨0, 0, 19599 / 100⟩ : NiPoint3) * (1 : ℚ) = ⟨0, 0, 19599 / 100⟩ := by
    ext <;> norm_num
  have eb : ((⟨0, 0, 19599 / 100⟩ : NiPoint3) + (⟨0, 0, -1⟩ : NiPoint3) * (200 - 401 / 100 : ℚ))
      * (1 : ℚ) = ⟨0, 0, 0⟩ := by
    ext <;> norm_num
  have hpick : (Scenario.flatWorld Scenario.curtainPlanes).PickObject
      ((⟨0, 0, 19599 / 100⟩ : NiPoint3) * (1 : ℚ))
      (((⟨0, 0, 19599 / 100⟩ : NiPoint3) + (⟨0, 0, -1⟩ : NiPoint3) * (200 - 401 / 100 : ℚ))
        * (1 : ℚ)) = some ⟨33 / 6533, ⟨0, 0, 1⟩, some ⟨.kClutter, none⟩⟩ := by
    rw [ea, eb]
    norm_num [Scenario.flatWorld, Scenario.curtainPlanes, Scenario.highest,
      Scenario.planeOutput, List.filter]
  have e1 : (401 / 100 : ℚ) + ((200 - 401 / 100) * (33 / 6533) + EPSILON) = 501 / 100 := by
    norm_num [EPSILON]
  have e2 : (⟨0, 0, 19599 / 100⟩ : NiPoint3) + (⟨0, 0, -1⟩ : NiPoint3)
      * ((200 - 401 / 100) * (33 / 6533) : ℚ) + (⟨0, 0, -1⟩ : NiPoint3) * EPSILON
      = ⟨0, 0, 19499 / 100⟩ := by
    ext <;> norm_num [EPSILON]
  rw [CastRayLoopQueries_skip (Scenario.flatWorld Scenario.curtainPlanes) 1 ⟨0, 0, -1⟩ 200
    LayerMasks.kSolid 3 (401 / 100) ⟨0, 0, 19599 / 100⟩ (33 / 6533) ⟨0, 0, 1⟩ ⟨.kClutter, none⟩
    (by norm_num) hpick (by decide), e1, e2]
  congr 1
  exact Scenario.curtain_queries_6

theorem Scenario.curtain_queries_4 :
    CastRayLoopQueries (Scenario.flatWorld Scenario.curtainPlanes) 1 ⟨0, 0, -1⟩ 200
        LayerMasks.kSolid 5 (301 / 100) ⟨0, 0, 19699 / 100⟩ =
      [some ⟨99 / 19699, ⟨0, 0, 1⟩, some ⟨.kClutter, none⟩⟩,
        some ⟨33 / 6533, ⟨0, 0, 1⟩, some ⟨.kClutter, none⟩⟩,
        some ⟨99 / 19499, ⟨0, 0, 1⟩, some ⟨.kClutter, none⟩⟩,
        some ⟨99 / 19399, ⟨0, 0, 1⟩, some ⟨.kClutter, none⟩⟩,
        some ⟨33 / 6433, ⟨0, 0, 1⟩, some ⟨.kClutter, none⟩⟩] := by
  have ea : (⟨0, 0, 19699 / 100⟩ : NiPoint3) * (1 : ℚ) = ⟨0, 0, 19699 / 100⟩ := by
    ext <;> norm_num
  have eb : ((⟨0, 0, 19699 / 100⟩ : NiPoint3) + (⟨0, 0, -1⟩ : NiPoint3) * (200 - 301 / 100 : ℚ))
      * (1 : ℚ) = ⟨0, 0, 0⟩ := by
    ext <;> norm_num
  have hpick : (Scenario.flatWorld Scenario.curtainPlanes).PickObject
      ((⟨0, 0, 19699 / 100⟩ : NiPoint3) * (1 : ℚ))
      (((⟨0, 0, 19699 / 100⟩ : NiPoint3) + (⟨0, 0, -1⟩ : NiPoint3) * (200 - 301 / 100 : ℚ))
        * (1 : ℚ)) = some ⟨99 / 19699, ⟨0, 0, 1⟩, some ⟨.kClutter, none⟩⟩ := by
    rw [ea, eb]
    norm_num [Scenario.flatWorld, Scenario.curtainPlanes, Scenario.highest,
      Scenario.planeOutput, List.filter]
  have e1 : (301 / 100 : ℚ) + ((200 - 301 / 100) * (99 / 19699) + EPSILON) = 401 / 100 := by
    norm_num [EPSILON]
  have e2 : (⟨0, 0, 19699 / 100⟩ : NiPoint3) + (⟨0, 0, -1⟩ : NiPoint3)
      * ((200 - 301 / 100) * (99 / 19699) : ℚ) + (⟨0, 0, -1⟩ : NiPoint3) * EPSILON
      = ⟨0, 0, 19599 / 100⟩ := by
    ext <;> norm_num [EPSILON]
  rw [CastRayLoopQueries_skip (Scenario.flatWorld Scenario.curtainPlanes) 1 ⟨0, 0, -1⟩ 200
    LayerMasks.kSolid 4 (301 / 100) ⟨0, 0, 19699 / 100⟩ (99 / 19699) ⟨0, 0, 1⟩ ⟨.kClutter, none⟩
    (by norm_num) hpick (by decide), e1, e2]
  congr 1
  exact Scenario.curtain_queries_5

theorem Scenario.curtain_queries_3 :
    CastRayLoopQueries (Scenario.flatWorld Scenario.curtainPlanes) 1 ⟨0, 0, -1⟩ 200
        LayerMasks.kSolid 6 (201 / 100) ⟨0, 0, 19799 / 100⟩ =
      [some ⟨99 / 19799, ⟨0, 0, 1⟩, some ⟨.kClutter, none⟩⟩,
        some ⟨99 / 19699, ⟨0, 0, 1⟩, some ⟨.kClutter, none⟩⟩,
        some ⟨33 / 6533, ⟨0, 0, 1⟩, some ⟨.kClutter, none⟩⟩,
        some ⟨99 / 19499, ⟨0, 0, 1⟩, some ⟨.kClutter, none⟩⟩,
        some ⟨99 / 19399, ⟨0, 0, 1⟩, some ⟨.kClutter, none⟩⟩,
        some ⟨33 / 6433, ⟨0, 0, 1⟩, some ⟨.kClutter, none⟩⟩] := by
  have ea : (⟨0, 0, 19799 / 100⟩ : NiPoint3) * (1 : ℚ) = ⟨0, 0, 19799 / 100⟩ := by
    ext <;> norm_num
  have eb : ((⟨0, 0, 19799 / 100⟩ : NiPoint3) + (⟨0, 0, -1⟩ : NiPoint3) * (200 - 201 / 100 : ℚ))
      * (1 : ℚ) = ⟨0, 0, 0⟩ := by
    ext <;> norm_num
  have hpick : (Scenario.flatWorld Scenario.curtainPlanes).PickObject
      ((⟨0, 0, 19799 / 100⟩ : NiPoint3) * (1 : ℚ))
      (((⟨0, 0, 19799 / 100⟩ : NiPoint3) + (⟨0, 0, -1⟩ : NiPoint3) * (200 - 201 / 100 : ℚ))
        * (1 : ℚ)) = some ⟨99 / 19799, ⟨0, 0, 1⟩, some ⟨.kClutter, none⟩⟩ := by
    rw [ea, eb]
    norm_num [Scenario.flatWorld, Scenario.curtainPlanes, Scenario.highest,
      Scenario.planeOutput, List.filter]
  have e1 : (201 / 100 : ℚ) + ((200 - 201 / 100) * (99 / 19799) + EPSILON) = 301 / 100 := by
    norm_num [EPSILON]
  have e2 : (⟨0, 0, 19799 / 100⟩ : NiPoint3) + (⟨0, 0, -1⟩ : NiPoint3)
      * ((200 - 201 / 100) * (99 / 19799) : ℚ) + (⟨0, 0, -1⟩ : NiPoint3) * EPSILON
      = ⟨0, 0, 19699 / 100⟩ := by
    ext <;> norm_num [EPSILON]
  rw [CastRayLoopQueries_skip (Scenario.flatWorld Scenario.curtainPlanes) 1 ⟨0, 0, -1⟩ 200
    LayerMasks.kSolid 5 (201 / 100) ⟨0, 0, 19799 / 100⟩ (99 / 19799) ⟨0, 0, 1⟩ ⟨.kClutter, none⟩
    (by norm_num) hpick (by decide), e1, e2]
  congr 1
  exact Scenario.curtain_queries_4

theorem Scenario.curtain_queries_2 :
    CastRayLoopQueries (Scenario.flatWorld Scenario.curtainPlanes) 1 ⟨0, 0, -1⟩ 200
        LayerMasks.kSolid 7 (101 / 100) ⟨0, 0, 19899 / 100⟩ =
      [some ⟨1 / 201, ⟨0, 0, 1⟩, some ⟨.kClutter, none⟩⟩,
        some ⟨99 / 19799, ⟨0, 0, 1⟩, some ⟨.kClutter, none⟩⟩,
        some ⟨99 / 19699, ⟨0, 0, 1⟩, some ⟨.kClutter, none⟩⟩,
        some ⟨33 / 6533, ⟨0, 0, 1⟩, some ⟨.kClutter, none⟩⟩,
        some ⟨99 / 19499, ⟨0, 0, 1⟩, some ⟨.kClutter, none⟩⟩,
        some ⟨99 / 19399, ⟨0, 0, 1⟩, some ⟨.kClutter, none⟩⟩,
        some ⟨33 / 6433, ⟨0, 0, 1⟩, some ⟨.kClutter, none⟩⟩] := by
  have ea : (⟨0, 0, 19899 / 100⟩ : NiPoint3) * (1 : ℚ) = ⟨0, 0, 19899 / 100⟩ := by
    ext <;> norm_num
  have eb : ((⟨0, 0, 19899 / 100⟩ : NiPoint3) + (⟨0, 0, -1⟩ : NiPoint3) * (200 - 101 / 100 : ℚ))
      * (1 : ℚ) = ⟨0, 0, 0⟩ := by
    ext <;> norm_num
  have hpick : (Scenario.flatWorld Scenario.curtainPlanes).PickObject
      ((⟨0, 0, 19899 / 100⟩ : NiPoint3) * (1 : ℚ))
      (((⟨0, 0, 19899 / 100⟩ : NiPoint3) + (⟨0, 0, -1⟩ : NiPoint3) * (200 - 101 / 100 : ℚ))
        * (1 : ℚ)) = some ⟨1 / 201, ⟨0, 0, 1⟩, some ⟨.kClutter, none⟩⟩ := by
    rw [ea, eb]
    norm_num [Scenario.flatWorld, Scenario.curtainPlanes, Scenario.highest,
      Scenario.planeOutput, List.filter]
  have e1 : (101 / 100 : ℚ) + ((200 - 101 / 100) * (1 / 201) + EPSILON) = 201 / 100 := by
    norm_num [EPSILON]
  have e2 : (⟨0, 0, 19899 / 100⟩ : NiPoint3) + (⟨0, 0, -1⟩ : NiPoint3)
      * ((200 - 101 / 100) * (1 / 201) : ℚ) + (⟨0, 0, -1⟩ : NiPoint3) * EPSILON
      = ⟨0, 0, 19799 / 100⟩ := by
    ext <;> norm_num [EPSILON]
  rw [CastRayLoopQueries_skip (Scenario.flatWorld Scenario.curtainPlanes) 1 ⟨0, 0, -1⟩ 200
    LayerMasks.kSolid 6 (101 / 100) ⟨0, 0, 19899 / 100⟩ (1 / 201) ⟨0, 0, 1⟩ ⟨.kClutter, none⟩
    (by norm_num) hpick (by decide), e1, e2]
  congr 1
  exact Scenario.curtain_queries_3

theorem Scenario.curtain_queries_1 :
    CastRayLoopQueries (Scenario.flatWorld Scenario.curtainPlanes) 1 ⟨0, 0, -1⟩ 200
        LayerMasks.kSolid 8 (0) ⟨0, 0, 200⟩ =
      [some ⟨1 / 200, ⟨0, 0, 1⟩, some ⟨.kClutter, none⟩⟩,
        some ⟨1 / 201, ⟨0, 0, 1⟩, some ⟨.kClutter, none⟩⟩,
        some ⟨99 / 19799, ⟨0, 0, 1⟩, some ⟨.kClutter, none⟩⟩,
        some ⟨99 / 19699, ⟨0, 0, 1⟩, some ⟨.kClutter, none⟩⟩,
        some ⟨33 / 6533, ⟨0, 0, 1⟩, some ⟨.kClutter, none⟩⟩,
        some ⟨99 / 19499, ⟨0, 0, 1⟩, some ⟨.kClutter, none⟩⟩,
        some ⟨99 / 19399, ⟨0, 0, 1⟩, some ⟨.kClutter, none⟩⟩,
        some ⟨33 / 6433, ⟨0, 0, 1⟩, some ⟨.kClutter, none⟩⟩] := by
  have ea : (⟨0, 0, 200⟩ : NiPoint3) * (1 : ℚ) = ⟨0, 0, 200⟩ := by
    ext <;> norm_num
  have eb : ((⟨0, 0, 200⟩ : NiPoint3) + (⟨0, 0, -1⟩ : NiPoint3) * (200 - 0 : ℚ))
      * (1 : ℚ) = ⟨0, 0, 0⟩ := by
    ext <;> norm_num
  have hpick : (Scenario.flatWorld Scenario.curtainPlanes).PickObject
      ((⟨0, 0, 200⟩ : NiPoint3) * (1 : ℚ))
      (((⟨0, 0, 200⟩ : NiPoint3) + (⟨0, 0, -1⟩ : NiPoint3) * (200 - 0 : ℚ))
        * (1 : ℚ)) = some ⟨1 / 200, ⟨0, 0, 1⟩, some ⟨.kClutter, none⟩⟩ := by
    rw [ea, eb]
    norm_num [Scenario.flatWorld, Scenario.curtainPlanes, Scenario.highest,
      Scenario.planeOutput, List.filter]
  have e1 : (0 : ℚ) + ((200 - 0) * (1 / 200) + EPSILON) = 101 / 100 := by
    norm_num [EPSILON]
  have e2 : (⟨0, 0, 200⟩ : NiPoint3) + (⟨0, 0, -1⟩ : NiPoint3)
      * ((200 - 0) * (1 / 200) : ℚ) + (⟨0, 0, -1⟩ : NiPoint3) * EPSILON
      = ⟨0, 0, 19899 / 100⟩ := by
    ext <;> norm_num [EPSILON]
  rw [CastRayLoopQueries_skip (Scenario.flatWorld Scenario.curtainPlanes) 1 ⟨0, 0, -1⟩ 200
    LayerMasks.kSolid 7 (0) ⟨0, 0, 200⟩ (1 / 200) ⟨0, 0, 1⟩ ⟨.kClutter, none⟩
    (by norm_num) hpick (by decide), e1, e2]
  congr 1
  exact Scenario.curtain_queries_2

theorem Scenario.curtain_queries :
    CastRayMaskQueries Scenario.curtainGame ⟨0, 0, 200⟩ ⟨0, 0, -1⟩ 200 LayerMasks.kSolid
      = Scenario.curtainOutputs := by
  have hw : physicsWorld Scenario.curtainGame
      = some (Scenario.flatWorld Scenario.curtainPlanes) := rfl
  unfold CastRayMaskQueries
  simp only [hw, MAX_ITERATIONS]
  exact Scenario.curtain_queries_1

/-- In `curtainPlanes` the static floor lies on the ray, 140 units below its
origin: queried from below the clutter, the world reports it. -/
theorem Scenario.curtain_floor :
    (Scenario.flatWorld Scenario.curtainPlanes).PickObject ⟨0, 0, 191⟩ ⟨0, 0, 0⟩
      = some ⟨131 / 191, ⟨0, 0, 1⟩, some ⟨.kStatic, none⟩⟩ := by
  norm_num [Scenario.flatWorld, Scenario.curtainPlanes, Scenario.highest,
    Scenario.planeOutput, List.filter]

theorem Scenario.curtain_all_skipped :
    ∀ q ∈ Scenario.curtainOutputs,
      ∃ out, q = some out ∧ (LayerMasks.kSolid >>> (outputLayer out).toNat) &&& 1 ≠ 1 := by
  intro q hq
  simp only [Scenario.curtainOutputs, List.mem_cons, List.mem_singleton, List.not_mem_nil,
    or_false] at hq
  rcases hq with h | h | h | h | h | h | h | h <;>
    exact ⟨_, h, by decide⟩

/-- C22: the filtered `CastRay` issues at most 8 primitive queries, and when
every query it issues reports a hit on a layer outside the mask (the first 8
successive hits along the ray, or fewer when the distance ran out) it returns
`hit = false`. -/
theorem CastRayMask_query_budget (g : Game) (origin direction : NiPoint3) (maxDistance : ℚ)
    (layerMask : CollisionLayerMask) :
    (CastRayMaskQueries g origin direction maxDistance layerMask).length ≤ 8 ∧
    ((∀ q ∈ CastRayMaskQueries g origin direction maxDistance layerMask,
        ∃ out, q = some out ∧ (layerMask >>> (outputLayer out).toNat) &&& 1 ≠ 1) →
      (CastRayMask g origin direction maxDistance layerMask).hit = false) := by
  constructor
  · unfold CastRayMaskQueries
    cases physicsWorld g with
    | none => simp
    | some world => exact CastRayLoopQueries_length _ _ _ _ _ _ _ _
  · intro h
    unfold CastRayMask
    unfold CastRayMaskQueries at h
    cases hw : physicsWorld g with
    | none => rfl
    | some world =>
      simp only [hw] at h ⊢
      rw [CastRayLoop_all_skipped _ _ _ _ _ _ _ _ _ h]
      rfl

/-- Witness of C22: over eight sheets of clutter the Solid-filtered ray of 200
units issues exactly 8 queries, each reporting clutter, and returns
`hit = false`, although the static floor lies on the ray 140 units from its
origin. -/
theorem CastRayMask_query_budget_witness :
    (CastRayMaskQueries Scenario.curtainGame ⟨0, 0, 200⟩ ⟨0, 0, -1⟩ 200
      LayerMasks.kSolid).length = 8 ∧
    (Scenario.flatWorld Scenario.curtainPlanes).PickObject ⟨0, 0, 191⟩ ⟨0, 0, 0⟩
      = some ⟨131 / 191, ⟨0, 0, 1⟩, some ⟨.kStatic, none⟩⟩ ∧
    (CastRayMask Scenario.curtainGame ⟨0, 0, 200⟩ ⟨0, 0, -1⟩ 200 LayerMasks.kSolid).hit
      = false :=
  ⟨by rw [Scenario.curtain_queries]; rfl, Scenario.curtain_floor,
    (CastRayMask_query_budget Scenario.curtainGame ⟨0, 0, 200⟩ ⟨0, 0, -1⟩ 200
      LayerMasks.kSolid).2
      (by rw [Scenario.curtain_queries]; exact Scenario.curtain_all_skipped)⟩

/-! ### GetAllowedDistance and CheckHeadroomAt -/

theorem CastRay_hit_le (g : Game) (origin direction : NiPoint3) (maxDistance : ℚ)
    (hfrac : ∀ world, physicsWorld g = some world → FractionsInUnit world)
    (hmax : 0 ≤ maxDistance) (hhit : (CastRay g origin direction maxDistance).hit = true) :
    0 ≤ (CastRay g origin direction maxDistance).distance ∧
    (CastRay g origin direction maxDistance).distance ≤ maxDistance := by
  cases hw : physicsWorld g with
  | none =>
    rw [CastRay_noWorld g origin direction maxDistance hw] at hhit
    simp [initResult] at hhit
  | some world =>
    cases hp : world.PickObject (origin * g.havokWorldScale)
        ((origin + direction * maxDistance) * g.havokWorldScale) with
    | none =>
      rw [CastRay_pick_none g world origin direction maxDistance hw hp] at hhit
      simp [initResult] at hhit
    | some out =>
      rw [CastRay_pick_some g world origin direction maxDistance out hw hp]
      have hf := hfrac world hw _ _ out hp
      constructor
      · exact mul_nonneg hmax hf.1
      · have := mul_le_mul_of_nonneg_left hf.2 hmax
        rwa [mul_one] at this

/-- Over `stackedPlanes` the unfiltered ray of 10.5 units cast down from height
200 stops at the clutter, one unit below. -/
theorem Scenario.stackedGame_castRay :
    CastRay Scenario.stackedGame ⟨0, 0, 200⟩ ⟨0, 0, -1⟩ (10 + 1 / 2) =
      { hit := true
        distance := 1
        hitPoint := ⟨0, 0, 199⟩
        hitNormal := ⟨0, 0, 1⟩
        collisionLayer := .kClutter
        hitRef := none } := by
  have hq := Scenario.stackedGame_pair 0 (10 + 1 / 2) le_rfl (by norm_num)
  have e1 : ((⟨0, 0, 200⟩ : NiPoint3) + (⟨0, 0, -1⟩ : NiPoint3) * (0 : ℚ))
      = ⟨0, 0, 200⟩ := by ext <;> simp
  rw [e1, if_pos (by norm_num)] at hq
  rw [CastRay_pick_some Scenario.stackedGame (Scenario.flatWorld Scenario.stackedPlanes)
    ⟨0, 0, 200⟩ ⟨0, 0, -1⟩ (10 + 1 / 2) _ rfl hq]
  simp only [outputLayer]
  congr 1
  · norm_num
  · ext <;> norm_num

/-- C23: for `maxDistance >= 0` and `buffer >= 0` the unfiltered
`GetAllowedDistance` returns `maxDistance` when the unfiltered ray of length
`maxDistance + buffer` reports no hit and `max(hitDistance - buffer, 0)`
otherwise, and (hit fractions being in `[0,1]`) the result lies in
`[0, maxDistance]`. -/
theorem GetAllowedDistance_spec (g : Game) (origin direction : NiPoint3)
    (maxDistance buffer : ℚ) (hmax : 0 ≤ maxDistance) (hbuf : 0 ≤ buffer)
    (hfrac : ∀ world, physicsWorld g = some world → FractionsInUnit world) :
    ((CastRay g origin direction (maxDistance + buffer)).hit = false →
      GetAllowedDistance g origin direction maxDistance buffer = maxDistance) ∧
    ((CastRay g origin direction (maxDistance + buffer)).hit = true →
      GetAllowedDistance g origin direction maxDistance buffer =
        max ((CastRay g origin direction (maxDistance + buffer)).distance - buffer) 0) ∧
    0 ≤ GetAllowedDistance g origin direction maxDistance buffer ∧
    GetAllowedDistance g origin direction maxDistance buffer ≤ maxDistance := by
  have hval : (CastRay g origin direction (maxDistance + buffer)).hit = true →
      GetAllowedDistance g origin direction maxDistance buffer =
        max ((CastRay g origin direction (maxDistance + buffer)).distance - buffer) 0 := by
    intro h
    unfold GetAllowedDistance
    simp only [h, if_true, gt_iff_lt]
    split_ifs with h2
    · exact (max_eq_left h2.le).symm
    · exact (max_eq_right (not_lt.mp h2)).symm
  have hmiss : (CastRay g origin direction (maxDistance + buffer)).hit = false →
      GetAllowedDistance g origin direction maxDistance buffer = maxDistance := by
    intro h
    unfold GetAllowedDistance
    simp only [h, Bool.false_eq_true, if_false]
  refine ⟨hmiss, hval, ?_, ?_⟩
  · cases h : (CastRay g origin direction (maxDistance + buffer)).hit with
    | false => rw [hmiss h]; exact hmax
    | true => rw [hval h]; exact le_max_right _ _
  · cases h : (CastRay g origin direction (maxDistance + buffer)).hit with
    | false => rw [hmiss h]
    | true =>
      rw [hval h]
      have := (CastRay_hit_le g origin direction (maxDistance + buffer) hfrac
        (by linarith) h).2
      exact max_le (by linarith) hmax

/-- Witness of C23: over `stackedPlanes`, with `maxDistance = 10` and
`buffer = 1/2`, the ray of 10.5 units hits at distance 1 and the allowed
distance is `1/2`. -/
theorem GetAllowedDistance_spec_witness :
    (CastRay Scenario.stackedGame ⟨0, 0, 200⟩ ⟨0, 0, -1⟩ (10 + 1 / 2)).distance = 1 ∧
    GetAllowedDistance Scenario.stackedGame ⟨0, 0, 200⟩ ⟨0, 0, -1⟩ 10 (1 / 2) =
      max ((CastRay Scenario.stackedGame ⟨0, 0, 200⟩ ⟨0, 0, -1⟩ (10 + 1 / 2)).distance
        - 1 / 2) 0 ∧
    0 ≤ GetAllowedDistance Scenario.stackedGame ⟨0, 0, 200⟩ ⟨0, 0, -1⟩ 10 (1 / 2) ∧
    GetAllowedDistance Scenario.stackedGame ⟨0, 0, 200⟩ ⟨0, 0, -1⟩ 10 (1 / 2) ≤ 10 :=
  ⟨by rw [Scenario.stackedGame_castRay],
    (GetAllowedDistance_spec Scenario.stackedGame ⟨0, 0, 200⟩ ⟨0, 0, -1⟩ 10 (1 / 2)
      (by norm_num) (by norm_num) (Scenario.game_fractions _ _ _ _ _)).2.1
      (by rw [Scenario.stackedGame_castRay]),
    (GetAllowedDistance_spec Scenario.stackedGame ⟨0, 0, 200⟩ ⟨0, 0, -1⟩ 10 (1 / 2)
      (by norm_num) (by norm_num) (Scenario.game_fractions _ _ _ _ _)).2.2⟩

/-- C24: behaviour of the filter overload of `GetAllowedDistance` where the
claim fails.  Over `stackedPlanes` the ray runs through clutter at distance 1
(which fails the filter `IsClimbable`) and then a static surface at distance 2
(which passes it), both within `maxDistance + buffer = 10.5`; the claim gives
`max(2 - 1/2, 0) = 3/2`, the code returns `maxDistance = 10`. -/
theorem GetAllowedDistanceFilter_occluded :
    StackedPair (Scenario.flatWorld Scenario.stackedPlanes) Scenario.stackedGame.havokWorldScale
      ⟨0, 0, 200⟩ ⟨0, 0, -1⟩ ⟨1, ⟨0, 0, 1⟩, ⟨.kClutter, none⟩⟩
      ⟨2, ⟨0, 0, 1⟩, ⟨.kStatic, none⟩⟩ ∧
    IsClimbable .kClutter = false ∧ IsClimbable .kStatic = true ∧
    GetAllowedDistanceFilter Scenario.stackedGame ⟨0, 0, 200⟩ ⟨0, 0, -1⟩ 10 (1 / 2) IsClimbable
      = 10 ∧
    GetAllowedDistanceFilter Scenario.stackedGame ⟨0, 0, 200⟩ ⟨0, 0, -1⟩ 10 (1 / 2) IsClimbable
      ≠ max (2 - 1 / 2) 0 := by
  have h10 : GetAllowedDistanceFilter Scenario.stackedGame ⟨0, 0, 200⟩ ⟨0, 0, -1⟩ 10 (1 / 2)
      IsClimbable = 10 := by
    unfold GetAllowedDistanceFilter
    simp only [Scenario.stackedGame_castRay]
    rfl
  refine ⟨Scenario.stackedGame_pair, rfl, rfl, h10, ?_⟩
  rw [h10]
  norm_num

/-- C25: if the upward Solid-filtered ray cast from `position + (0,0,1)` over
`requiredHeight + 10` finds no ceiling, `CheckHeadroomAt` returns
`requiredHeight + 100`; if it finds one it returns that ray's hit distance,
which (hit fractions being in `[0,1]`) is at most `requiredHeight + 10`. -/
theorem CheckHeadroomAt_spec (g : Game) (position : NiPoint3) (requiredHeight : ℚ)
    (hfrac : ∀ world, physicsWorld g = some world → FractionsInUnit world) :
    ((CastRayMask g ⟨position.x, position.y, position.z + 1⟩ ⟨0, 0, 1⟩ (requiredHeight + 10)
        LayerMasks.kSolid).hit = false →
      CheckHeadroomAt g position requiredHeight = requiredHeight + 100 ∧
      requiredHeight + 100 ≤ CheckHeadroomAt g position requiredHeight) ∧
    ((CastRayMask g ⟨position.x, position.y, position.z + 1⟩ ⟨0, 0, 1⟩ (requiredHeight + 10)
        LayerMasks.kSolid).hit = true →
      CheckHeadroomAt g position requiredHeight =
        (CastRayMask g ⟨position.x, position.y, position.z + 1⟩ ⟨0, 0, 1⟩ (requiredHeight + 10)
          LayerMasks.kSolid).distance ∧
      CheckHeadroomAt g position requiredHeight ≤ requiredHeight + 10) := by
  constructor
  · intro h
    have : CheckHeadroomAt g position requiredHeight = requiredHeight + 100 := by
      unfold CheckHeadroomAt
      simp only [h, Bool.false_eq_true, if_false]
    exact ⟨this, this.ge⟩
  · intro h
    have : CheckHeadroomAt g position requiredHeight =
        (CastRayMask g ⟨position.x, position.y, position.z + 1⟩ ⟨0, 0, 1⟩ (requiredHeight + 10)
          LayerMasks.kSolid).distance := by
      unfold CheckHeadroomAt
      simp only [h, if_true]
    refine ⟨this, ?_⟩
    rw [this]
    exact (CastRayMask_hit_distance_aux g _ _ _ _ hfrac h).2.1

/-- Witness of C25: in the open floor scenario no ceiling is found above the
floor and the headroom for a required height of 160 is 260; under the low
ceiling the ray finds the ceiling and the headroom is its distance, 50. -/
theorem CheckHeadroomAt_spec_witness :
    CheckHeadroomAt Scenario.standGame ⟨0, 0, 60⟩ 160 = 260 ∧
    CheckHeadroomAt Scenario.lowCeilingGame ⟨0, 0, 60⟩ 90 = 50 ∧
    (CastRayMask Scenario.lowCeilingGame ⟨0, 0, 60 + 1⟩ ⟨0, 0, 1⟩ (90 + 10)
      LayerMasks.kSolid).hit = true ∧
    CheckHeadroomAt Scenario.lowCeilingGame ⟨0, 0, 60⟩ 90 =
      (CastRayMask Scenario.lowCeilingGame ⟨0, 0, 60 + 1⟩ ⟨0, 0, 1⟩ (90 + 10)
        LayerMasks.kSolid).distance ∧
    CheckHeadroomAt Scenario.lowCeilingGame ⟨0, 0, 60⟩ 90 ≤ 90 + 10 := by
  have hhit : (CastRayMask Scenario.lowCeilingGame ⟨0, 0, 60 + 1⟩ ⟨0, 0, 1⟩ (90 + 10)
      LayerMasks.kSolid).hit = true := by
    apply eq_true_of_ne_false
    intro hf
    have h := ((CheckHeadroomAt_spec Scenario.lowCeilingGame ⟨0, 0, 60⟩ 90
      (Scenario.game_fractions _ _ _ _ _)).1 hf).1
    rw [Scenario.lowCeiling_headroom] at h
    norm_num at h
  exact ⟨Scenario.standGame_headroom, Scenario.lowCeiling_headroom, hhit,
    (CheckHeadroomAt_spec Scenario.lowCeilingGame ⟨0, 0, 60⟩ 90
      (Scenario.game_fractions _ _ _ _ _)).2 hhit⟩

/-! ### The curve -/

/-- C30: when the control point is the midpoint of start and target, the case
that `StartCorrection` produces for a velocity magnitude of at most 1, the
curve is the straight segment: for every `t`,
`EvaluateBezier(t) = start + t * (target - start)` in each coordinate. -/
theorem EvaluateBezier_midpoint_linear (self : ClimbExitCorrector) (t : ℚ)
    (hmid : self.m_controlPoint =
      ⟨(self.m_startPos.x + self.m_targetPos.x) / 2, (self.m_startPos.y + self.m_targetPos.y) / 2,
       (self.m_startPos.z + self.m_targetPos.z) / 2⟩) :
    EvaluateBezier self t =
      ⟨self.m_startPos.x + t * (self.m_targetPos.x - self.m_startPos.x),
       self.m_startPos.y + t * (self.m_targetPos.y - self.m_startPos.y),
       self.m_startPos.z + t * (self.m_targetPos.z - self.m_startPos.z)⟩ ∧
    (∀ (g : Game) (s : ClimbExitCorrector) (amount : ℚ) (v : NiPoint3),
      g.sqrt (v.x * v.x + v.y * v.y + v.z * v.z) ≤ 1 →
      EvaluateBezier (startCurve g s amount v) t =
        ⟨s.m_startPos.x + t * (s.m_targetPos.x - s.m_startPos.x),
         s.m_startPos.y + t * (s.m_targetPos.y - s.m_startPos.y),
         s.m_startPos.z + t * (s.m_targetPos.z - s.m_startPos.z)⟩) := by
  have key : ∀ s : ClimbExitCorrector,
      s.m_controlPoint =
        ⟨(s.m_startPos.x + s.m_targetPos.x) / 2, (s.m_startPos.y + s.m_targetPos.y) / 2,
         (s.m_startPos.z + s.m_targetPos.z) / 2⟩ →
      EvaluateBezier s t =
        ⟨s.m_startPos.x + t * (s.m_targetPos.x - s.m_startPos.x),
         s.m_startPos.y + t * (s.m_targetPos.y - s.m_startPos.y),
         s.m_startPos.z + t * (s.m_targetPos.z - s.m_startPos.z)⟩ := by
    intro s hs
    unfold EvaluateBezier
    simp only [hs]
    ext <;> simp only <;> ring
  refine ⟨key self hmid, fun g s amount v hv => ?_⟩
  have h := startCurve_controlPoint g s amount v
  have := key (startCurve g s amount v) (by rw [h.2.2.1 hv, h.1, h.2.1])
  rw [this, h.1, h.2.1]

/-- Witness of C30: the curve of the standing scenario, from height 40 to
height 60 with control point at height 50, at `t = 1/4`. -/
theorem EvaluateBezier_midpoint_linear_witness :
    EvaluateBezier Scenario.started (1 / 4) =
      ⟨Scenario.started.m_startPos.x
          + 1 / 4 * (Scenario.started.m_targetPos.x - Scenario.started.m_startPos.x),
       Scenario.started.m_startPos.y
          + 1 / 4 * (Scenario.started.m_targetPos.y - Scenario.started.m_startPos.y),
       Scenario.started.m_startPos.z
          + 1 / 4 * (Scenario.started.m_targetPos.z - Scenario.started.m_startPos.z)⟩ :=
  (EvaluateBezier_midpoint_linear Scenario.started (1 / 4)
    (by ext <;> norm_num [Scenario.started])).1

/-! ### FindHorizontalEscape -/

/-- One turn of the loop of `FindHorizontalEscape`. -/
theorem FindHorizontalEscapeLoop_cons (g : Game) (playerPos hmdPos : NiPoint3)
    (searchDistance : ℚ) (out : NiPoint3) (d : ℚ × ℚ) (rest : List (ℚ × ℚ)) :
    FindHorizontalEscapeLoop g playerPos hmdPos searchDistance out (d :: rest) =
      if EscapePasses g playerPos hmdPos searchDistance d then
        (true, escapeCandidate g playerPos hmdPos searchDistance d)
      else FindHorizontalEscapeLoop g playerPos hmdPos searchDistance out rest := by
  rcases d with ⟨dx, dy⟩
  simp only [FindHorizontalEscapeLoop, EscapePasses, escapeCandidate, HEADROOM_REQUIRED,
    GROUND_SEARCH_DEPTH]
  by_cases h1 : (CastRayMask g playerPos ⟨dx, dy, 0⟩ searchDistance LayerMasks.kSolid).hit = true ∧
      (CastRayMask g playerPos ⟨dx, dy, 0⟩ searchDistance LayerMasks.kSolid).distance
        < searchDistance - 5
  · rw [if_pos h1, if_neg (fun h => h.1 h1)]
  · rw [if_neg h1]
    by_cases h2 : (CastRayMask g
        ⟨playerPos.x + dx * searchDistance, playerPos.y + dy * searchDistance, hmdPos.z⟩
        ⟨0, 0, -1⟩ 200 LayerMasks.kSolid).hit = false
    · rw [if_pos h2, if_neg (fun h => by rw [h2] at h; exact Bool.false_ne_true h.2.1)]
    · rw [if_neg h2]
      have h2t := eq_true_of_ne_false h2
      by_cases h3 : CheckHeadroomAt g
          ⟨playerPos.x + dx * searchDistance, playerPos.y + dy * searchDistance,
            (CastRayMask g
              ⟨playerPos.x + dx * searchDistance, playerPos.y + dy * searchDistance, hmdPos.z⟩
              ⟨0, 0, -1⟩ 200 LayerMasks.kSolid).hitPoint.z⟩ 140 < 140
      · rw [if_pos h3, if_neg (fun h => absurd h3 (not_lt.mpr h.2.2))]
      · rw [if_neg h3, if_pos ⟨h1, h2t, not_lt.mp h3⟩]

/-- The loop returns the candidate of the earliest direction that passes. -/
theorem FindHorizontalEscapeLoop_first (g : Game) (playerPos hmdPos : NiPoint3)
    (searchDistance : ℚ) (out : NiPoint3) (d : ℚ × ℚ) (post : List (ℚ × ℚ)) :
    ∀ pre : List (ℚ × ℚ),
      (∀ e ∈ pre, ¬ EscapePasses g playerPos hmdPos searchDistance e) →
      EscapePasses g playerPos hmdPos searchDistance d →
      FindHorizontalEscapeLoop g playerPos hmdPos searchDistance out (pre ++ d :: post) =
        (true, escapeCandidate g playerPos hmdPos searchDistance d) := by
  intro pre
  induction pre with
  | nil =>
    intro _ hd
    rw [List.nil_append, FindHorizontalEscapeLoop_cons, if_pos hd]
  | cons e pre ih =>
    intro hpre hd
    rw [List.cons_append, FindHorizontalEscapeLoop_cons,
      if_neg (hpre e (List.mem_cons_self _ _))]
    exact ih (fun x hx => hpre x (List.mem_cons_of_mem _ hx)) hd

/-- The loop returns false exactly when no direction passes, and then leaves
the output parameter alone. -/
theorem FindHorizontalEscapeLoop_false (g : Game) (playerPos hmdPos : NiPoint3)
    (searchDistance : ℚ) (out : NiPoint3) :
    ∀ l : List (ℚ × ℚ),
      ((FindHorizontalEscapeLoop g playerPos hmdPos searchDistance out l).1 = false ↔
        ∀ d ∈ l, ¬ EscapePasses g playerPos hmdPos searchDistance d) := by
  intro l
  induction l with
  | nil => simp [FindHorizontalEscapeLoop]
  | cons e l ih =>
    rw [FindHorizontalEscapeLoop_cons]
    by_cases he : EscapePasses g playerPos hmdPos searchDistance e
    · rw [if_pos he]
      constructor
      · intro h; exact absurd h (by simp)
      · intro h; exact absurd he (h e (List.mem_cons_self _ _))
    · rw [if_neg he, ih]
      constructor
      · intro h d hd
        rcases List.mem_cons.1 hd with rfl | hd
        · exact he
        · exact h d hd
      · intro h d hd
        exact h d (List.mem_cons_of_mem _ hd)

/-- When a direction of `l` passes, the loop over `l ++ l2` returns the
candidate of a passing direction of `l`. -/
theorem FindHorizontalEscapeLoop_front (g : Game) (playerPos hmdPos : NiPoint3)
    (searchDistance : ℚ) (out : NiPoint3) (l2 : List (ℚ × ℚ)) :
    ∀ l : List (ℚ × ℚ),
      (∃ c ∈ l, EscapePasses g playerPos hmdPos searchDistance c) →
      ∃ c ∈ l, EscapePasses g playerPos hmdPos searchDistance c ∧
        FindHorizontalEscapeLoop g playerPos hmdPos searchDistance out (l ++ l2) =
          (true, escapeCandidate g playerPos hmdPos searchDistance c) := by
  intro l
  induction l with
  | nil => intro ⟨c, hc, _⟩; exact absurd hc (List.not_mem_nil c)
  | cons e l ih =>
    intro ⟨c, hc, hpass⟩
    rw [List.cons_append, FindHorizontalEscapeLoop_cons]
    by_cases he : EscapePasses g playerPos hmdPos searchDistance e
    · exact ⟨e, List.mem_cons_self _ _, he, by rw [if_pos he]⟩
    · rw [if_neg he]
      rcases List.mem_cons.1 hc with rfl | hc
      · exact absurd hpass he
      · obtain ⟨c2, hc2, hp2, heq⟩ := ih ⟨c, hc, hpass⟩
        exact ⟨c2, List.mem_cons_of_mem _ hc2, hp2, heq⟩

theorem FindHorizontalEscape_eq (g : Game) (searchDistance : ℚ) (out : NiPoint3)
    (player : PlayerCharacter) (hmdPos : NiPoint3) (hpl : g.player = some player)
    (hhmd : VRNodes.GetHMD g = some hmdPos) :
    FindHorizontalEscape g searchDistance out =
      FindHorizontalEscapeLoop g player.position hmdPos searchDistance out escapeDirections := by
  unfold FindHorizontalEscape
  simp only [hpl, hhmd]

/-- C26: with the player and the viewpoint available,
`FindHorizontalEscape(searchDistance)` returns true with the candidate of the
earliest direction, in the order East, West, North, South, NE, NW, SE, SW, that
passes the three checks, and returns false exactly when no direction passes; so
when a cardinal direction passes, the candidate of a cardinal direction is
returned whatever the diagonals do. -/
theorem FindHorizontalEscape_spec (g : Game) (searchDistance : ℚ) (out : NiPoint3)
    (player : PlayerCharacter) (hmdPos : NiPoint3) (hpl : g.player = some player)
    (hhmd : VRNodes.GetHMD g = some hmdPos) :
    escapeDirections =
      [(1, 0), (-1, 0), (0, 1), (0, -1), (707 / 1000, 707 / 1000), (-707 / 1000, 707 / 1000),
       (707 / 1000, -707 / 1000), (-707 / 1000, -707 / 1000)] ∧
    (∀ (pre post : List (ℚ × ℚ)) (d : ℚ × ℚ), escapeDirections = pre ++ d :: post →
      (∀ e ∈ pre, ¬ EscapePasses g player.position hmdPos searchDistance e) →
      EscapePasses g player.position hmdPos searchDistance d →
      FindHorizontalEscape g searchDistance out =
        (true, escapeCandidate g player.position hmdPos searchDistance d)) ∧
    ((FindHorizontalEscape g searchDistance out).1 = false ↔
      ∀ d ∈ escapeDirections, ¬ EscapePasses g player.position hmdPos searchDistance d) ∧
    ((∃ c ∈ [((1 : ℚ), (0 : ℚ)), (-1, 0), (0, 1), (0, -1)],
        EscapePasses g player.position hmdPos searchDistance c) →
      ∃ c ∈ [((1 : ℚ), (0 : ℚ)), (-1, 0), (0, 1), (0, -1)],
        EscapePasses g player.position hmdPos searchDistance c ∧
        FindHorizontalEscape g searchDistance out =
          (true, escapeCandidate g player.position hmdPos searchDistance c)) := by
  rw [FindHorizontalEscape_eq g searchDistance out player hmdPos hpl hhmd]
  refine ⟨rfl, ?_, FindHorizontalEscapeLoop_false g _ _ _ _ _, ?_⟩
  · intro pre post d hsplit hpre hd
    rw [hsplit]
    exact FindHorizontalEscapeLoop_first g _ _ _ _ d post pre hpre hd
  · intro h
    exact FindHorizontalEscapeLoop_front g _ _ _ _
      [(707 / 1000, 707 / 1000), (-707 / 1000, 707 / 1000),
       (707 / 1000, -707 / 1000), (-707 / 1000, -707 / 1000)] _ h

/-! ### The East candidate of the standing scenario -/

theorem Scenario.standGame_east_path :
    CastRayMask Scenario.standGame ⟨0, 0, 40⟩ ⟨1, 0, 0⟩ 30 LayerMasks.kSolid
      = initResult ⟨0, 0, 40⟩ ⟨1, 0, 0⟩ 30 := by
  have hpick : (Scenario.flatWorld Scenario.floorPlanes).PickObject
      ((⟨0, 0, 40⟩ : NiPoint3) * (1 : ℚ))
      (((⟨0, 0, 40⟩ : NiPoint3) + (⟨1, 0, 0⟩ : NiPoint3) * (30 : ℚ)) * (1 : ℚ)) = none := by
    have ea : (⟨0, 0, 40⟩ : NiPoint3) * (1 : ℚ) = ⟨0, 0, 40⟩ := by ext <;> norm_num
    have eb : ((⟨0, 0, 40⟩ : NiPoint3) + (⟨1, 0, 0⟩ : NiPoint3) * (30 : ℚ)) * (1 : ℚ)
        = ⟨30, 0, 40⟩ := by
      ext <;> norm_num
    rw [ea, eb]
    simp only [Scenario.flatWorld, lt_self_iff_false, if_false]
  exact CastRayMask_first_none Scenario.standGame (Scenario.flatWorld Scenario.floorPlanes)
    ⟨0, 0, 40⟩ ⟨1, 0, 0⟩ 30 LayerMasks.kSolid rfl hpick

theorem Scenario.standGame_east_ground :
    CastRayMask Scenario.standGame ⟨30, 0, 190⟩ ⟨0, 0, -1⟩ 200 LayerMasks.kSolid =
      { hit := true
        distance := 130
        hitPoint := ⟨30, 0, 60⟩
        hitNormal := ⟨0, 0, 1⟩
        collisionLayer := .kStatic
        hitRef := none } := by
  have ea : (⟨30, 0, 190⟩ : NiPoint3) * (1 : ℚ) = ⟨30, 0, 190⟩ := by ext <;> norm_num
  have eb : ((⟨30, 0, 190⟩ : NiPoint3) + (⟨0, 0, -1⟩ : NiPoint3) * (200 : ℚ)) * (1 : ℚ)
      = ⟨30, 0, -10⟩ := by
    ext <;> norm_num
  have hpick : (Scenario.flatWorld Scenario.floorPlanes).PickObject
      ((⟨30, 0, 190⟩ : NiPoint3) * (1 : ℚ))
      (((⟨30, 0, 190⟩ : NiPoint3) + (⟨0, 0, -1⟩ : NiPoint3) * (200 : ℚ)) * (1 : ℚ))
      = some ⟨13 / 20, ⟨0, 0, 1⟩, some ⟨.kStatic, none⟩⟩ := by
    rw [ea, eb]
    have := Scenario.flatWorld_pick_down 60 0 .kStatic .kTerrain (by norm_num)
      ⟨30, 0, 190⟩ ⟨30, 0, -10⟩ (by norm_num)
    rw [if_pos (by norm_num)] at this
    exact this.trans (by norm_num)
  rw [CastRayMask_first_hit Scenario.standGame (Scenario.flatWorld Scenario.floorPlanes)
    ⟨30, 0, 190⟩ ⟨0, 0, -1⟩ 200 LayerMasks.kSolid (13 / 20) ⟨0, 0, 1⟩ ⟨.kStatic, none⟩ rfl
    (by norm_num) hpick (by decide)]
  congr 1
  · norm_num
  · ext <;> norm_num

theorem Scenario.standGame_east_headroom :
    CheckHeadroomAt Scenario.standGame ⟨30, 0, 60⟩ 140 = 240 := by
  have ea : (⟨30, 0, 60 + 1⟩ : NiPoint3) * (1 : ℚ) = ⟨30, 0, 61⟩ := by ext <;> norm_num
  have eb : ((⟨30, 0, 60 + 1⟩ : NiPoint3) + (⟨0, 0, 1⟩ : NiPoint3) * (140 + 10 : ℚ)) * (1 : ℚ)
      = ⟨30, 0, 211⟩ := by
    ext <;> norm_num
  have hpick : (Scenario.flatWorld Scenario.floorPlanes).PickObject
      ((⟨30, 0, 60 + 1⟩ : NiPoint3) * (1 : ℚ))
      (((⟨30, 0, 60 + 1⟩ : NiPoint3) + (⟨0, 0, 1⟩ : NiPoint3) * (140 + 10 : ℚ)) * (1 : ℚ))
      = none := by
    rw [ea, eb]
    have := Scenario.flatWorld_pick_up 60 0 .kStatic .kTerrain (by norm_num)
      ⟨30, 0, 61⟩ ⟨30, 0, 211⟩ (by norm_num)
    rw [if_neg (by norm_num), if_neg (by norm_num)] at this
    exact this
  unfold CheckHeadroomAt
  simp only
  rw [CastRayMask_first_none Scenario.standGame (Scenario.flatWorld Scenario.floorPlanes)
    ⟨30, 0, 60 + 1⟩ ⟨0, 0, 1⟩ (140 + 10) LayerMasks.kSolid rfl hpick]
  norm_num [initResult]

theorem Scenario.standGame_east_candidate :
    escapeCandidate Scenario.standGame ⟨0, 0, 40⟩ ⟨0, 0, 190⟩ 30 (1, 0) = ⟨30, 0, 60⟩ := by
  have eo : (⟨0 + 1 * 30, 0 + 0 * 30, 190⟩ : NiPoint3) = ⟨30, 0, 190⟩ := by ext <;> norm_num
  simp only [escapeCandidate, eo, Scenario.standGame_east_ground]
  ext <;> norm_num

theorem Scenario.standGame_east_passes :
    EscapePasses Scenario.standGame ⟨0, 0, 40⟩ ⟨0, 0, 190⟩ 30 (1, 0) := by
  have eo : (⟨0 + 1 * 30, 0 + 0 * 30, 190⟩ : NiPoint3) = ⟨30, 0, 190⟩ := by ext <;> norm_num
  refine ⟨?_, ?_, ?_⟩
  · simp only [Scenario.standGame_east_path]
    intro h
    exact Bool.false_ne_true h.1
  · simp only [eo, Scenario.standGame_east_ground]
  · rw [Scenario.standGame_east_candidate, Scenario.standGame_east_headroom]
    norm_num

/-- Witness of C26: in the standing scenario, where the floor is open in all
eight directions, the search at distance 30 returns the East candidate
`(30, 0, 60)`. -/
theorem FindHorizontalEscape_spec_witness :
    FindHorizontalEscape Scenario.standGame 30 ⟨0, 0, 0⟩ =
      (true, escapeCandidate Scenario.standGame ⟨0, 0, 40⟩ ⟨0, 0, 190⟩ 30 (1, 0)) ∧
    escapeCandidate Scenario.standGame ⟨0, 0, 40⟩ ⟨0, 0, 190⟩ 30 (1, 0) = ⟨30, 0, 60⟩ :=
  ⟨(FindHorizontalEscape_spec Scenario.standGame 30 ⟨0, 0, 0⟩
      { position := ⟨0, 0, 40⟩
        parentCell := some ⟨some (Scenario.flatWorld Scenario.floorPlanes)⟩
        vrNodeData := some ⟨none, none, some ⟨0, 0, 190⟩⟩ }
      ⟨0, 0, 190⟩ rfl rfl).2.1 []
      [(-1, 0), (0, 1), (0, -1), (707 / 1000, 707 / 1000), (-707 / 1000, 707 / 1000),
       (707 / 1000, -707 / 1000), (-707 / 1000, -707 / 1000)] (1, 0) rfl
      (fun e he => absurd he (List.not_mem_nil e)) Scenario.standGame_east_passes,
    Scenario.standGame_east_candidate⟩

/-! ### Rounding -/

theorem roundHalfEven_eq (y : ℚ) (m : ℤ) (h : |y - m| < 1 / 2) : roundHalfEven y = m := by
  rw [abs_lt] at h
  unfold roundHalfEven
  by_cases hge : (m : ℚ) ≤ y
  · have hfl : ⌊y⌋ = m := by
      rw [Int.floor_eq_iff]
      constructor
      · exact hge
      · linarith [h.2]
    have hfr : Int.fract y = y - m := by
      rw [Int.fract, hfl]
    rw [if_pos (by rw [hfr]; linarith [h.2]), hfl]
  · have hlt : y < m := not_le.mp hge
    have hfl : ⌊y⌋ = m - 1 := by
      rw [Int.floor_eq_iff]
      push_cast
      constructor
      · linarith [h.1]
      · linarith
    have hfr : Int.fract y = y - (m - 1) := by
      rw [Int.fract, hfl]
      push_cast
      ring
    rw [if_neg (by rw [hfr]; linarith [h.1]), if_pos (by rw [hfr]; linarith [h.1]), hfl]
    ring

theorem roundHalfEven_nonneg (y : ℚ) (h : 0 ≤ y) : 0 ≤ roundHalfEven y := by
  have hf : 0 ≤ ⌊y⌋ := Int.floor_nonneg.2 h
  unfold roundHalfEven
  split_ifs <;> omega

/-- The value stored for an exact result `x` with `2^e <= x < 2^(e+1)` is
`m * 2^(e-23)` when `m` is the integer within `1/2` of `x * 2^(23-e)`. -/
theorem roundBinary32_eq (x : ℚ) (e m : ℤ) (hlo : (2 : ℚ) ^ e ≤ x) (hhi : x < (2 : ℚ) ^ (e + 1))
    (hm : |x * 2 ^ (23 - e) - m| < 1 / 2) : roundBinary32 x = m * 2 ^ (e - 23) := by
  have hpos : 0 < x := lt_of_lt_of_le (by positivity) hlo
  have hlog : Int.log 2 x = e := by
    apply le_antisymm
    · have := (Int.lt_zpow_iff_log_lt (b := 2) (by norm_num) hpos).1 (by exact_mod_cast hhi)
      omega
    · exact (Int.zpow_le_iff_le_log (b := 2) (by norm_num) hpos).1 (by exact_mod_cast hlo)
  unfold roundBinary32 roundSignificand
  rw [if_neg hpos.ne', if_pos hpos, hlog, roundHalfEven_eq _ m hm]

theorem roundBinary32_nonneg (x : ℚ) (h : 0 ≤ x) : 0 ≤ roundBinary32 x := by
  unfold roundBinary32
  split_ifs with h0 hp
  · exact le_rfl
  · unfold roundSignificand
    have : 0 ≤ x * 2 ^ (23 - Int.log 2 x) := by positivity
    have := roundHalfEven_nonneg _ this
    have hc : (0 : ℚ) ≤ (roundHalfEven (x * 2 ^ (23 - Int.log 2 x)) : ℚ) := by exact_mod_cast this
    positivity
  · exact absurd (lt_of_le_of_ne h (Ne.symm h0)) hp

theorem roundBinary32_twelfth : roundBinary32 (1 / 12) = 11184811 / 134217728 := by
  rw [roundBinary32_eq (1 / 12) (-4) 11184811 (by norm_num) (by norm_num)
    (by rw [abs_lt]; constructor <;> norm_num)]
  norm_num

/-! ### Update with rounded progress -/

theorem UpdateRounded_id (g : Game) (self : ClimbExitCorrector) (d : ℚ) :
    UpdateRounded id g self d = Update g self d := rfl

/-- One `UpdateRounded` while correcting with the player present. -/
theorem UpdateRounded_step (rnd : ℚ → ℚ) (g : Game) (self : ClimbExitCorrector) (d : ℚ)
    (pl : PlayerCharacter) (hc : self.isCorrecting = true) (hpl : g.player = some pl) :
    UpdateRounded rnd g self d =
      if 1 ≤ rnd (self.m_progress + rnd (d / self.m_duration)) then
        (false, { self with m_progress := rnd (self.m_progress + rnd (d / self.m_duration)),
                            isCorrecting := false },
          { g with player := some (pl.SetPosition self.m_targetPos) })
      else
        (true, { self with m_progress := rnd (self.m_progress + rnd (d / self.m_duration)) },
          { g with player := some (pl.SetPosition
            (EvaluateBezier
              { self with m_progress := rnd (self.m_progress + rnd (d / self.m_duration)) }
              (easedT (rnd (self.m_progress + rnd (d / self.m_duration)))))) }) := by
  simp [UpdateRounded, hc, hpl]

theorem afterUpdatesRounded_idle (rnd : ℚ → ℚ) (g : Game) (self : ClimbExitCorrector)
    (l : List ℚ) (h : self.isCorrecting = false) :
    afterUpdatesRounded rnd g self l = (self, g) := by
  induction l with
  | nil => rfl
  | cons d ds ih => simp [afterUpdatesRounded, UpdateRounded, h, ih]

theorem accumulatedProgress_snoc (rnd : ℚ → ℚ) (D : ℚ) (d : ℚ) (l : List ℚ) :
    ∀ p : ℚ, accumulatedProgress rnd D p (l ++ [d])
      = rnd (accumulatedProgress rnd D p l + rnd (d / D)) := by
  induction l with
  | nil => intro p; rfl
  | cons a l ih => intro p; exact ih _

theorem accumulatedProgress_exact (D : ℚ) (l : List ℚ) :
    ∀ p : ℚ, accumulatedProgress id D p l = p + l.sum / D := by
  induction l with
  | nil => intro p; simp [accumulatedProgress]
  | cons a l ih =>
    intro p
    simp only [accumulatedProgress, ih, id, List.sum_cons]
    ring

/-- A run of rounded updates keeps correcting exactly as long as the
accumulated progress stays below 1, and then only `m_progress` has changed. -/
theorem afterUpdatesRounded_trace (rnd : ℚ → ℚ) (D : ℚ) (l : List ℚ) :
    ∀ (g : Game) (self : ClimbExitCorrector), self.isCorrecting = true → self.m_duration = D →
      g.player ≠ none →
      ((∀ j < l.length, accumulatedProgress rnd D self.m_progress (l.take (j + 1)) < 1) →
        (afterUpdatesRounded rnd g self l).1
          = { self with m_progress := accumulatedProgress rnd D self.m_progress l } ∧
        (afterUpdatesRounded rnd g self l).2.player ≠ none) ∧
      ((afterUpdatesRounded rnd g self l).1.isCorrecting = true →
        ∀ j < l.length, accumulatedProgress rnd D self.m_progress (l.take (j + 1)) < 1) := by
  induction l with
  | nil =>
    intro g self _ _ hp
    exact ⟨fun _ => ⟨rfl, hp⟩, fun _ j hj => absurd hj (Nat.not_lt_zero j)⟩
  | cons d ds ih =>
    intro g self hc hdur hp
    subst hdur
    obtain ⟨player, hpl⟩ := Option.ne_none_iff_exists'.1 hp
    have hU := UpdateRounded_step rnd g self d player hc hpl
    by_cases hstep : 1 ≤ rnd (self.m_progress + rnd (d / self.m_duration))
    · rw [if_pos hstep] at hU
      constructor
      · intro hall
        have := hall 0 (Nat.succ_pos _)
        simp only [List.take_succ_cons, List.take_zero, accumulatedProgress] at this
        exact absurd hstep (not_le.mpr this)
      · intro hcor
        simp only [afterUpdatesRounded, hU] at hcor
        rw [afterUpdatesRounded_idle _ _ _ _ rfl] at hcor
        cases hcor
    · rw [if_neg hstep] at hU
      have hrec := ih
        { g with player := some (player.SetPosition
            (EvaluateBezier { self with m_progress := rnd (self.m_progress + rnd (d / self.m_duration)) }
              (easedT (rnd (self.m_progress + rnd (d / self.m_duration)))))) }
        { self with m_progress := rnd (self.m_progress + rnd (d / self.m_duration)) } hc rfl (by simp)
      simp only [afterUpdatesRounded, hU]
      constructor
      · intro hall
        exact hrec.1 (fun j hj => by
          have := hall (j + 1) (Nat.succ_lt_succ hj)
          simpa only [List.take_succ_cons, accumulatedProgress] using this)
      · intro hcor j hj
        cases j with
        | zero =>
          simp only [List.take_succ_cons, List.take_zero, accumulatedProgress]
          exact not_le.mp hstep
        | succ j =>
          have := hrec.2 hcor j (Nat.lt_of_succ_lt_succ hj)
          simpa only [List.take_succ_cons, accumulatedProgress] using this

/-- C6 (amended): for a correction with `progress = 0` and duration `D > 0`,
followed by `Update` calls with frame times `ds` and the player present, the
call number `k` (counted from 0) is the completing call (made while correcting,
it returns false, clears `isCorrecting` and puts the player exactly at
`targetPos`) if and only if `k` is the least index at which the progress
accumulated by the code, `p := rnd (p + rnd (d / D))` per call, reaches 1,
whatever the rounding `rnd`; every call before that index returns true and
leaves `isCorrecting = true`.  With exact arithmetic the accumulated progress
is `(ds[0] + ... + ds[j-1]) / D`. -/
theorem UpdateRounded_completes_at_first_crossing (rnd : ℚ → ℚ) (g : Game)
    (self : ClimbExitCorrector) (player : PlayerCharacter) (D : ℚ) (ds : List ℚ) (k : Nat)
    (hc : self.isCorrecting = true) (hp0 : self.m_progress = 0)
    (hdur : self.m_duration = D) (_hD : 0 < D) (hpl : g.player = some player)
    (hk : k < ds.length) :
    let st := afterUpdatesRounded rnd g self (ds.take k)
    let r := UpdateRounded rnd st.2 st.1 ds[k]
    ((st.1.isCorrecting = true ∧ r.1 = false ∧ r.2.1.isCorrecting = false ∧
        r.2.2.player.map (fun p => p.position) = some self.m_targetPos) ↔
      (1 ≤ accumulatedProgress rnd D 0 (ds.take (k + 1)) ∧
        ∀ j < k, accumulatedProgress rnd D 0 (ds.take (j + 1)) < 1)) ∧
    ((∀ j ≤ k, accumulatedProgress rnd D 0 (ds.take (j + 1)) < 1) →
      r.1 = true ∧ r.2.1.isCorrecting = true) ∧
    (∀ j, accumulatedProgress id D 0 (ds.take j) = (ds.take j).sum / D) ∧
    (∀ (s : ClimbExitCorrector) (d : ℚ), UpdateRounded id g s d = Update g s d) := by
  have htr := afterUpdatesRounded_trace rnd D (ds.take k) g self hc hdur (by simp [hpl])
  have hlen : (ds.take k).length = k := by
    rw [List.length_take]; omega
  have htake : ∀ j < k, (ds.take k).take (j + 1) = ds.take (j + 1) := by
    intro j hj
    rw [List.take_take, Nat.min_eq_left (by omega)]
  have hsucc : ds.take (k + 1) = ds.take k ++ [ds[k]] := by
    rw [List.take_succ]
    simp [List.getElem?_eq_getElem hk]
  rw [hp0, hlen] at htr
  refine ⟨?_, ?_, fun j => by rw [accumulatedProgress_exact, zero_add],
    fun s d => UpdateRounded_id g s d⟩
  all_goals
    generalize afterUpdatesRounded rnd g self (ds.take k) = st at htr
    obtain ⟨s, g1⟩ := st
    simp only
  · by_cases hall : ∀ j < k, accumulatedProgress rnd D 0 (ds.take (j + 1)) < 1
    · obtain ⟨hst, hplayer⟩ := htr.1 (fun j hj => by rw [htake j hj]; exact hall j hj)
      simp only at hst hplayer
      obtain ⟨pl, hpl2⟩ := Option.ne_none_iff_exists'.1 hplayer
      have hcor : s.isCorrecting = true := by rw [hst]; exact hc
      have hprog : rnd (s.m_progress + rnd (ds[k] / s.m_duration))
          = accumulatedProgress rnd D 0 (ds.take (k + 1)) := by
        rw [hsucc, accumulatedProgress_snoc, hst]
        simp only [hdur]
      have htar : s.m_targetPos = self.m_targetPos := by rw [hst]
      rw [UpdateRounded_step rnd g1 s ds[k] pl hcor hpl2, hprog]
      by_cases hge : 1 ≤ accumulatedProgress rnd D 0 (ds.take (k + 1))
      · rw [if_pos hge]
        exact ⟨fun _ => ⟨hge, hall⟩,
          fun _ => by simp [hcor, PlayerCharacter.SetPosition, htar]⟩
      · rw [if_neg hge]
        exact ⟨fun h => by simp at h, fun h => absurd h.1 hge⟩
    · have hidle : ¬ s.isCorrecting = true := by
        intro hcor
        apply hall
        intro j hj
        have := htr.2 hcor j hj
        rwa [htake j hj] at this
      exact ⟨fun h => absurd h.1 hidle, fun h => absurd h.2 hall⟩
  · intro hall
    have hall2 : ∀ j < k, accumulatedProgress rnd D 0 (ds.take (j + 1)) < 1 :=
      fun j hj => hall j hj.le
    obtain ⟨hst, hplayer⟩ := htr.1 (fun j hj => by rw [htake j hj]; exact hall2 j hj)
    simp only at hst hplayer
    obtain ⟨pl, hpl2⟩ := Option.ne_none_iff_exists'.1 hplayer
    have hcor : s.isCorrecting = true := by rw [hst]; exact hc
    have hprog : rnd (s.m_progress + rnd (ds[k] / s.m_duration))
        = accumulatedProgress rnd D 0 (ds.take (k + 1)) := by
      rw [hsucc, accumulatedProgress_snoc, hst]
      simp only [hdur]
    rw [UpdateRounded_step rnd g1 s ds[k] pl hcor hpl2, hprog,
      if_neg (not_le.mpr (hall k le_rfl))]
    exact ⟨rfl, hcor⟩

/-! ### Twelve frames of one second on a correction of twelve seconds -/

theorem Scenario.slow_progress_succ (j : Nat) (v w : ℚ)
    (hv : accumulatedProgress roundBinary32 12 0 (List.replicate j 1) = v)
    (hw : roundBinary32 (v + 11184811 / 134217728) = w) :
    accumulatedProgress roundBinary32 12 0 (List.replicate (j + 1) 1) = w := by
  rw [List.replicate_succ', accumulatedProgress_snoc, hv, roundBinary32_twelfth, hw]

theorem Scenario.slow_progress_0 :
    accumulatedProgress roundBinary32 12 0 (List.replicate 0 1) = 0 := rfl

theorem Scenario.slow_progress_1 :
    accumulatedProgress roundBinary32 12 0 (List.replicate 1 1) = 11184811 / 134217728 :=
  Scenario.slow_progress_succ 0 (0) (11184811 / 134217728) Scenario.slow_progress_0
    (by
      rw [roundBinary32_eq (0 + 11184811 / 134217728) (-4) 11184811 (by norm_num)
        (by norm_num) (by rw [abs_lt]; constructor <;> norm_num)]
      norm_num)

theorem Scenario.slow_progress_2 :
    accumulatedProgress roundBinary32 12 0 (List.replicate 2 1) = 11184811 / 67108864 :=
  Scenario.slow_progress_succ 1 (11184811 / 134217728) (11184811 / 67108864) Scenario.slow_progress_1
    (by
      rw [roundBinary32_eq (11184811 / 134217728 + 11184811 / 134217728) (-3) 11184811 (by norm_num)
        (by norm_num) (by rw [abs_lt]; constructor <;> norm_num)]
      norm_num)

theorem Scenario.slow_progress_3 :
    accumulatedProgress roundBinary32 12 0 (List.replicate 3 1) = 1 / 4 :=
  Scenario.slow_progress_succ 2 (11184811 / 67108864) (1 / 4) Scenario.slow_progress_2
    (by
      rw [roundBinary32_eq (11184811 / 67108864 + 11184811 / 134217728) (-2) 8388608 (by norm_num)
        (by norm_num) (by rw [abs_lt]; constructor <;> norm_num)]
      norm_num)

theorem Scenario.slow_progress_4 :
    accumulatedProgress roundBinary32 12 0 (List.replicate 4 1) = 11184811 / 33554432 :=
  Scenario.slow_progress_succ 3 (1 / 4) (11184811 / 33554432) Scenario.slow_progress_3
    (by
      rw [roundBinary32_eq (1 / 4 + 11184811 / 134217728) (-2) 11184811 (by norm_num)
        (by norm_num) (by rw [abs_lt]; constructor <;> norm_num)]
      norm_num)

theorem Scenario.slow_progress_5 :
    accumulatedProgress roundBinary32 12 0 (List.replicate 5 1) = 6990507 / 16777216 :=
  Scenario.slow_progress_succ 4 (11184811 / 33554432) (6990507 / 16777216) Scenario.slow_progress_4
    (by
      rw [roundBinary32_eq (11184811 / 33554432 + 11184811 / 134217728) (-2) 13981014 (by norm_num)
        (by norm_num) (by rw [abs_lt]; constructor <;> norm_num)]
      norm_num)

theorem Scenario.slow_progress_6 :
    accumulatedProgress roundBinary32 12 0 (List.replicate 6 1) = 1 / 2 :=
  Scenario.slow_progress_succ 5 (6990507 / 16777216) (1 / 2) Scenario.slow_progress_5
    (by
      rw [roundBinary32_eq (6990507 / 16777216 + 11184811 / 134217728) (-1) 8388608 (by norm_num)
        (by norm_num) (by rw [abs_lt]; constructor <;> norm_num)]
      norm_num)

theorem Scenario.slow_progress_7 :
    accumulatedProgress roundBinary32 12 0 (List.replicate 7 1) = 9786709 / 16777216 :=
  Scenario.slow_progress_succ 6 (1 / 2) (9786709 / 16777216) Scenario.slow_progress_6
    (by
      rw [roundBinary32_eq (1 / 2 + 11184811 / 134217728) (-1) 9786709 (by norm_num)
        (by norm_num) (by rw [abs_lt]; constructor <;> norm_num)]
      norm_num)

theorem Scenario.slow_progress_8 :
    accumulatedProgress roundBinary32 12 0 (List.replicate 8 1) = 5592405 / 8388608 :=
  Scenario.slow_progress_succ 7 (9786709 / 16777216) (5592405 / 8388608) Scenario.slow_progress_7
    (by
      rw [roundBinary32_eq (9786709 / 16777216 + 11184811 / 134217728) (-1) 11184810 (by norm_num)
        (by norm_num) (by rw [abs_lt]; constructor <;> norm_num)]
      norm_num)

theorem Scenario.slow_progress_9 :
    accumulatedProgress roundBinary32 12 0 (List.replicate 9 1) = 12582911 / 16777216 :=
  Scenario.slow_progress_succ 8 (5592405 / 8388608) (12582911 / 16777216) Scenario.slow_progress_8
    (by
      rw [roundBinary32_eq (5592405 / 8388608 + 11184811 / 134217728) (-1) 12582911 (by norm_num)
        (by norm_num) (by rw [abs_lt]; constructor <;> norm_num)]
      norm_num)

theorem Scenario.slow_progress_10 :
    accumulatedProgress roundBinary32 12 0 (List.replicate 10 1) = 3495253 / 4194304 :=
  Scenario.slow_progress_succ 9 (12582911 / 16777216) (3495253 / 4194304) Scenario.slow_progress_9
    (by
      rw [roundBinary32_eq (12582911 / 16777216 + 11184811 / 134217728) (-1) 13981012 (by norm_num)
        (by norm_num) (by rw [abs_lt]; constructor <;> norm_num)]
      norm_num)

theorem Scenario.slow_progress_11 :
    accumulatedProgress roundBinary32 12 0 (List.replicate 11 1) = 15379113 / 16777216 :=
  Scenario.slow_progress_succ 10 (3495253 / 4194304) (15379113 / 16777216) Scenario.slow_progress_10
    (by
      rw [roundBinary32_eq (3495253 / 4194304 + 11184811 / 134217728) (-1) 15379113 (by norm_num)
        (by norm_num) (by rw [abs_lt]; constructor <;> norm_num)]
      norm_num)

theorem Scenario.slow_progress_12 :
    accumulatedProgress roundBinary32 12 0 (List.replicate 12 1) = 8388607 / 8388608 :=
  Scenario.slow_progress_succ 11 (15379113 / 16777216) (8388607 / 8388608) Scenario.slow_progress_11
    (by
      rw [roundBinary32_eq (15379113 / 16777216 + 11184811 / 134217728) (-1) 16777214 (by norm_num)
        (by norm_num) (by rw [abs_lt]; constructor <;> norm_num)]
      norm_num)

theorem Scenario.slow_progress_13 :
    accumulatedProgress roundBinary32 12 0 (List.replicate 13 1) = 4543829 / 4194304 :=
  Scenario.slow_progress_succ 12 (8388607 / 8388608) (4543829 / 4194304) Scenario.slow_progress_12
    (by
      rw [roundBinary32_eq (8388607 / 8388608 + 11184811 / 134217728) (0) 9087658 (by norm_num)
        (by norm_num) (by rw [abs_lt]; constructor <;> norm_num)]
      norm_num)

theorem Scenario.secondFrames_take (j : Nat) (hj : j ≤ 13) :
    Scenario.secondFrames.take j = List.replicate j 1 := by
  interval_cases j <;> rfl

/-- Progress accumulated in binary32 arithmetic over the first twelve frames:
it stays below 1 (after the twelfth frame it is `1 - 2^-23`). -/
theorem Scenario.slow_progress_below (j : Nat) (hj : j < 12) :
    accumulatedProgress roundBinary32 12 0 (Scenario.secondFrames.take (j + 1)) < 1 := by
  rw [Scenario.secondFrames_take (j + 1) (by omega)]
  interval_cases j
  · rw [Scenario.slow_progress_1]; norm_num
  · rw [Scenario.slow_progress_2]; norm_num
  · rw [Scenario.slow_progress_3]; norm_num
  · rw [Scenario.slow_progress_4]; norm_num
  · rw [Scenario.slow_progress_5]; norm_num
  · rw [Scenario.slow_progress_6]; norm_num
  · rw [Scenario.slow_progress_7]; norm_num
  · rw [Scenario.slow_progress_8]; norm_num
  · rw [Scenario.slow_progress_9]; norm_num
  · rw [Scenario.slow_progress_10]; norm_num
  · rw [Scenario.slow_progress_11]; norm_num
  · rw [Scenario.slow_progress_12]; norm_num

/-- C6, as stated, fails in binary32 arithmetic: on a correction of duration 12
updated with frames of one second, index 11 (the twelfth call) is the least
index whose accumulated frame time reaches the duration, yet the twelfth call is
made while correcting, returns true and leaves `isCorrecting = true`, with the
progress at `8388607 / 8388608 = 1 - 2^-23`. -/
theorem Update_twelve_frames_not_complete :
    ((12 : ℚ) ≤ (Scenario.secondFrames.take (11 + 1)).sum ∧
      ∀ j < 11, (Scenario.secondFrames.take (j + 1)).sum < 12) ∧
    (afterUpdatesRounded roundBinary32 Scenario.floorGame Scenario.slow
      (Scenario.secondFrames.take 11)).1.isCorrecting = true ∧
    (UpdateRounded roundBinary32
      (afterUpdatesRounded roundBinary32 Scenario.floorGame Scenario.slow
        (Scenario.secondFrames.take 11)).2
      (afterUpdatesRounded roundBinary32 Scenario.floorGame Scenario.slow
        (Scenario.secondFrames.take 11)).1 1).1 = true ∧
    (UpdateRounded roundBinary32
      (afterUpdatesRounded roundBinary32 Scenario.floorGame Scenario.slow
        (Scenario.secondFrames.take 11)).2
      (afterUpdatesRounded roundBinary32 Scenario.floorGame Scenario.slow
        (Scenario.secondFrames.take 11)).1 1).2.1.isCorrecting = true ∧
    (UpdateRounded roundBinary32
      (afterUpdatesRounded roundBinary32 Scenario.floorGame Scenario.slow
        (Scenario.secondFrames.take 11)).2
      (afterUpdatesRounded roundBinary32 Scenario.floorGame Scenario.slow
        (Scenario.secondFrames.take 11)).1 1).2.1.m_progress = 8388607 / 8388608 := by
  have hsum : ∀ j ≤ 13, (Scenario.secondFrames.take j).sum = (j : ℚ) := by
    intro j hj
    rw [Scenario.secondFrames_take j hj]
    simp
  have htr := (afterUpdatesRounded_trace roundBinary32 12 (Scenario.secondFrames.take 11)
    Scenario.floorGame Scenario.slow rfl rfl (by simp [Scenario.floorGame, Scenario.game])).1
    (fun j hj => by
      have hj11 : j < 11 := by
        rw [List.length_take] at hj
        exact lt_of_lt_of_le hj (Nat.min_le_left _ _)
      rw [List.take_take, Nat.min_eq_left (by omega)]
      exact Scenario.slow_progress_below j (by omega))
  have hp11 : accumulatedProgress roundBinary32 12 Scenario.slow.m_progress
      (Scenario.secondFrames.take 11) = 15379113 / 16777216 := by
    rw [Scenario.secondFrames_take 11 (by norm_num)]
    exact Scenario.slow_progress_11
  rw [hp11] at htr
  generalize afterUpdatesRounded roundBinary32 Scenario.floorGame Scenario.slow
    (Scenario.secondFrames.take 11) = st at htr
  obtain ⟨s, g1⟩ := st
  obtain ⟨hst, hplayer⟩ := htr
  simp only at hst hplayer
  obtain ⟨pl, hpl⟩ := Option.ne_none_iff_exists'.1 hplayer
  have hcor : s.isCorrecting = true := by rw [hst]; rfl
  have hstep : roundBinary32 (s.m_progress + roundBinary32 (1 / s.m_duration))
      = 8388607 / 8388608 := by
    rw [hst]
    show roundBinary32 (15379113 / 16777216 + roundBinary32 (1 / 12)) = 8388607 / 8388608
    have := Scenario.slow_progress_succ 11 _ _ Scenario.slow_progress_11 rfl
    rw [roundBinary32_twelfth]
    rw [Scenario.slow_progress_12] at this
    exact this.symm
  refine ⟨⟨?_, ?_⟩, ?_⟩
  · rw [hsum 12 (by norm_num)]; norm_num
  · intro j hj
    rw [hsum (j + 1) (by omega)]
    have : ((j + 1 : Nat) : ℚ) < 12 := by exact_mod_cast (by omega : j + 1 < 12)
    exact this
  · simp only
    rw [UpdateRounded_step roundBinary32 g1 s 1 pl hcor hpl, hstep, if_neg (by norm_num)]
    exact ⟨hcor, rfl, hcor, rfl⟩

/-- Witness of C6 (amended), in binary32 arithmetic: on the correction of
duration 12 updated with frames of one second the accumulated progress first
reaches 1 at index 12, and the thirteenth call is the completing call. -/
theorem UpdateRounded_completes_at_first_crossing_witness :
    (afterUpdatesRounded roundBinary32 Scenario.floorGame Scenario.slow
      (Scenario.secondFrames.take 12)).1.isCorrecting = true ∧
    (UpdateRounded roundBinary32
      (afterUpdatesRounded roundBinary32 Scenario.floorGame Scenario.slow
        (Scenario.secondFrames.take 12)).2
      (afterUpdatesRounded roundBinary32 Scenario.floorGame Scenario.slow
        (Scenario.secondFrames.take 12)).1 1).1 = false ∧
    (UpdateRounded roundBinary32
      (afterUpdatesRounded roundBinary32 Scenario.floorGame Scenario.slow
        (Scenario.secondFrames.take 12)).2
      (afterUpdatesRounded roundBinary32 Scenario.floorGame Scenario.slow
        (Scenario.secondFrames.take 12)).1 1).2.1.isCorrecting = false ∧
    (UpdateRounded roundBinary32
      (afterUpdatesRounded roundBinary32 Scenario.floorGame Scenario.slow
        (Scenario.secondFrames.take 12)).2
      (afterUpdatesRounded roundBinary32 Scenario.floorGame Scenario.slow
        (Scenario.secondFrames.take 12)).1 1).2.2.player.map (fun p => p.position)
      = some Scenario.slow.m_targetPos :=
  (UpdateRounded_completes_at_first_crossing roundBinary32 Scenario.floorGame Scenario.slow
    Scenario.floorPlayer 12 Scenario.secondFrames 12 rfl rfl rfl (by norm_num) rfl
    (by decide)).1.2
    ⟨by
      rw [Scenario.secondFrames_take 13 le_rfl, Scenario.slow_progress_13]
      norm_num,
      fun j hj => Scenario.slow_progress_below j hj⟩

/-! ### Reachable states and the bounds of the progress -/

theorem CastRayMask_congr (g g2 : Game) (hw : physicsWorld g = physicsWorld g2)
    (hs : g.havokWorldScale = g2.havokWorldScale) (origin direction : NiPoint3)
    (maxDistance : ℚ) (mask : CollisionLayerMask) :
    CastRayMask g origin direction maxDistance mask
      = CastRayMask g2 origin direction maxDistance mask := by
  unfold CastRayMask
  rw [hw, hs]

theorem Scenario.reverseGame_detect (out : NiPoint3) :
    DetectCorrectionNeeded Scenario.reverseGame out = (20, ⟨0, 0, 60⟩) := by
  rw [DetectCorrectionNeeded_eq Scenario.reverseGame out
    (Scenario.playerOf Scenario.floorPlanes ⟨0, 0, 40⟩ (some ⟨0, 0, 190⟩) none none)
    ⟨0, 0, 190⟩ rfl rfl Scenario.sqrtQ_16900]
  rw [CastRayMask_congr Scenario.reverseGame Scenario.standGame rfl rfl]
  have h := Scenario.floor_cast_down ⟨0, 0, 40⟩ 190 (by norm_num) (by norm_num)
  rw [show CastRayMask Scenario.standGame ⟨0, 0, 190⟩ ⟨0, 0, -1⟩ 130 LayerMasks.kSolid
    = _ from h]
  norm_num [Scenario.playerOf]

theorem Scenario.reverseGame_headroom :
    CheckHeadroomAt Scenario.reverseGame ⟨0, 0, 60⟩ 160 = 260 := by
  have h := Scenario.standGame_headroom
  simp only [CheckHeadroomAt] at h ⊢
  rw [CastRayMask_congr Scenario.reverseGame Scenario.standGame rfl rfl]
  exact h

theorem Scenario.reverseGame_started :
    StartCorrection Scenario.reverseGame ClimbExitCorrector.init ⟨0, 0, 0⟩
      = (true, Scenario.startedReverse, Scenario.reverseGame) := by
  have hv : Scenario.sqrtQ ((0 : ℚ) * 0 + 0 * 0 + 0 * 0) = 0 := by
    have h : (0 : ℚ) * 0 + 0 * 0 + 0 * 0 = 0 := by norm_num
    rw [h, Scenario.sqrtQ_zero]
  have hd : Scenario.sqrtQ (((0 : ℚ) - 0) * (0 - 0) + (0 - 0) * (0 - 0)
      + (60 - 40) * (60 - 40)) = 20 := by
    have h : ((0 : ℚ) - 0) * (0 - 0) + (0 - 0) * (0 - 0) + (60 - 40) * (60 - 40) = 400 := by
      norm_num
    rw [h, Scenario.sqrtQ_400]
  have hn : ¬ ((0 : ℚ) > 1) := by norm_num
  have h1 : ((0 : ℚ) + 0) * (1 / 2) = 0 := by norm_num
  have h2 : ((40 : ℚ) + 60) * (1 / 2) = 50 := by norm_num
  have h3 : (20 : ℚ) * (-1 / 64) = -5 / 16 := by norm_num
  have hsq : Scenario.reverseGame.sqrt = Scenario.sqrtQ := rfl
  have hspu : Scenario.reverseGame.options.exitCorrectionSecondsPerUnit = -1 / 64 := rfl
  rw [StartCorrection_idle_eq Scenario.reverseGame ClimbExitCorrector.init ⟨0, 0, 0⟩
    (Scenario.playerOf Scenario.floorPlanes ⟨0, 0, 40⟩ (some ⟨0, 0, 190⟩) none none)
    ⟨0, 0, 190⟩ ⟨0, 0, 60⟩ 20 160 260 rfl rfl rfl (Scenario.reverseGame_detect _) (by norm_num)
    (by norm_num [Scenario.playerOf]) Scenario.reverseGame_headroom]
  rw [if_neg (by norm_num)]
  show (true,
    startCurve Scenario.reverseGame
      { ClimbExitCorrector.init with m_startPos := ⟨0, 0, 40⟩, m_targetPos := ⟨0, 0, 60⟩ }
      20 ⟨0, 0, 0⟩,
    Scenario.reverseGame) = _
  simp only [startCurve, hsq, hspu, hv, hd, if_neg hn, h1, h2, h3, Scenario.startedReverse,
    Scenario.started]

theorem Scenario.startedReverse_updated :
    (Update Scenario.reverseGame Scenario.startedReverse (5 / 32)).2.1 = Scenario.reversed := by
  have hp : Scenario.reverseGame.player
      = some (Scenario.playerOf Scenario.floorPlanes ⟨0, 0, 40⟩ (some ⟨0, 0, 190⟩) none none) := rfl
  have hc : Scenario.startedReverse.isCorrecting = true := rfl
  have hq : Scenario.startedReverse.m_progress + 5 / 32 / Scenario.startedReverse.m_duration
      = -1 / 2 := by
    show (0 : ℚ) + 5 / 32 / (-5 / 16) = -1 / 2
    norm_num
  rw [Update_step Scenario.reverseGame Scenario.startedReverse (5 / 32) _ hc hp, hq,
    if_neg (by norm_num)]
  rfl

/-- C18, as stated, fails: with the seconds-per-unit setting at `-1/64`, the
state after `StartCorrection` and one `Update(5/32)` is reachable by the calls
of the claim and has `isCorrecting = true` with `progress = -1/2`. -/
theorem ReachableByCalls_negative_progress :
    ReachableByCalls Scenario.reversed ∧
    (Update Scenario.reverseGame
      (StartCorrection Scenario.reverseGame ClimbExitCorrector.init ⟨0, 0, 0⟩).2.1
      (5 / 32)).2.1 = Scenario.reversed ∧
    Scenario.reversed.isCorrecting = true ∧
    Scenario.reversed.m_progress = -1 / 2 ∧
    ¬ (0 ≤ Scenario.reversed.m_progress ∧ Scenario.reversed.m_progress < 1) := by
  have h1 := ReachableByCalls.startCorrection Scenario.reverseGame ⟨0, 0, 0⟩
    ClimbExitCorrector.init ReachableByCalls.init
  rw [Scenario.reverseGame_started] at h1
  have h2 := ReachableByCalls.update Scenario.reverseGame (5 / 32) Scenario.startedReverse
    (by norm_num) h1
  rw [Scenario.startedReverse_updated] at h2
  refine ⟨h2, ?_, rfl, rfl, ?_⟩
  · rw [Scenario.reverseGame_started]
    exact Scenario.startedReverse_updated
  · intro h
    have h0 : (0 : ℚ) ≤ -1 / 2 := h.1
    norm_num at h0

/-- C18 (amended): in every controller state reachable from the freshly
constructed one by `StartCorrection`, `Update` (with `deltaTime >= 0`),
`Cancel`, `UpdateSafePositionCheck` and `ClearSafePosition` calls in which
every `Update` made while correcting finds a stored duration above 0, if
`isCorrecting` is true then `0 <= progress < 1`; this holds for every rounding
`rnd` of the progress arithmetic that keeps non-negative values
non-negative. -/
theorem ReachableWithDuration_progress_bounds (rnd : ℚ → ℚ)
    (hrnd : ∀ x : ℚ, 0 ≤ x → 0 ≤ rnd x) (s : ClimbExitCorrector)
    (hr : ReachableWithDuration rnd s) (hc : s.isCorrecting = true) :
    0 ≤ s.m_progress ∧ s.m_progress < 1 := by
  induction hr with
  | init => cases hc
  | startCorrection g v s _ ih =>
    cases hs : s.isCorrecting
    · by_cases ha : (DetectCorrectionNeeded g ⟨0, 0, 0⟩).1 < 1 / 10
      · rw [StartCorrection_idle_small g s v hs ha] at hc
        rw [hs] at hc
        cases hc
      · obtain ⟨player, hp⟩ : ∃ player, g.player = some player := by
          rcases hp : g.player with _ | player
          · rw [DetectCorrectionNeeded_unavailable g _ (Or.inl hp)] at ha
            norm_num at ha
          · exact ⟨player, rfl⟩
        obtain ⟨hmd, hh⟩ : ∃ hmd, VRNodes.GetHMD g = some hmd := by
          rcases hh : VRNodes.GetHMD g with _ | hmd
          · rw [DetectCorrectionNeeded_unavailable g _ (Or.inr (Or.inl hh))] at ha
            norm_num at ha
          · exact ⟨hmd, rfl⟩
        have hcurve : ∀ (t : ClimbExitCorrector) (amount : ℚ),
            0 ≤ (startCurve g t amount v).m_progress ∧
            (startCurve g t amount v).m_progress < 1 := by
          intro t amount
          show (0 : ℚ) ≤ 0 ∧ (0 : ℚ) < 1
          norm_num
        rw [StartCorrection_idle_eq g s v player hmd _ _ _ _ hs hp hh rfl ha rfl rfl] at hc ⊢
        split_ifs at hc ⊢
        · exact hcurve _ _
        · have hcs : s.isCorrecting = true := hc
          rw [hs] at hcs
          cases hcs
        · exact hcurve _ _
        · exact hcurve _ _
    · have h1 : StartCorrection g s v = (true, s, g) := by simp [StartCorrection, hs]
      rw [h1] at hc ⊢
      exact ih hc
  | update g dt s hdt hdur _ ih =>
    cases hs : s.isCorrecting
    · have h1 : UpdateRounded rnd g s dt = (false, s, g) := by simp [UpdateRounded, hs]
      rw [h1] at hc
      rw [hs] at hc
      cases hc
    · rcases hp : g.player with _ | player
      · have h1 : UpdateRounded rnd g s dt = (false, Cancel s, g) := by
          simp [UpdateRounded, hs, hp]
        rw [h1, Cancel_eq s] at hc
        cases hc
      · rw [UpdateRounded_step rnd g s dt player hs hp] at hc ⊢
        have hq : 0 ≤ dt / s.m_duration := div_nonneg hdt (hdur hs).le
        by_cases h1 : 1 ≤ rnd (s.m_progress + rnd (dt / s.m_duration))
        · rw [if_pos h1] at hc
          exact absurd hc (by simp)
        · rw [if_neg h1]
          exact ⟨hrnd _ (add_nonneg (ih hs).1 (hrnd _ hq)), not_le.mp h1⟩
  | cancel s _ _ =>
    rw [Cancel_eq s] at hc
    cases hc
  | updateSafePositionCheck g s _ ih =>
    obtain ⟨f1, _, _, _, f5, _⟩ := UpdateSafePositionCheck_frame g s
    rw [f1] at hc
    rw [f5]
    exact ih hc
  | clearSafePosition s _ ih => exact ih hc

theorem roundBinary32_five_sixteenths : roundBinary32 (5 / 16) = 5 / 16 := by
  rw [roundBinary32_eq (5 / 16) (-2) 10485760 (by norm_num) (by norm_num)
    (by rw [abs_lt]; constructor <;> norm_num)]
  norm_num

theorem Scenario.started_advanced :
    (UpdateRounded roundBinary32 Scenario.standGame Scenario.started (1 / 16)).2.1
      = Scenario.advanced := by
  have hp : Scenario.standGame.player
      = some (Scenario.playerOf Scenario.floorPlanes ⟨0, 0, 40⟩ (some ⟨0, 0, 190⟩) none none) := rfl
  have hc : Scenario.started.isCorrecting = true := rfl
  have hq : roundBinary32 (Scenario.started.m_progress
      + roundBinary32 (1 / 16 / Scenario.started.m_duration)) = 5 / 16 := by
    show roundBinary32 ((0 : ℚ) + roundBinary32 (1 / 16 / (1 / 5))) = 5 / 16
    have e1 : (1 : ℚ) / 16 / (1 / 5) = 5 / 16 := by norm_num
    have e2 : (0 : ℚ) + 5 / 16 = 5 / 16 := by norm_num
    rw [e1, roundBinary32_five_sixteenths, e2, roundBinary32_five_sixteenths]
  rw [UpdateRounded_step roundBinary32 Scenario.standGame Scenario.started (1 / 16) _ hc hp, hq,
    if_neg (by norm_num)]
  rfl

/-- Witness of C18 (amended), in binary32 arithmetic: the controller after
`StartCorrection` in the standing scenario (duration `1/5`) and one `Update` of
`1/16` seconds is reachable, is correcting, and has progress `5/16`. -/
theorem ReachableWithDuration_progress_bounds_witness :
    ReachableWithDuration roundBinary32 Scenario.advanced ∧
    Scenario.advanced.isCorrecting = true ∧ Scenario.advanced.m_progress = 5 / 16 ∧
    0 ≤ Scenario.advanced.m_progress ∧ Scenario.advanced.m_progress < 1 := by
  have h1 := @ReachableWithDuration.startCorrection roundBinary32 Scenario.standGame
    ⟨0, 0, 0⟩ ClimbExitCorrector.init ReachableWithDuration.init
  rw [Scenario.standGame_started] at h1
  have h2 := ReachableWithDuration.update Scenario.standGame (1 / 16) Scenario.started
    (by norm_num) (fun _ => by show (0 : ℚ) < 1 / 5; norm_num) h1
  rw [Scenario.started_advanced] at h2
  exact ⟨h2, rfl, rfl,
    ReachableWithDuration_progress_bounds roundBinary32 roundBinary32_nonneg Scenario.advanced
      h2 rfl⟩
